import Mathlib

/-!
Shallow embedding of the maternal-health AI core of this repository:

* the diagnostic reasoning engine (`DiagnosticReasoningEngine`, from the
  `DiagnosticReasoningEngine.ts` module),
* the conversational engine's emergency pre-check pipeline
  (`AIConversationalEngine`, from `services/ai` index module),
* the multi-agent orchestrator (`MultiAgentSystem.ts`).

Conventions of the embedding:

* JS numbers are modelled as exact rationals `ℚ` (the arithmetic used by the
  engine is plain +, *, min and comparisons on small decimal literals).
* JS strings are Lean `String`s; `String.toLower` models `toLowerCase`,
  substring tests are implemented on `List Char`.
* `async` methods have no genuine concurrency in the source (they are pure
  computations awaited immediately); they are modelled as pure functions.
  Rejected promises are modelled with `Except String`.
* Fields of results that only carry presentation traces (the
  `explanationTrace` / `justification` / `reasoning` blobs) and the
  persistence side effects (Supabase calls, console timing) are not part of
  the embedding; no claim refers to them.
-/

/-! ## String utilities (models of JS `String.prototype` operations) -/

/-- Exact list equality on a leading segment: does `pat` start `l`
after mapping both through `f` (so `f := id` gives JS `startsWith`,
`f := Char.toLower` gives a case-insensitive match). -/
def startsWithBy (f : Char → Char) : List Char → List Char → Bool
  | [], _ => true
  | _ :: _, [] => false
  | a :: as, b :: bs => (f a == f b) && startsWithBy f as bs

/-- Substring containment under a character normalisation `f`. -/
def containsBy (f : Char → Char) (pat : List Char) : List Char → Bool
  | [] => startsWithBy f pat []
  | c :: cs => startsWithBy f pat (c :: cs) || containsBy f pat cs

/-- Model of JS `s.includes(pat)` (exact, case-sensitive). -/
def strIncludes (s pat : String) : Bool := containsBy id pat.toList s.toList

/-- Case-insensitive substring test: model of `/literal/i.test(s)`. -/
def containsCI (s pat : String) : Bool :=
  containsBy Char.toLower pat.toList s.toList

/-- Model of JS `s.replace(/pat/i, repl)`: replace the first (leftmost)
case-insensitive occurrence of the literal `pat`, or return `s` unchanged. -/
def replaceFirstCIList (pat repl : List Char) : List Char → List Char
  | [] => if startsWithBy Char.toLower pat [] then repl else []
  | c :: cs =>
    if startsWithBy Char.toLower pat (c :: cs) then repl ++ (c :: cs).drop pat.length
    else c :: replaceFirstCIList pat repl cs

/-- String wrapper for `replaceFirstCIList`. -/
def replaceFirstCI (s pat repl : String) : String :=
  String.mk (replaceFirstCIList pat.toList repl.toList s.toList)

/-- Model of JS `s.replace('pat', repl)` (string pattern: first exact
occurrence). -/
def replaceFirstList (pat repl : List Char) : List Char → List Char
  | [] => if startsWithBy id pat [] then repl else []
  | c :: cs =>
    if startsWithBy id pat (c :: cs) then repl ++ (c :: cs).drop pat.length
    else c :: replaceFirstList pat repl cs

/-- String wrapper for `replaceFirstList`. -/
def replaceFirst (s pat repl : String) : String :=
  String.mk (replaceFirstList pat.toList repl.toList s.toList)

/-- JS `Array.prototype.join(', ')` over strings. -/
def joinComma (l : List String) : String := String.intercalate ", " l

/-- Model of JS `s.toLowerCase()` (character-wise lowering; equivalent to
`String.toLower`, defined through `List.map` so that concrete instances
evaluate in the kernel). -/
def lowerStr (s : String) : String := String.mk (s.toList.map Char.toLower)

/-- Model of JS `Math.min` on the rationals (definitionally an `if`, so that
concrete instances evaluate in the kernel). -/
def mathMin (a b : ℚ) : ℚ := if a ≤ b then a else b

theorem mathMin_le_right (a b : ℚ) : mathMin a b ≤ b := by
  unfold mathMin
  by_cases h : a ≤ b
  · rw [if_pos h]; exact h
  · rw [if_neg h]

theorem mathMin_mono_left (a b c : ℚ) (h : a ≤ b) : mathMin a c ≤ mathMin b c := by
  unfold mathMin
  by_cases h1 : a ≤ c <;> by_cases h2 : b ≤ c <;>
    simp only [h1, h2, if_true, if_false] <;> linarith

/-! ## Shared enumerations -/

/-- The four risk levels of the database schema (`RiskLevel`). -/
inductive RiskLevel
  | level_1 | level_2 | level_3 | level_4
deriving DecidableEq, Repr, BEq

/-- Symptom/condition severity scale. -/
inductive Severity
  | mild | moderate | severe | critical
deriving DecidableEq, Repr, BEq

/-- Diagnostic urgency scale of the reasoning engine. -/
inductive Urgency
  | routine | soon | urgent | emergency
deriving DecidableEq, Repr, BEq

/-- Position of a risk level in the source's
`['level_1','level_2','level_3','level_4']` order array. -/
def riskIdx : RiskLevel → Nat
  | .level_1 => 0 | .level_2 => 1 | .level_3 => 2 | .level_4 => 3

/-- Position of an urgency in `['routine','soon','urgent','emergency']`. -/
def urgIdx : Urgency → Nat
  | .routine => 0 | .soon => 1 | .urgent => 2 | .emergency => 3

/-! ## Diagnostic reasoning engine: data model -/

/-- `SymptomInput` of the diagnostic engine. -/
structure SymptomInput where
  name : String
  severity : Severity
  duration : Option String := none
  frequency : Option String := none
  associatedSymptoms : Option (List String) := none
  bodyLocation : Option String := none
deriving DecidableEq, Repr

/-- `PregnancyStage`. `trimester` is typed `1 | 2 | 3` in the source; it is
modelled as a bare `Nat` (the engine only ever compares it with `==`). -/
structure PregnancyStage where
  weeksGestation : ℚ
  trimester : Nat
  expectedDeliveryDate : Option String := none
  previousPregnancies : Option Nat := none
  previousComplications : Option (List String) := none
deriving DecidableEq, Repr

/-- `MedicalHistory`. -/
structure MedicalHistory where
  conditions : List String := []
  medications : List String := []
  allergies : List String := []
  surgeries : Option (List String) := none
  familyHistory : Option (List String) := none
deriving DecidableEq, Repr

/-- `VitalSignsInput`: every field optional, as in the source. -/
structure VitalSignsInput where
  systolicBP : Option ℚ := none
  diastolicBP : Option ℚ := none
  heartRate : Option ℚ := none
  temperature : Option ℚ := none
  weight : Option ℚ := none
  oxygenSaturation : Option ℚ := none
deriving DecidableEq, Repr

/-- `DiagnosticInput`. -/
structure DiagnosticInput where
  symptoms : List SymptomInput
  pregnancyStage : PregnancyStage
  medicalHistory : MedicalHistory
  riskFactors : List String
  vitalSigns : Option VitalSignsInput := none
deriving DecidableEq, Repr

/-- One `{ symptom, weight }` pair of a condition definition. -/
structure SymptomWeight where
  symptom : String
  weight : ℚ
deriving DecidableEq, Repr

/-- One `{ factor, multiplier }` pair of a condition definition. -/
structure RiskFactorMult where
  factor : String
  multiplier : ℚ
deriving DecidableEq, Repr

/-- One `{ trimester, multiplier }` entry of a condition definition. -/
structure TrimesterRel where
  trimester : Nat
  multiplier : ℚ
deriving DecidableEq, Repr

/-- Vital-sign key of a `VitalSignIndicator`. -/
inductive VSign
  | systolicBP | diastolicBP | heartRate | temperature | oxygenSaturation
deriving DecidableEq, Repr

/-- Comparison operator of a `VitalSignIndicator`. -/
inductive VOp
  | gt | lt | ge | le
deriving DecidableEq, Repr

/-- `VitalSignIndicator`. -/
structure VitalSignIndicator where
  sign : VSign
  threshold : ℚ
  operator : VOp
  weight : ℚ
deriving DecidableEq, Repr

/-- `ConditionDefinition` of the static obstetric knowledgebase. -/
structure ConditionDefinition where
  name : String
  icdCode : String
  baseProbability : ℚ
  symptoms : List SymptomWeight
  riskFactors : List RiskFactorMult
  trimesterRelevance : List TrimesterRel
  vitalSignIndicators : Option (List VitalSignIndicator) := none
  severity : Severity
  urgency : Urgency
  description : String
  recommendedTests : List String
deriving DecidableEq, Repr

/-- `DifferentialCondition` of a diagnostic result. -/
structure DifferentialCondition where
  condition : String
  probability : ℚ
  severity : Severity
  description : String
  matchingSymptoms : List String
  recommendedTests : Option (List String) := none
  icdCode : Option String := none
deriving DecidableEq, Repr

/-- Recommendation type tag. -/
inductive RecType
  | action | test | referral | medication | lifestyle
deriving DecidableEq, Repr

/-- Recommendation priority tag. -/
inductive RecPriority
  | low | medium | high | critical
deriving DecidableEq, Repr

/-- `Recommendation`. -/
structure Recommendation where
  type : RecType
  priority : RecPriority
  description : String
  rationale : String
  timeframe : Option String := none
deriving DecidableEq, Repr

/-- `DiagnosticResult`. The `explanationTrace` and `justification` fields of
the source are presentation-only blobs (reasoning-step prose, rule logs,
feature weights) and are not part of the embedding. -/
structure DiagnosticResult where
  differentialConditions : List DifferentialCondition
  overallRiskLevel : RiskLevel
  urgency : Urgency
  recommendations : List Recommendation
  confidence : ℚ
  disclaimers : List String
deriving DecidableEq, Repr

/-! ## Obstetric conditions database (`OBSTETRIC_CONDITIONS`) -/

/-- Knowledgebase entry: Preeclampsia. -/
def condPreeclampsia : ConditionDefinition where
  name := "Preeclampsia"
  icdCode := "O14.9"
  baseProbability := 0.05
  symptoms := [⟨"headache", 0.6⟩, ⟨"swelling", 0.7⟩, ⟨"visual disturbances", 0.8⟩,
    ⟨"upper abdominal pain", 0.7⟩, ⟨"nausea", 0.4⟩, ⟨"rapid weight gain", 0.5⟩]
  riskFactors := [⟨"first_pregnancy", 1.5⟩, ⟨"previous_preeclampsia", 3.0⟩,
    ⟨"chronic_hypertension", 2.5⟩, ⟨"diabetes", 1.8⟩, ⟨"obesity", 1.5⟩,
    ⟨"age_over_35", 1.3⟩, ⟨"multiple_pregnancy", 2.0⟩]
  trimesterRelevance := [⟨1, 0.2⟩, ⟨2, 0.8⟩, ⟨3, 1.5⟩]
  vitalSignIndicators := some [⟨.systolicBP, 140, .ge, 0.9⟩, ⟨.diastolicBP, 90, .ge, 0.9⟩]
  severity := .severe
  urgency := .urgent
  description := "A pregnancy complication characterized by high blood pressure and signs of organ damage."
  recommendedTests := ["Blood pressure monitoring", "Urine protein test",
    "Blood tests (liver, kidney function)", "Fetal monitoring"]

/-- Knowledgebase entry: Gestational Diabetes. -/
def condGestationalDiabetes : ConditionDefinition where
  name := "Gestational Diabetes"
  icdCode := "O24.4"
  baseProbability := 0.08
  symptoms := [⟨"increased thirst", 0.6⟩, ⟨"frequent urination", 0.6⟩, ⟨"fatigue", 0.4⟩,
    ⟨"blurred vision", 0.5⟩, ⟨"recurrent infections", 0.4⟩]
  riskFactors := [⟨"obesity", 2.0⟩, ⟨"family_history_diabetes", 1.8⟩,
    ⟨"previous_gestational_diabetes", 2.5⟩, ⟨"age_over_35", 1.3⟩, ⟨"pcos", 1.5⟩]
  trimesterRelevance := [⟨1, 0.3⟩, ⟨2, 1.2⟩, ⟨3, 1.0⟩]
  severity := .moderate
  urgency := .soon
  description := "Diabetes that develops during pregnancy and usually resolves after delivery."
  recommendedTests := ["Glucose tolerance test", "Fasting blood glucose", "HbA1c"]

/-- Knowledgebase entry: Placenta Previa. -/
def condPlacentaPrevia : ConditionDefinition where
  name := "Placenta Previa"
  icdCode := "O44.0"
  baseProbability := 0.01
  symptoms := [⟨"painless vaginal bleeding", 0.9⟩, ⟨"bleeding", 0.7⟩, ⟨"spotting", 0.5⟩]
  riskFactors := [⟨"previous_cesarean", 2.0⟩, ⟨"previous_placenta_previa", 3.0⟩,
    ⟨"multiple_pregnancy", 1.5⟩, ⟨"uterine_surgery", 1.8⟩, ⟨"smoking", 1.5⟩]
  trimesterRelevance := [⟨1, 0.5⟩, ⟨2, 1.0⟩, ⟨3, 1.5⟩]
  severity := .severe
  urgency := .urgent
  description := "A condition where the placenta partially or fully covers the cervix."
  recommendedTests := ["Ultrasound", "Transvaginal ultrasound", "MRI if needed"]

/-- Knowledgebase entry: Preterm Labor. -/
def condPretermLabor : ConditionDefinition where
  name := "Preterm Labor"
  icdCode := "O60.0"
  baseProbability := 0.10
  symptoms := [⟨"contractions", 0.9⟩, ⟨"cramping", 0.7⟩, ⟨"back pain", 0.6⟩,
    ⟨"pelvic pressure", 0.7⟩, ⟨"vaginal discharge", 0.5⟩, ⟨"water leaking", 0.9⟩]
  riskFactors := [⟨"previous_preterm_birth", 2.5⟩, ⟨"multiple_pregnancy", 2.0⟩,
    ⟨"cervical_incompetence", 2.5⟩, ⟨"infection", 1.5⟩, ⟨"smoking", 1.3⟩]
  trimesterRelevance := [⟨1, 0.1⟩, ⟨2, 1.5⟩, ⟨3, 1.0⟩]
  severity := .severe
  urgency := .emergency
  description := "Labor that begins before 37 weeks of pregnancy."
  recommendedTests := ["Cervical examination", "Fetal fibronectin test",
    "Ultrasound for cervical length"]

/-- Knowledgebase entry: Ectopic Pregnancy (the only condition with a
trimester-relevance multiplier of 0, in trimester 3). -/
def condEctopicPregnancy : ConditionDefinition where
  name := "Ectopic Pregnancy"
  icdCode := "O00.9"
  baseProbability := 0.02
  symptoms := [⟨"one-sided abdominal pain", 0.9⟩, ⟨"vaginal bleeding", 0.7⟩,
    ⟨"shoulder pain", 0.6⟩, ⟨"dizziness", 0.6⟩, ⟨"nausea", 0.4⟩]
  riskFactors := [⟨"previous_ectopic", 3.0⟩, ⟨"pelvic_inflammatory_disease", 2.0⟩,
    ⟨"tubal_surgery", 2.5⟩, ⟨"ivf", 1.5⟩, ⟨"iud", 1.5⟩]
  trimesterRelevance := [⟨1, 3.0⟩, ⟨2, 0.1⟩, ⟨3, 0.0⟩]
  severity := .critical
  urgency := .emergency
  description := "A pregnancy where the fertilized egg implants outside the uterus."
  recommendedTests := ["hCG levels", "Transvaginal ultrasound", "Progesterone levels"]

/-- Knowledgebase entry: Hyperemesis Gravidarum. -/
def condHyperemesis : ConditionDefinition where
  name := "Hyperemesis Gravidarum"
  icdCode := "O21.1"
  baseProbability := 0.03
  symptoms := [⟨"severe nausea", 0.9⟩, ⟨"persistent vomiting", 0.9⟩, ⟨"weight loss", 0.7⟩,
    ⟨"dehydration", 0.8⟩, ⟨"fatigue", 0.5⟩]
  riskFactors := [⟨"previous_hyperemesis", 2.5⟩, ⟨"multiple_pregnancy", 1.5⟩,
    ⟨"first_pregnancy", 1.2⟩, ⟨"history_motion_sickness", 1.3⟩]
  trimesterRelevance := [⟨1, 2.0⟩, ⟨2, 0.8⟩, ⟨3, 0.3⟩]
  severity := .moderate
  urgency := .soon
  description := "Severe nausea and vomiting during pregnancy that can lead to dehydration."
  recommendedTests := ["Electrolyte panel", "Ketone levels", "Thyroid function tests"]

/-- Knowledgebase entry: Urinary Tract Infection. -/
def condUTI : ConditionDefinition where
  name := "Urinary Tract Infection"
  icdCode := "O23.1"
  baseProbability := 0.08
  symptoms := [⟨"burning urination", 0.9⟩, ⟨"frequent urination", 0.7⟩, ⟨"pelvic pain", 0.6⟩,
    ⟨"cloudy urine", 0.7⟩, ⟨"fever", 0.6⟩, ⟨"back pain", 0.5⟩]
  riskFactors := [⟨"previous_uti", 2.0⟩, ⟨"diabetes", 1.5⟩, ⟨"sexual_activity", 1.3⟩]
  trimesterRelevance := [⟨1, 1.0⟩, ⟨2, 1.2⟩, ⟨3, 1.3⟩]
  severity := .moderate
  urgency := .soon
  description := "Bacterial infection of the urinary tract, common in pregnancy."
  recommendedTests := ["Urinalysis", "Urine culture", "Complete blood count"]

/-- Knowledgebase entry: Anemia in Pregnancy. -/
def condAnemia : ConditionDefinition where
  name := "Anemia in Pregnancy"
  icdCode := "O99.0"
  baseProbability := 0.15
  symptoms := [⟨"fatigue", 0.8⟩, ⟨"weakness", 0.7⟩, ⟨"shortness of breath", 0.6⟩,
    ⟨"dizziness", 0.6⟩, ⟨"pale skin", 0.7⟩, ⟨"rapid heartbeat", 0.5⟩]
  riskFactors := [⟨"poor_nutrition", 1.8⟩, ⟨"multiple_pregnancy", 1.5⟩,
    ⟨"heavy_periods_history", 1.4⟩, ⟨"vegetarian", 1.3⟩]
  trimesterRelevance := [⟨1, 0.8⟩, ⟨2, 1.2⟩, ⟨3, 1.5⟩]
  severity := .mild
  urgency := .routine
  description := "Low red blood cell count during pregnancy, often due to iron deficiency."
  recommendedTests := ["Complete blood count", "Iron studies", "Ferritin level"]

/-- The static obstetric knowledgebase, in source order. -/
def OBSTETRIC_CONDITIONS : List ConditionDefinition :=
  [condPreeclampsia, condGestationalDiabetes, condPlacentaPrevia, condPretermLabor,
   condEctopicPregnancy, condHyperemesis, condUTI, condAnemia]

/-! ## Obstetric rules (`OBSTETRIC_RULES`) -/

/-- Output block of an `ObstetricRule`. -/
structure RuleOutput where
  addRisk : RiskLevel
  urgency : Urgency
  recommendation : String
  rationale : String
deriving DecidableEq, Repr

/-- `ObstetricRule`: a boolean predicate over the whole diagnostic input plus
an output block. -/
structure ObstetricRule where
  id : String
  name : String
  description : String
  condition : DiagnosticInput → Bool
  output : RuleOutput

/-- JS `input.vitalSigns?.field || 0`: optional chaining plus `|| 0`
(both `undefined` and `0` collapse to `0`). -/
def vitalOrZero (vs : Option VitalSignsInput) (f : VitalSignsInput → Option ℚ) : ℚ :=
  (vs.bind f).getD 0

/-- RULE_001 Hypertensive Emergency: BP >= 160/110. -/
def RULE_001 : ObstetricRule where
  id := "RULE_001"
  name := "Hypertensive Emergency"
  description := "Blood pressure >= 160/110 mmHg requires immediate attention"
  condition := fun input =>
    decide (vitalOrZero input.vitalSigns VitalSignsInput.systolicBP ≥ 160) ||
    decide (vitalOrZero input.vitalSigns VitalSignsInput.diastolicBP ≥ 110)
  output := ⟨.level_4, .emergency, "Immediate medical evaluation required",
    "Severely elevated blood pressure in pregnancy can lead to stroke, organ damage, or eclampsia"⟩

/-- RULE_002 Third Trimester Bleeding. -/
def RULE_002 : ObstetricRule where
  id := "RULE_002"
  name := "Third Trimester Bleeding"
  description := "Any vaginal bleeding in third trimester requires urgent evaluation"
  condition := fun input =>
    (input.symptoms.any (fun s =>
      strIncludes (lowerStr s.name) "bleeding" || strIncludes (lowerStr s.name) "spotting")) &&
    (input.pregnancyStage.trimester == 3)
  output := ⟨.level_3, .urgent, "Urgent obstetric evaluation required",
    "Third trimester bleeding may indicate placenta previa, placental abruption, or labor"⟩

/-- RULE_003 Reduced Fetal Movement. -/
def RULE_003 : ObstetricRule where
  id := "RULE_003"
  name := "Reduced Fetal Movement"
  description := "Decreased fetal movement in late pregnancy requires monitoring"
  condition := fun input =>
    (input.symptoms.any (fun s =>
      strIncludes (lowerStr s.name) "movement" || strIncludes (lowerStr s.name) "baby not moving")) &&
    decide (input.pregnancyStage.weeksGestation ≥ 28)
  output := ⟨.level_3, .urgent, "Fetal monitoring and evaluation recommended within 24 hours",
    "Reduced fetal movement can indicate fetal distress and requires assessment"⟩

/-- RULE_004 Preterm Labor Signs. -/
def RULE_004 : ObstetricRule where
  id := "RULE_004"
  name := "Preterm Labor Signs"
  description := "Signs of labor before 37 weeks require immediate evaluation"
  condition := fun input =>
    (input.symptoms.any (fun s =>
      strIncludes (lowerStr s.name) "contractions" ||
      strIncludes (lowerStr s.name) "water broke" ||
      strIncludes (lowerStr s.name) "leaking fluid")) &&
    decide (input.pregnancyStage.weeksGestation < 37)
  output := ⟨.level_4, .emergency, "Emergency evaluation for preterm labor",
    "Preterm labor may lead to premature birth and requires immediate intervention"⟩

/-- RULE_005 High Fever in Pregnancy: temperature >= 38°C. -/
def RULE_005 : ObstetricRule where
  id := "RULE_005"
  name := "High Fever in Pregnancy"
  description := "Temperature >= 38°C (100.4°F) requires evaluation"
  condition := fun input =>
    decide (vitalOrZero input.vitalSigns VitalSignsInput.temperature ≥ 38)
  output := ⟨.level_2, .soon, "Medical evaluation within 24 hours",
    "High fever in pregnancy can harm the developing baby and may indicate infection"⟩

/-- RULE_006 Multiple High-Risk Factors: three or more risk factors. -/
def RULE_006 : ObstetricRule where
  id := "RULE_006"
  name := "Multiple High-Risk Factors"
  description := "Multiple risk factors compound pregnancy risk"
  condition := fun input => decide (input.riskFactors.length ≥ 3)
  output := ⟨.level_2, .soon, "Schedule high-risk pregnancy consultation",
    "Multiple risk factors increase the likelihood of pregnancy complications"⟩

/-- The deterministic obstetric rule table, in source order. -/
def OBSTETRIC_RULES : List ObstetricRule :=
  [RULE_001, RULE_002, RULE_003, RULE_004, RULE_005, RULE_006]

/-! ## Diagnostic reasoning engine: operations -/

namespace DiagnosticReasoningEngine

/-- `getHigherRiskLevel`: keep the risk level that sits later in the fixed
order array (the source compares `indexOf` positions). -/
def getHigherRiskLevel (current newLevel : RiskLevel) : RiskLevel :=
  if riskIdx newLevel > riskIdx current then newLevel else current

/-- `getHigherUrgency`. -/
def getHigherUrgency (current newUrgency : Urgency) : Urgency :=
  if urgIdx newUrgency > urgIdx current then newUrgency else current

/-- `urgencyToPriority`. -/
def urgencyToPriority : Urgency → RecPriority
  | .routine => .low
  | .soon => .medium
  | .urgent => .high
  | .emergency => .critical

/-- `urgencyToTimeframe`. -/
def urgencyToTimeframe : Urgency → String
  | .routine => "Within 1-2 weeks"
  | .soon => "Within 24-48 hours"
  | .urgent => "Within hours"
  | .emergency => "Immediately"

/-- `severityToRiskLevel` (the `level_2` fallback of the source map lookup is
unreachable: the map is total on the severity type). -/
def severityToRiskLevel : Severity → RiskLevel
  | .mild => .level_1
  | .moderate => .level_2
  | .severe => .level_3
  | .critical => .level_4

/-- `severityToWeight`. -/
def severityToWeight : Severity → ℚ
  | .mild => 0.3
  | .moderate => 0.5
  | .severe => 0.8
  | .critical => 1.0

/-- Does one of the input symptoms match a knowledgebase symptom name
(`s.name.toLowerCase().includes(symptomDef.symptom.toLowerCase())`)? -/
def symptomMatches (symptoms : List SymptomInput) (pat : String) : Bool :=
  symptoms.any (fun s => strIncludes (lowerStr s.name) (lowerStr pat))

/-- Look a vital-sign indicator key up in the vitals record. -/
def vsValue (vs : VitalSignsInput) : VSign → Option ℚ
  | .systolicBP => vs.systolicBP
  | .diastolicBP => vs.diastolicBP
  | .heartRate => vs.heartRate
  | .temperature => vs.temperature
  | .oxygenSaturation => vs.oxygenSaturation

/-- Evaluate a vital-sign indicator's comparison operator. -/
def vsMatches (op : VOp) (value threshold : ℚ) : Bool :=
  match op with
  | .gt => decide (value > threshold)
  | .lt => decide (value < threshold)
  | .ge => decide (value ≥ threshold)
  | .le => decide (value ≤ threshold)

/-- Symptom-weight accumulation step of `calculateBayesianProbability`:
`probability += symptomDef.weight * 0.3` for each matched symptom entry. -/
def symptomFold (defs : List SymptomWeight) (symptoms : List SymptomInput) (p0 : ℚ) : ℚ :=
  defs.foldl (fun p sd => if symptomMatches symptoms sd.symptom then p + sd.weight * 0.3 else p) p0

/-- Risk-factor multiplication step: `probability *= riskDef.multiplier` for
each matched risk factor. -/
def riskFactorFold (defs : List RiskFactorMult) (riskFactors : List String) (p0 : ℚ) : ℚ :=
  defs.foldl (fun p rd => if riskFactors.contains rd.factor then p * rd.multiplier else p) p0

/-- Trimester-relevance step: multiply by the matching trimester entry, if
any. -/
def trimesterStep (rels : List TrimesterRel) (trimester : Nat) (p0 : ℚ) : ℚ :=
  match rels.find? (fun t => t.trimester == trimester) with
  | some tf => p0 * tf.multiplier
  | none => p0

/-- Vital-sign indicator step: `probability += indicator.weight * 0.2` for
each indicator whose vital is present and passes its comparison. -/
def vitalFold (inds : List VitalSignIndicator) (vs : VitalSignsInput) (p0 : ℚ) : ℚ :=
  inds.foldl (fun p ind =>
    match vsValue vs ind.sign with
    | some v => if vsMatches ind.operator v ind.threshold then p + ind.weight * 0.2 else p
    | none => p) p0

/-- `calculateBayesianProbability`, reduced to its posterior probability.
(The source wraps this value in a `BayesianFactor` record together with the
prior, a likelihood ratio and an evidence string; those extra fields feed
only the omitted explanation trace.) -/
def calculateBayesianProbability (c : ConditionDefinition) (input : DiagnosticInput) : ℚ :=
  let p1 := symptomFold c.symptoms input.symptoms c.baseProbability
  let p2 := riskFactorFold c.riskFactors input.riskFactors p1
  let p3 := trimesterStep c.trimesterRelevance input.pregnancyStage.trimester p2
  let p4 :=
    match c.vitalSignIndicators, input.vitalSigns with
    | some inds, some vs => vitalFold inds vs p3
    | _, _ => p3
  mathMin p4 0.95

/-- `getMatchingSymptoms`: names of the input symptoms matching each
knowledgebase symptom entry (first match per entry). -/
def getMatchingSymptoms (c : ConditionDefinition) (symptoms : List SymptomInput) : List String :=
  c.symptoms.foldl (fun acc sd =>
    match symptoms.find? (fun s => strIncludes (lowerStr s.name) (lowerStr sd.symptom)) with
    | some m => acc ++ [m.name]
    | none => acc) []

/-- Recommendation built from a triggered rule. -/
def ruleRecommendation (rule : ObstetricRule) : Recommendation where
  type := .action
  priority := urgencyToPriority rule.output.urgency
  description := rule.output.recommendation
  rationale := rule.output.rationale
  timeframe := some (urgencyToTimeframe rule.output.urgency)

/-- Step 1 of `analyze`: one rule of the rule loop (tracking
`maxRiskLevel`, `maxUrgency`, `ruleRecommendations`; the `rulesApplied`
trace entries are omitted). -/
def ruleStep (input : DiagnosticInput) (acc : RiskLevel × Urgency × List Recommendation)
    (rule : ObstetricRule) : RiskLevel × Urgency × List Recommendation :=
  if rule.condition input then
    (getHigherRiskLevel acc.1 rule.output.addRisk,
     getHigherUrgency acc.2.1 rule.output.urgency,
     acc.2.2 ++ [ruleRecommendation rule])
  else acc

/-- Step 1 of `analyze`: the whole rule loop, from
(`level_1`, `routine`, no recommendations). -/
def ruleScan (input : DiagnosticInput) : RiskLevel × Urgency × List Recommendation :=
  OBSTETRIC_RULES.foldl (ruleStep input) (.level_1, .routine, [])

/-- The differential entry built for a condition that passed the 0.1
threshold. -/
def mkDifferential (c : ConditionDefinition) (p : ℚ) (input : DiagnosticInput) :
    DifferentialCondition where
  condition := c.name
  probability := p
  severity := c.severity
  description := c.description
  matchingSymptoms := getMatchingSymptoms c input.symptoms
  recommendedTests := some c.recommendedTests
  icdCode := some c.icdCode

/-- Step 2 of `analyze`: one condition of the Bayesian loop. Conditions with
posterior > 0.1 join the differential list; those with posterior > 0.5 also
raise risk level and urgency. -/
def conditionStep (input : DiagnosticInput)
    (acc : List DifferentialCondition × RiskLevel × Urgency) (c : ConditionDefinition) :
    List DifferentialCondition × RiskLevel × Urgency :=
  let p := calculateBayesianProbability c input
  if p > 0.1 then
    let dcs := acc.1 ++ [mkDifferential c p input]
    if p > 0.5 then
      (dcs, getHigherRiskLevel acc.2.1 (severityToRiskLevel c.severity),
       getHigherUrgency acc.2.2 c.urgency)
    else (dcs, acc.2.1, acc.2.2)
  else acc

/-- Step 2 of `analyze`: the whole condition loop. -/
def conditionScan (input : DiagnosticInput) (r0 : RiskLevel) (u0 : Urgency) :
    List DifferentialCondition × RiskLevel × Urgency :=
  OBSTETRIC_CONDITIONS.foldl (conditionStep input) ([], r0, u0)

/-- Stable insertion of a differential into a probability-descending list:
together with `sortByProbDesc` this models the stable JS
`sort((a, b) => b.probability - a.probability)`. -/
def insertByProbDesc (a : DifferentialCondition) :
    List DifferentialCondition → List DifferentialCondition
  | [] => [a]
  | b :: bs => if b.probability > a.probability then b :: insertByProbDesc a bs else a :: b :: bs

/-- Stable sort by descending probability. -/
def sortByProbDesc : List DifferentialCondition → List DifferentialCondition
  | [] => []
  | a :: as => insertByProbDesc a (sortByProbDesc as)

/-- Rendering of a rational as a string. The source formats probabilities
with JS `toFixed`; the exact decimal rendering is presentation-only (it sits
inside `rationale` strings, which no logic inspects), so the embedding uses
the stock rational rendering. -/
def qToString (q : ℚ) : String := toString q

/-- Step 4 of `analyze`: condition-specific recommendations from the top 3
sorted differentials with probability > 0.3. -/
def conditionRecommendations (dcs : List DifferentialCondition) : List Recommendation :=
  (dcs.take 3).foldl (fun acc c =>
    if c.probability > 0.3 then
      acc ++ [{ type := .test,
                priority := if c.probability > 0.5 then .high else .medium,
                description := "Consider testing for " ++ c.condition,
                rationale := "Probability: " ++ qToString (c.probability * 100) ++
                  "% based on presenting symptoms",
                timeframe := some (if c.severity == .severe || c.severity == .critical
                  then "Within 24 hours" else "Within 1 week") }] ++
        (c.recommendedTests.getD []).map (fun t =>
          { type := .test, priority := .medium, description := t,
            rationale := "Recommended for " ++ c.condition ++ " evaluation",
            timeframe := none })
    else acc) []

/-- `deduplicateRecommendations`: keep the first occurrence of each
case-insensitive description (the source walks the list with a `seen` set of
lowercased descriptions). -/
def deduplicateRecommendations (recommendations : List Recommendation) : List Recommendation :=
  (recommendations.foldl (fun (acc : List Recommendation × List String) r =>
    let key := lowerStr r.description
    if acc.2.contains key then acc else (acc.1 ++ [r], acc.2 ++ [key])) ([], [])).1

/-- `calculateOverallConfidence`. The four reasoning steps of the source have
fixed confidences 1.0, 0.85, 0.9, 0.88. -/
def calculateOverallConfidence (conditions : List DifferentialCondition) : ℚ :=
  let stepConfidence : ℚ := (1.0 + 0.85 + 0.9 + 0.88) / 4
  let conditionClarity : ℚ :=
    match conditions with
    | c :: _ => mathMin (c.probability + 0.3) 1
    | [] => 0.5
  stepConfidence * 0.6 + conditionClarity * 0.4

/-- `analyze`: the full diagnostic pipeline (rule scan, Bayesian condition
scan, probability-descending sort, recommendation assembly with
deduplication). -/
def analyze (input : DiagnosticInput) : DiagnosticResult :=
  let rs := ruleScan input
  let cs := conditionScan input rs.1 rs.2.1
  let sorted := sortByProbDesc cs.1
  let allRecommendations := rs.2.2 ++ conditionRecommendations sorted
  { differentialConditions := sorted.take 5
    overallRiskLevel := cs.2.1
    urgency := cs.2.2
    recommendations := deduplicateRecommendations allRecommendations
    confidence := calculateOverallConfidence sorted
    disclaimers :=
      ["This diagnostic assessment is provided for informational purposes only.",
       "It is not a definitive diagnosis and should not replace professional medical advice.",
       "Always consult with a qualified healthcare provider for medical decisions.",
       "In case of emergency, seek immediate medical attention."] }

end DiagnosticReasoningEngine

/-! ## Basic lemmas about the risk/urgency lattice and the scan folds -/

namespace DiagnosticReasoningEngine

theorem le_getHigherRiskLevel (a b : RiskLevel) :
    riskIdx a ≤ riskIdx (getHigherRiskLevel a b) := by
  cases a <;> cases b <;> decide

theorem le_getHigherUrgency (a b : Urgency) :
    urgIdx a ≤ urgIdx (getHigherUrgency a b) := by
  cases a <;> cases b <;> decide

theorem getHigherRiskLevel_mono (a b x : RiskLevel) :
    riskIdx a ≤ riskIdx b →
    riskIdx (getHigherRiskLevel a x) ≤ riskIdx (getHigherRiskLevel b x) := by
  cases a <;> cases b <;> cases x <;> decide

theorem getHigherUrgency_mono (a b x : Urgency) :
    urgIdx a ≤ urgIdx b →
    urgIdx (getHigherUrgency a x) ≤ urgIdx (getHigherUrgency b x) := by
  cases a <;> cases b <;> cases x <;> decide

theorem arg_le_getHigherRiskLevel (a b : RiskLevel) :
    riskIdx b ≤ riskIdx (getHigherRiskLevel a b) := by
  cases a <;> cases b <;> decide

theorem arg_le_getHigherUrgency (a b : Urgency) :
    urgIdx b ≤ urgIdx (getHigherUrgency a b) := by
  cases a <;> cases b <;> decide

theorem eq_level4_of_riskIdx_ge (r : RiskLevel) (h : 3 ≤ riskIdx r) : r = .level_4 := by
  cases r <;> first | rfl | (exfalso; revert h; decide)

theorem eq_emergency_of_urgIdx_ge (u : Urgency) (h : 3 ≤ urgIdx u) : u = .emergency := by
  cases u <;> first | rfl | (exfalso; revert h; decide)

/-- The rule fold never lowers the accumulated risk level. -/
theorem foldl_ruleStep_risk_le (input : DiagnosticInput) (rules : List ObstetricRule)
    (acc : RiskLevel × Urgency × List Recommendation) :
    riskIdx acc.1 ≤ riskIdx ((rules.foldl (ruleStep input) acc)).1 := by
  induction rules generalizing acc with
  | nil => exact Nat.le_refl _
  | cons r rs ih =>
    refine Nat.le_trans ?_ (ih (ruleStep input acc r))
    unfold ruleStep
    by_cases h : r.condition input = true
    · simp only [h, if_true]
      exact le_getHigherRiskLevel _ _
    · simp only [h]
      simp

/-- The rule fold never lowers the accumulated urgency. -/
theorem foldl_ruleStep_urg_le (input : DiagnosticInput) (rules : List ObstetricRule)
    (acc : RiskLevel × Urgency × List Recommendation) :
    urgIdx acc.2.1 ≤ urgIdx ((rules.foldl (ruleStep input) acc)).2.1 := by
  induction rules generalizing acc with
  | nil => exact Nat.le_refl _
  | cons r rs ih =>
    refine Nat.le_trans ?_ (ih (ruleStep input acc r))
    unfold ruleStep
    by_cases h : r.condition input = true
    · simp only [h, if_true]
      exact le_getHigherUrgency _ _
    · simp only [h]
      simp

/-- The condition fold never lowers the accumulated risk level. -/
theorem foldl_conditionStep_risk_le (input : DiagnosticInput)
    (conds : List ConditionDefinition)
    (acc : List DifferentialCondition × RiskLevel × Urgency) :
    riskIdx acc.2.1 ≤ riskIdx ((conds.foldl (conditionStep input) acc)).2.1 := by
  induction conds generalizing acc with
  | nil => exact Nat.le_refl _
  | cons c cs ih =>
    refine Nat.le_trans ?_ (ih (conditionStep input acc c))
    unfold conditionStep
    by_cases h1 : calculateBayesianProbability c input > 0.1
    · simp only [h1, if_true]
      by_cases h2 : calculateBayesianProbability c input > 0.5
      · simp only [h2, if_true]
        exact le_getHigherRiskLevel _ _
      · simp only [h2]
        simp
    · simp only [h1]
      simp

/-- The condition fold never lowers the accumulated urgency. -/
theorem foldl_conditionStep_urg_le (input : DiagnosticInput)
    (conds : List ConditionDefinition)
    (acc : List DifferentialCondition × RiskLevel × Urgency) :
    urgIdx acc.2.2 ≤ urgIdx ((conds.foldl (conditionStep input) acc)).2.2 := by
  induction conds generalizing acc with
  | nil => exact Nat.le_refl _
  | cons c cs ih =>
    refine Nat.le_trans ?_ (ih (conditionStep input acc c))
    unfold conditionStep
    by_cases h1 : calculateBayesianProbability c input > 0.1
    · simp only [h1, if_true]
      by_cases h2 : calculateBayesianProbability c input > 0.5
      · simp only [h2, if_true]
        exact le_getHigherUrgency _ _
      · simp only [h2]
        simp
    · simp only [h1]
      simp

end DiagnosticReasoningEngine

/-! ## Claim C7: hypertensive-emergency rule forces level 4 / emergency -/

namespace DiagnosticReasoningEngine

theorem ruleStep_rule001_fires (input : DiagnosticInput)
    (hcond : RULE_001.condition input = true) :
    ruleStep input (RiskLevel.level_1, Urgency.routine, ([] : List Recommendation)) RULE_001
      = (RiskLevel.level_4, Urgency.emergency, [ruleRecommendation RULE_001]) := by
  unfold ruleStep
  rw [hcond]
  rfl

theorem analyze_riskLevel_eq (input : DiagnosticInput) :
    (analyze input).overallRiskLevel
      = (conditionScan input (ruleScan input).1 (ruleScan input).2.1).2.1 := rfl

theorem analyze_urgency_eq (input : DiagnosticInput) :
    (analyze input).urgency
      = (conditionScan input (ruleScan input).1 (ruleScan input).2.1).2.2 := rfl

end DiagnosticReasoningEngine

/-- C7: for every `DiagnosticInput` whose vitals give systolic BP ≥ 160 or
diastolic BP ≥ 110 (in particular systolic 165 / diastolic 112), the rule
"Hypertensive Emergency" (RULE_001) triggers and `analyze` reports overall
risk level `level_4` and urgency `emergency`, regardless of the symptom
list. -/
theorem C7_hypertensive_emergency (input : DiagnosticInput)
    (h : vitalOrZero input.vitalSigns VitalSignsInput.systolicBP ≥ 160 ∨
         vitalOrZero input.vitalSigns VitalSignsInput.diastolicBP ≥ 110) :
    RULE_001.condition input = true ∧
    (DiagnosticReasoningEngine.analyze input).overallRiskLevel = RiskLevel.level_4 ∧
    (DiagnosticReasoningEngine.analyze input).urgency = Urgency.emergency := by
  open DiagnosticReasoningEngine in
  have hcond : RULE_001.condition input = true := by
    show (decide (vitalOrZero input.vitalSigns VitalSignsInput.systolicBP ≥ 160) ||
          decide (vitalOrZero input.vitalSigns VitalSignsInput.diastolicBP ≥ 110)) = true
    rcases h with h | h
    · simp [h]
    · simp [h]
  refine ⟨hcond, ?_, ?_⟩
  · apply DiagnosticReasoningEngine.eq_level4_of_riskIdx_ge
    rw [DiagnosticReasoningEngine.analyze_riskLevel_eq]
    have h1 : riskIdx (DiagnosticReasoningEngine.ruleScan input).1 ≥ 3 := by
      unfold DiagnosticReasoningEngine.ruleScan OBSTETRIC_RULES
      rw [List.foldl_cons, DiagnosticReasoningEngine.ruleStep_rule001_fires input hcond]
      have := DiagnosticReasoningEngine.foldl_ruleStep_risk_le input
        [RULE_002, RULE_003, RULE_004, RULE_005, RULE_006]
        (RiskLevel.level_4, Urgency.emergency,
          [DiagnosticReasoningEngine.ruleRecommendation RULE_001])
      simpa [riskIdx] using this
    have h2 := DiagnosticReasoningEngine.foldl_conditionStep_risk_le input
      OBSTETRIC_CONDITIONS
      (([] : List DifferentialCondition), (DiagnosticReasoningEngine.ruleScan input).1,
        (DiagnosticReasoningEngine.ruleScan input).2.1)
    unfold DiagnosticReasoningEngine.conditionScan
    exact Nat.le_trans h1 h2
  · apply DiagnosticReasoningEngine.eq_emergency_of_urgIdx_ge
    rw [DiagnosticReasoningEngine.analyze_urgency_eq]
    have h1 : urgIdx (DiagnosticReasoningEngine.ruleScan input).2.1 ≥ 3 := by
      unfold DiagnosticReasoningEngine.ruleScan OBSTETRIC_RULES
      rw [List.foldl_cons, DiagnosticReasoningEngine.ruleStep_rule001_fires input hcond]
      have := DiagnosticReasoningEngine.foldl_ruleStep_urg_le input
        [RULE_002, RULE_003, RULE_004, RULE_005, RULE_006]
        (RiskLevel.level_4, Urgency.emergency,
          [DiagnosticReasoningEngine.ruleRecommendation RULE_001])
      simpa [urgIdx] using this
    have h2 := DiagnosticReasoningEngine.foldl_conditionStep_urg_le input
      OBSTETRIC_CONDITIONS
      (([] : List DifferentialCondition), (DiagnosticReasoningEngine.ruleScan input).1,
        (DiagnosticReasoningEngine.ruleScan input).2.1)
    unfold DiagnosticReasoningEngine.conditionScan
    exact Nat.le_trans h1 h2

/-- Input of the C7 witness: vitals 165/112, no symptoms. -/
def c7Input : DiagnosticInput where
  symptoms := []
  pregnancyStage := { weeksGestation := 30, trimester := 3 }
  medicalHistory := {}
  riskFactors := []
  vitalSigns := some { systolicBP := some 165, diastolicBP := some 112 }

/-- C7 witness: the theorem applied at the concrete 165/112 input. -/
theorem C7_witness :
    (vitalOrZero c7Input.vitalSigns VitalSignsInput.systolicBP ≥ 160 ∨
     vitalOrZero c7Input.vitalSigns VitalSignsInput.diastolicBP ≥ 110) ∧
    RULE_001.condition c7Input = true ∧
    (DiagnosticReasoningEngine.analyze c7Input).overallRiskLevel = RiskLevel.level_4 ∧
    (DiagnosticReasoningEngine.analyze c7Input).urgency = Urgency.emergency :=
  ⟨Or.inl (by decide), C7_hypertensive_emergency c7Input (Or.inl (by decide))⟩

/-! ## Claim C8: probability clamp -/

namespace DiagnosticReasoningEngine

theorem calculateBayesianProbability_le (c : ConditionDefinition) (input : DiagnosticInput) :
    calculateBayesianProbability c input ≤ 0.95 := by
  unfold calculateBayesianProbability
  exact mathMin_le_right _ _

theorem mem_insertByProbDesc (a x : DifferentialCondition) (l : List DifferentialCondition) :
    x ∈ insertByProbDesc a l ↔ x = a ∨ x ∈ l := by
  induction l with
  | nil => simp [insertByProbDesc]
  | cons b bs ih =>
    unfold insertByProbDesc
    by_cases h : b.probability > a.probability
    · rw [if_pos h]
      rw [List.mem_cons, List.mem_cons, ih]
      tauto
    · rw [if_neg h]
      simp only [List.mem_cons]

theorem mem_sortByProbDesc (x : DifferentialCondition) (l : List DifferentialCondition) :
    x ∈ sortByProbDesc l ↔ x ∈ l := by
  induction l with
  | nil => simp [sortByProbDesc]
  | cons a as ih =>
    unfold sortByProbDesc
    rw [mem_insertByProbDesc, ih, List.mem_cons]

/-- Invariant of the condition fold: every accumulated differential entry has
probability ≤ 0.95. -/
theorem foldl_conditionStep_prob_le (input : DiagnosticInput)
    (conds : List ConditionDefinition)
    (acc : List DifferentialCondition × RiskLevel × Urgency)
    (hacc : ∀ dc ∈ acc.1, dc.probability ≤ 0.95) :
    ∀ dc ∈ ((conds.foldl (conditionStep input) acc)).1, dc.probability ≤ 0.95 := by
  induction conds generalizing acc with
  | nil => exact hacc
  | cons c cs ih =>
    apply ih
    intro dc hdc
    unfold conditionStep at hdc
    by_cases h1 : calculateBayesianProbability c input > 0.1
    · simp only [h1, if_true] at hdc
      by_cases h2 : calculateBayesianProbability c input > 0.5 <;>
        simp only [h2, if_true, if_false] at hdc <;>
        rcases List.mem_append.mp hdc with h | h
      · exact hacc _ h
      · rw [List.mem_singleton.mp h]
        exact calculateBayesianProbability_le c input
      · exact hacc _ h
      · rw [List.mem_singleton.mp h]
        exact calculateBayesianProbability_le c input
    · simp only [h1, if_false] at hdc
      exact hacc _ hdc

end DiagnosticReasoningEngine

/-- C8: every differential condition reported by `analyze` has probability at
most 0.95 — the Bayesian scorer clamps each posterior with `min(..., 0.95)`
before it can reach the differential list. -/
theorem C8_probability_clamp (input : DiagnosticInput) :
    ∀ dc ∈ (DiagnosticReasoningEngine.analyze input).differentialConditions,
      dc.probability ≤ 0.95 := by
  intro dc hdc
  have hmem : dc ∈ DiagnosticReasoningEngine.sortByProbDesc
      (DiagnosticReasoningEngine.conditionScan input
        (DiagnosticReasoningEngine.ruleScan input).1
        (DiagnosticReasoningEngine.ruleScan input).2.1).1 :=
    (List.take_sublist 5 _).subset hdc
  rw [DiagnosticReasoningEngine.mem_sortByProbDesc] at hmem
  exact DiagnosticReasoningEngine.foldl_conditionStep_prob_le input OBSTETRIC_CONDITIONS
    _ (by intro _ h; exact absurd h (List.not_mem_nil _)) dc hmem

/-- Input of the C8 witness: a single mild fatigue symptom in trimester 2. -/
def c8Input : DiagnosticInput where
  symptoms := [{ name := "fatigue", severity := .mild }]
  pregnancyStage := { weeksGestation := 20, trimester := 2 }
  medicalHistory := {}
  riskFactors := []

/-- Differential entry produced for the C8 witness input (anemia at
posterior 0.468). -/
def c8Differential : DifferentialCondition where
  condition := "Anemia in Pregnancy"
  probability := 117/250
  severity := .mild
  description := "Low red blood cell count during pregnancy, often due to iron deficiency."
  matchingSymptoms := ["fatigue"]
  recommendedTests := some ["Complete blood count", "Iron studies", "Ferritin level"]
  icdCode := some "O99.0"

/-- C8 witness: the theorem applied to a concrete differential entry of a
concrete input. -/
theorem C8_witness :
    c8Differential ∈ (DiagnosticReasoningEngine.analyze c8Input).differentialConditions ∧
    c8Differential.probability ≤ 0.95 :=
  ⟨by with_unfolding_all decide,
   C8_probability_clamp c8Input c8Differential (by with_unfolding_all decide)⟩

/-! ## Claim C5: trimester zeroing -/

namespace DiagnosticReasoningEngine

/-- With the input in trimester 3, the ectopic-pregnancy posterior is zero:
the trimester multiplier 0 wipes out the whole symptom/risk-factor term, and
the condition has no vital-sign indicators that could add afterwards. -/
theorem calcBayes_ectopic_trimester3 (input : DiagnosticInput)
    (h3 : input.pregnancyStage.trimester = 3) :
    calculateBayesianProbability condEctopicPregnancy input = 0 := by
  unfold calculateBayesianProbability
  rw [h3]
  have hfind : trimesterStep condEctopicPregnancy.trimesterRelevance 3
      (riskFactorFold condEctopicPregnancy.riskFactors input.riskFactors
        (symptomFold condEctopicPregnancy.symptoms input.symptoms
          condEctopicPregnancy.baseProbability)) = 0 := by
    unfold trimesterStep
    rw [show (condEctopicPregnancy.trimesterRelevance.find?
        (fun t => t.trimester == 3)) = some ⟨3, 0.0⟩ from rfl]
    show _ * (0.0 : ℚ) = 0
    norm_num
  dsimp only
  rw [hfind, show condEctopicPregnancy.vitalSignIndicators = none from rfl]
  dsimp only
  unfold mathMin
  norm_num

/-- Fold invariant: if no knowledgebase condition named `target` can pass the
0.1 threshold, no differential entry named `target` is ever accumulated. -/
theorem foldl_conditionStep_name (input : DiagnosticInput)
    (conds : List ConditionDefinition)
    (acc : List DifferentialCondition × RiskLevel × Urgency) (target : String)
    (hacc : ∀ dc ∈ acc.1, dc.condition ≠ target)
    (hconds : ∀ c ∈ conds, c.name = target →
      ¬ (calculateBayesianProbability c input > 0.1)) :
    ∀ dc ∈ ((conds.foldl (conditionStep input) acc)).1, dc.condition ≠ target := by
  induction conds generalizing acc with
  | nil => exact hacc
  | cons c cs ih =>
    refine ih (conditionStep input acc c) ?_ ?_
    · intro dc hdc
      unfold conditionStep at hdc
      by_cases h1 : calculateBayesianProbability c input > 0.1
      · simp only [h1, if_true] at hdc
        by_cases h2 : calculateBayesianProbability c input > 0.5 <;>
          simp only [h2, if_true, if_false] at hdc <;>
          rcases List.mem_append.mp hdc with h | h
        · exact hacc _ h
        · rw [List.mem_singleton.mp h]
          intro hname
          exact hconds c (List.mem_cons_self c cs) hname h1
        · exact hacc _ h
        · rw [List.mem_singleton.mp h]
          intro hname
          exact hconds c (List.mem_cons_self c cs) hname h1
      · simp only [h1, if_false] at hdc
        exact hacc _ hdc
    · intro c' hc' hname
      exact hconds c' (List.mem_cons_of_mem c hc') hname

end DiagnosticReasoningEngine

/-- C5: a knowledgebase condition whose trimester-relevance multiplier for
the input's trimester is 0 never appears in the differential list of
`analyze`, whatever symptoms, risk factors and vitals the input carries.
(In the shipped knowledgebase the only zero multiplier is Ectopic Pregnancy
in trimester 3, and that condition has no vital-sign indicators, so its
posterior is exactly 0.) -/
theorem C5_trimester_zeroing (input : DiagnosticInput) (c : ConditionDefinition)
    (hc : c ∈ OBSTETRIC_CONDITIONS) (tf : TrimesterRel)
    (hf : c.trimesterRelevance.find?
      (fun t => t.trimester == input.pregnancyStage.trimester) = some tf)
    (h0 : tf.multiplier = 0) :
    ∀ dc ∈ (DiagnosticReasoningEngine.analyze input).differentialConditions,
      dc.condition ≠ c.name := by
  have htfmem : tf ∈ c.trimesterRelevance := List.mem_of_find?_eq_some hf
  have htfsat := List.find?_some hf
  -- Identify the condition: only Ectopic Pregnancy has a 0 multiplier.
  have hcase : c = condEctopicPregnancy ∧ input.pregnancyStage.trimester = 3 := by
    simp only [OBSTETRIC_CONDITIONS, List.mem_cons, List.not_mem_nil, or_false] at hc
    rcases hc with rfl | rfl | rfl | rfl | rfl | rfl | rfl | rfl <;>
      simp only [condPreeclampsia, condGestationalDiabetes, condPlacentaPrevia,
        condPretermLabor, condEctopicPregnancy, condHyperemesis, condUTI, condAnemia,
        List.mem_cons, List.not_mem_nil, or_false] at htfmem <;>
      rcases htfmem with rfl | rfl | rfl <;>
      first
        | (refine ⟨rfl, ?_⟩
           simp only [beq_iff_eq] at htfsat
           omega)
        | (revert h0; norm_num)
  rcases hcase with ⟨rfl, h3⟩
  intro dc hdc
  have hmem : dc ∈ DiagnosticReasoningEngine.sortByProbDesc
      (DiagnosticReasoningEngine.conditionScan input
        (DiagnosticReasoningEngine.ruleScan input).1
        (DiagnosticReasoningEngine.ruleScan input).2.1).1 :=
    (List.take_sublist 5 _).subset hdc
  rw [DiagnosticReasoningEngine.mem_sortByProbDesc] at hmem
  refine DiagnosticReasoningEngine.foldl_conditionStep_name input OBSTETRIC_CONDITIONS
    _ condEctopicPregnancy.name
    (by intro _ h; exact absurd h (List.not_mem_nil _)) ?_ dc hmem
  intro c' hc' hname
  have hzero : DiagnosticReasoningEngine.calculateBayesianProbability
      condEctopicPregnancy input = 0 :=
    DiagnosticReasoningEngine.calcBayes_ectopic_trimester3 input h3
  simp only [OBSTETRIC_CONDITIONS, List.mem_cons, List.not_mem_nil, or_false] at hc'
  rcases hc' with rfl | rfl | rfl | rfl | rfl | rfl | rfl | rfl <;>
    first
      | (exfalso; revert hname; decide)
      | (rw [hzero]; norm_num)

/-- Input of the C5 witness: strong ectopic evidence (one-sided abdominal
pain, vaginal bleeding, matching risk factor) in trimester 3. -/
def c5Input : DiagnosticInput where
  symptoms := [{ name := "one-sided abdominal pain", severity := .severe },
               { name := "vaginal bleeding", severity := .moderate },
               { name := "fatigue", severity := .mild }]
  pregnancyStage := { weeksGestation := 30, trimester := 3 }
  medicalHistory := {}
  riskFactors := ["previous_ectopic"]

/-- Top differential entry produced for the C5 witness input (anemia). -/
def c5Differential : DifferentialCondition where
  condition := "Anemia in Pregnancy"
  probability := 117/200
  severity := .mild
  description := "Low red blood cell count during pregnancy, often due to iron deficiency."
  matchingSymptoms := ["fatigue"]
  recommendedTests := some ["Complete blood count", "Iron studies", "Ferritin level"]
  icdCode := some "O99.0"

/-- C5 witness: the theorem applied at the trimester-3 input with the
ectopic-pregnancy condition, instantiated at a concrete differential entry
of the result. -/
theorem C5_witness :
    condEctopicPregnancy ∈ OBSTETRIC_CONDITIONS ∧
    condEctopicPregnancy.trimesterRelevance.find?
      (fun t => t.trimester == c5Input.pregnancyStage.trimester) = some ⟨3, 0.0⟩ ∧
    c5Differential ∈ (DiagnosticReasoningEngine.analyze c5Input).differentialConditions ∧
    c5Differential.condition ≠ condEctopicPregnancy.name :=
  ⟨by with_unfolding_all decide, by with_unfolding_all decide,
   by with_unfolding_all decide,
   C5_trimester_zeroing c5Input condEctopicPregnancy (by with_unfolding_all decide)
     ⟨3, 0.0⟩ (by with_unfolding_all decide) (by with_unfolding_all decide)
     c5Differential (by with_unfolding_all decide)⟩

/-! ## Claim C9: recommendation deduplication -/

/-- Boolean-equality is false on distinct strings. -/
theorem beq_false_of_ne_str {a b : String} (h : a ≠ b) : (a == b) = false := by
  cases hb : (a == b)
  · rfl
  · exact absurd (eq_of_beq hb) h

namespace DiagnosticReasoningEngine

/-- One step of the dedup fold. -/
def dedupStep (acc : List Recommendation × List String) (r : Recommendation) :
    List Recommendation × List String :=
  let key := lowerStr r.description
  if acc.2.contains key then acc else (acc.1 ++ [r], acc.2 ++ [key])

theorem deduplicateRecommendations_eq_fold (recs : List Recommendation) :
    deduplicateRecommendations recs = (recs.foldl dedupStep ([], [])).1 := rfl

theorem dedupStep_eq (acc : List Recommendation × List String) (r : Recommendation) :
    dedupStep acc r =
      if acc.2.contains (lowerStr r.description) = true then acc
      else (acc.1 ++ [r], acc.2 ++ [lowerStr r.description]) := rfl

/-- Dedup fold invariant: the seen set is exactly the key image of the
output, and the output keys stay nodup. -/
theorem dedupFold_nodup (rest : List Recommendation)
    (out : List Recommendation) (seen : List String)
    (hseen : seen = out.map (fun x => lowerStr x.description))
    (hnd : (out.map (fun x => lowerStr x.description)).Nodup) :
    ((rest.foldl dedupStep (out, seen)).1.map (fun x => lowerStr x.description)).Nodup := by
  induction rest generalizing out seen with
  | nil => exact hnd
  | cons x xs ih =>
    rw [List.foldl_cons]
    unfold dedupStep
    dsimp only
    by_cases h : seen.contains (lowerStr x.description) = true
    · rw [if_pos h]
      exact ih out seen hseen hnd
    · rw [if_neg h]
      refine ih (out ++ [x]) (seen ++ [lowerStr x.description]) ?_ ?_
      · rw [hseen]
        simp
      · rw [List.map_append]
        have hx : lowerStr x.description ∉ out.map (fun x => lowerStr x.description) := by
          rw [← hseen]
          simpa using h
        simp [List.nodup_append, hnd, hx]

/-- Dedup fold invariant: the output extends the initial output by a sublist
of the remaining input. -/
theorem dedupFold_sublist (rest : List Recommendation)
    (out : List Recommendation) (seen : List String) :
    ∃ s, (rest.foldl dedupStep (out, seen)).1 = out ++ s ∧ s.Sublist rest := by
  induction rest generalizing out seen with
  | nil => exact ⟨[], by simp, List.Sublist.refl _⟩
  | cons x xs ih =>
    rw [List.foldl_cons, dedupStep_eq]
    by_cases h : seen.contains (lowerStr x.description) = true
    · rw [if_pos h]
      obtain ⟨s, hs1, hs2⟩ := ih out seen
      exact ⟨s, hs1, hs2.cons x⟩
    · rw [if_neg h]
      obtain ⟨s, hs1, hs2⟩ := ih (out ++ [x]) (seen ++ [lowerStr x.description])
      refine ⟨x :: s, ?_, hs2.cons₂ x⟩
      rw [hs1, List.append_assoc]
      rfl

/-- Dedup fold invariant: every output element beyond the initial state is
the first occurrence of its (lowercased) description in the remaining
input, and its key was unseen. -/
theorem dedupFold_first (rest : List Recommendation)
    (out : List Recommendation) (seen : List String)
    (r : Recommendation)
    (hr : r ∈ (rest.foldl dedupStep (out, seen)).1) :
    r ∈ out ∨ (r ∈ rest ∧
      rest.find? (fun x => lowerStr x.description == lowerStr r.description) = some r ∧
      lowerStr r.description ∉ seen) := by
  induction rest generalizing out seen with
  | nil => exact Or.inl hr
  | cons x xs ih =>
    rw [List.foldl_cons] at hr
    unfold dedupStep at hr
    dsimp only at hr
    by_cases h : seen.contains (lowerStr x.description) = true
    · rw [if_pos h] at hr
      rcases ih out seen hr with h1 | ⟨h1, h2, h3⟩
      · exact Or.inl h1
      · refine Or.inr ⟨List.mem_cons_of_mem x h1, ?_, h3⟩
        rw [List.find?_cons]
        have hxr : lowerStr x.description ≠ lowerStr r.description := by
          intro he
          exact h3 (he ▸ (by simpa using h))
        rw [beq_false_of_ne_str hxr]
        exact h2
    · rw [if_neg h] at hr
      rcases ih (out ++ [x]) (seen ++ [lowerStr x.description]) hr with h1 | ⟨h1, h2, h3⟩
      · rcases List.mem_append.mp h1 with h1 | h1
        · exact Or.inl h1
        · rw [List.mem_singleton.mp h1]
          refine Or.inr ⟨List.mem_cons_self x xs, ?_, by simpa using h⟩
          rw [List.find?_cons]
          simp
      · have hseen' : lowerStr r.description ∉ seen := by
          intro hc
          exact h3 (by simp [hc])
        have hxr : lowerStr x.description ≠ lowerStr r.description := by
          intro hc
          exact h3 (by simp [hc.symm])
        refine Or.inr ⟨List.mem_cons_of_mem x h1, ?_, hseen'⟩
        rw [List.find?_cons]
        rw [beq_false_of_ne_str hxr]
        exact h2

end DiagnosticReasoningEngine

/-- C9: the recommendation list of every `analyze` result has pairwise
distinct lowercased descriptions; moreover `deduplicateRecommendations` is
an order-preserving sublist of its input and keeps exactly the first
occurrence of each case-insensitive description. -/
theorem C9_recommendation_dedup (input : DiagnosticInput)
    (recs : List Recommendation) (r : Recommendation) :
    ((DiagnosticReasoningEngine.analyze input).recommendations.map
      (fun x => lowerStr x.description)).Nodup ∧
    (DiagnosticReasoningEngine.deduplicateRecommendations recs).Sublist recs ∧
    (r ∈ DiagnosticReasoningEngine.deduplicateRecommendations recs →
      recs.find? (fun x => lowerStr x.description == lowerStr r.description) = some r) := by
  refine ⟨?_, ?_, ?_⟩
  · have hh : (DiagnosticReasoningEngine.analyze input).recommendations
        = DiagnosticReasoningEngine.deduplicateRecommendations
            ((DiagnosticReasoningEngine.ruleScan input).2.2 ++
              DiagnosticReasoningEngine.conditionRecommendations
                (DiagnosticReasoningEngine.sortByProbDesc
                  (DiagnosticReasoningEngine.conditionScan input
                    (DiagnosticReasoningEngine.ruleScan input).1
                    (DiagnosticReasoningEngine.ruleScan input).2.1).1)) := rfl
    rw [hh, DiagnosticReasoningEngine.deduplicateRecommendations_eq_fold]
    exact DiagnosticReasoningEngine.dedupFold_nodup _ [] [] rfl List.nodup_nil
  · rw [DiagnosticReasoningEngine.deduplicateRecommendations_eq_fold]
    obtain ⟨s, hs1, hs2⟩ := DiagnosticReasoningEngine.dedupFold_sublist recs [] []
    rw [hs1]
    simpa using hs2
  · intro hr
    rw [DiagnosticReasoningEngine.deduplicateRecommendations_eq_fold] at hr
    rcases DiagnosticReasoningEngine.dedupFold_first recs [] [] r hr with h | ⟨_, h2, _⟩
    · exact absurd h (List.not_mem_nil r)
    · exact h2

/-- Input of the C9 witness. -/
def c9Input : DiagnosticInput where
  symptoms := []
  pregnancyStage := { weeksGestation := 12, trimester := 1 }
  medicalHistory := {}
  riskFactors := []

/-- First recommendation of the C9 witness pair (kept). -/
def c9RecA : Recommendation where
  type := .action
  priority := .low
  description := "Stay hydrated"
  rationale := "hydration helps"

/-- Second recommendation of the C9 witness pair: case-insensitive duplicate
description (dropped). -/
def c9RecB : Recommendation where
  type := .test
  priority := .medium
  description := "STAY HYDRATED"
  rationale := "duplicate"

/-- C9 witness: the theorem applied at a concrete input and a concrete
duplicate-bearing recommendation list. -/
theorem C9_witness :
    c9RecA ∈ DiagnosticReasoningEngine.deduplicateRecommendations [c9RecA, c9RecB] ∧
    ((DiagnosticReasoningEngine.analyze c9Input).recommendations.map
      (fun x => lowerStr x.description)).Nodup ∧
    (DiagnosticReasoningEngine.deduplicateRecommendations [c9RecA, c9RecB]).Sublist
      [c9RecA, c9RecB] ∧
    [c9RecA, c9RecB].find?
      (fun x => lowerStr x.description == lowerStr c9RecA.description) = some c9RecA :=
  ⟨by with_unfolding_all decide,
   (C9_recommendation_dedup c9Input [c9RecA, c9RecB] c9RecA).1,
   (C9_recommendation_dedup c9Input [c9RecA, c9RecB] c9RecA).2.1,
   (C9_recommendation_dedup c9Input [c9RecA, c9RecB] c9RecA).2.2
     (by with_unfolding_all decide)⟩

/-! ## Claim C2: monotonicity of risk level and urgency -/

/-- Pointwise extension of optional vitals: every vital present on the left
is present with the same value on the right. -/
def VitalsExtends : Option VitalSignsInput → Option VitalSignsInput → Prop
  | none, _ => True
  | some _, none => False
  | some v1, some v2 => ∀ (sg : VSign) (q : ℚ),
      DiagnosticReasoningEngine.vsValue v1 sg = some q →
      DiagnosticReasoningEngine.vsValue v2 sg = some q

theorem vitalsExtends_refl (o : Option VitalSignsInput) : VitalsExtends o o := by
  cases o with
  | none => trivial
  | some v => intro sg q hq; exact hq

/-- Evidence extension between two diagnostic inputs: the right input has at
least the symptoms, risk factors and vitals of the left one, on the same
pregnancy stage. -/
structure InputExtends (i1 i2 : DiagnosticInput) : Prop where
  symptoms_sub : ∀ s ∈ i1.symptoms, s ∈ i2.symptoms
  rf_sub : ∀ f : String, i1.riskFactors.contains f = true → i2.riskFactors.contains f = true
  rf_len : i1.riskFactors.length ≤ i2.riskFactors.length
  stage_eq : i1.pregnancyStage = i2.pregnancyStage
  vitals_ext : VitalsExtends i1.vitalSigns i2.vitalSigns

namespace DiagnosticReasoningEngine

theorem any_mono {α : Type} (l1 l2 : List α) (p : α → Bool)
    (hsub : ∀ x ∈ l1, x ∈ l2) (h : l1.any p = true) : l2.any p = true := by
  rcases List.any_eq_true.mp h with ⟨x, hx, hpx⟩
  exact List.any_eq_true.mpr ⟨x, hsub x hx, hpx⟩

theorem symptomMatches_mono (s1 s2 : List SymptomInput) (pat : String)
    (hsub : ∀ s ∈ s1, s ∈ s2) (h : symptomMatches s1 pat = true) :
    symptomMatches s2 pat = true :=
  any_mono s1 s2 _ hsub h

theorem symptomFold_mono (defs : List SymptomWeight) (s1 s2 : List SymptomInput)
    (hsub : ∀ s ∈ s1, s ∈ s2) (hw : ∀ d ∈ defs, 0 ≤ d.weight)
    (p q : ℚ) (hpq : p ≤ q) :
    symptomFold defs s1 p ≤ symptomFold defs s2 q := by
  induction defs generalizing p q with
  | nil => exact hpq
  | cons d ds ih =>
    unfold symptomFold
    rw [List.foldl_cons, List.foldl_cons]
    have hwd : 0 ≤ d.weight := hw d (List.mem_cons_self d ds)
    have hws : ∀ d' ∈ ds, 0 ≤ d'.weight := fun d' hd' => hw d' (List.mem_cons_of_mem d hd')
    have step : (if symptomMatches s1 d.symptom then p + d.weight * 0.3 else p)
        ≤ (if symptomMatches s2 d.symptom then q + d.weight * 0.3 else q) := by
      by_cases h1 : symptomMatches s1 d.symptom = true
      · rw [if_pos h1, if_pos (symptomMatches_mono s1 s2 d.symptom hsub h1)]
        linarith
      · rw [if_neg h1]
        by_cases h2 : symptomMatches s2 d.symptom = true
        · rw [if_pos h2]; nlinarith
        · rw [if_neg h2]; exact hpq
    exact ih hws _ _ step

theorem symptomFold_nonneg (defs : List SymptomWeight) (s : List SymptomInput)
    (hw : ∀ d ∈ defs, 0 ≤ d.weight) (p : ℚ) (hp : 0 ≤ p) :
    0 ≤ symptomFold defs s p := by
  induction defs generalizing p with
  | nil => exact hp
  | cons d ds ih =>
    unfold symptomFold
    rw [List.foldl_cons]
    have hwd : 0 ≤ d.weight := hw d (List.mem_cons_self d ds)
    have hws : ∀ d' ∈ ds, 0 ≤ d'.weight := fun d' hd' => hw d' (List.mem_cons_of_mem d hd')
    refine ih hws _ ?_
    by_cases h1 : symptomMatches s d.symptom = true
    · rw [if_pos h1]; nlinarith
    · rw [if_neg h1]; exact hp

theorem riskFactorFold_mono (defs : List RiskFactorMult) (r1 r2 : List String)
    (hsub : ∀ f : String, r1.contains f = true → r2.contains f = true)
    (hm : ∀ d ∈ defs, 1 ≤ d.multiplier)
    (p q : ℚ) (hp : 0 ≤ p) (hq : 0 ≤ q) (hpq : p ≤ q) :
    riskFactorFold defs r1 p ≤ riskFactorFold defs r2 q := by
  induction defs generalizing p q with
  | nil => exact hpq
  | cons d ds ih =>
    unfold riskFactorFold
    rw [List.foldl_cons, List.foldl_cons]
    have hmd : 1 ≤ d.multiplier := hm d (List.mem_cons_self d ds)
    have hms : ∀ d' ∈ ds, 1 ≤ d'.multiplier := fun d' hd' => hm d' (List.mem_cons_of_mem d hd')
    have hp' : 0 ≤ (if r1.contains d.factor then p * d.multiplier else p) := by
      by_cases h1 : r1.contains d.factor = true
      · rw [if_pos h1]; nlinarith
      · rw [if_neg h1]; exact hp
    have hq' : 0 ≤ (if r2.contains d.factor then q * d.multiplier else q) := by
      by_cases h2 : r2.contains d.factor = true
      · rw [if_pos h2]; nlinarith
      · rw [if_neg h2]; exact hq
    have step : (if r1.contains d.factor then p * d.multiplier else p)
        ≤ (if r2.contains d.factor then q * d.multiplier else q) := by
      by_cases h1 : r1.contains d.factor = true
      · rw [if_pos h1, if_pos (hsub d.factor h1)]
        nlinarith
      · rw [if_neg h1]
        by_cases h2 : r2.contains d.factor = true
        · rw [if_pos h2]; nlinarith
        · rw [if_neg h2]; exact hpq
    exact ih hms _ _ hp' hq' step

theorem riskFactorFold_nonneg (defs : List RiskFactorMult) (r : List String)
    (hm : ∀ d ∈ defs, 1 ≤ d.multiplier) (p : ℚ) (hp : 0 ≤ p) :
    0 ≤ riskFactorFold defs r p := by
  induction defs generalizing p with
  | nil => exact hp
  | cons d ds ih =>
    unfold riskFactorFold
    rw [List.foldl_cons]
    have hmd : 1 ≤ d.multiplier := hm d (List.mem_cons_self d ds)
    have hms : ∀ d' ∈ ds, 1 ≤ d'.multiplier := fun d' hd' => hm d' (List.mem_cons_of_mem d hd')
    refine ih hms _ ?_
    by_cases h1 : r.contains d.factor = true
    · rw [if_pos h1]; nlinarith
    · rw [if_neg h1]; exact hp

theorem trimesterStep_mono (rels : List TrimesterRel) (tri : Nat)
    (ht : ∀ t ∈ rels, 0 ≤ t.multiplier) (p q : ℚ) (_hp : 0 ≤ p) (hpq : p ≤ q) :
    trimesterStep rels tri p ≤ trimesterStep rels tri q := by
  unfold trimesterStep
  cases hf : rels.find? (fun t => t.trimester == tri) with
  | none => exact hpq
  | some tf =>
    dsimp only
    have := ht tf (List.mem_of_find?_eq_some hf)
    nlinarith

theorem trimesterStep_nonneg (rels : List TrimesterRel) (tri : Nat)
    (ht : ∀ t ∈ rels, 0 ≤ t.multiplier) (p : ℚ) (hp : 0 ≤ p) :
    0 ≤ trimesterStep rels tri p := by
  unfold trimesterStep
  cases hf : rels.find? (fun t => t.trimester == tri) with
  | none => exact hp
  | some tf =>
    dsimp only
    have := ht tf (List.mem_of_find?_eq_some hf)
    nlinarith

theorem vitalFold_ge (inds : List VitalSignIndicator) (v : VitalSignsInput)
    (hw : ∀ i ∈ inds, 0 ≤ i.weight) (p : ℚ) : p ≤ vitalFold inds v p := by
  induction inds generalizing p with
  | nil => exact le_refl p
  | cons i is ih =>
    unfold vitalFold
    rw [List.foldl_cons]
    have hwi : 0 ≤ i.weight := hw i (List.mem_cons_self i is)
    have hws : ∀ i' ∈ is, 0 ≤ i'.weight := fun i' hi' => hw i' (List.mem_cons_of_mem i hi')
    refine le_trans ?_ (ih hws _)
    cases hv : vsValue v i.sign with
    | none => exact le_refl p
    | some x =>
      dsimp only
      by_cases hx : vsMatches i.operator x i.threshold = true
      · rw [if_pos hx]; nlinarith
      · rw [if_neg hx]

theorem vitalFold_mono (inds : List VitalSignIndicator) (v1 v2 : VitalSignsInput)
    (hext : ∀ (sg : VSign) (q : ℚ), vsValue v1 sg = some q → vsValue v2 sg = some q)
    (hw : ∀ i ∈ inds, 0 ≤ i.weight) (p q : ℚ) (hpq : p ≤ q) :
    vitalFold inds v1 p ≤ vitalFold inds v2 q := by
  induction inds generalizing p q with
  | nil => exact hpq
  | cons i is ih =>
    unfold vitalFold
    rw [List.foldl_cons, List.foldl_cons]
    have hwi : 0 ≤ i.weight := hw i (List.mem_cons_self i is)
    have hws : ∀ i' ∈ is, 0 ≤ i'.weight := fun i' hi' => hw i' (List.mem_cons_of_mem i hi')
    refine ih hws _ _ ?_
    cases hv : vsValue v1 i.sign with
    | none =>
      cases hv2 : vsValue v2 i.sign with
      | none => exact hpq
      | some y =>
        dsimp only
        by_cases hy : vsMatches i.operator y i.threshold = true
        · rw [if_pos hy]; nlinarith
        · rw [if_neg hy]; exact hpq
    | some x =>
      rw [hext i.sign x hv]
      dsimp only
      by_cases hx : vsMatches i.operator x i.threshold = true
      · rw [if_pos hx, if_pos hx]; linarith
      · rw [if_neg hx, if_neg hx]; exact hpq

end DiagnosticReasoningEngine

namespace DiagnosticReasoningEngine

/-- Monotonicity of the whole Bayesian posterior under evidence extension,
for any condition whose weights are nonnegative, whose risk-factor
multipliers are at least 1 and whose trimester multipliers are
nonnegative (facts that hold of the entire knowledgebase). -/
theorem calcBayes_mono (c : ConditionDefinition) (i1 i2 : DiagnosticInput)
    (h : InputExtends i1 i2)
    (hbase : 0 ≤ c.baseProbability)
    (hsym : ∀ d ∈ c.symptoms, 0 ≤ d.weight)
    (hrf : ∀ d ∈ c.riskFactors, 1 ≤ d.multiplier)
    (htri : ∀ t ∈ c.trimesterRelevance, 0 ≤ t.multiplier)
    (hvit : ∀ i ∈ c.vitalSignIndicators.getD [], 0 ≤ i.weight) :
    calculateBayesianProbability c i1 ≤ calculateBayesianProbability c i2 := by
  have hstage := h.stage_eq
  unfold calculateBayesianProbability
  dsimp only
  apply mathMin_mono_left
  rw [← hstage]
  have hp1 : symptomFold c.symptoms i1.symptoms c.baseProbability
      ≤ symptomFold c.symptoms i2.symptoms c.baseProbability :=
    symptomFold_mono c.symptoms i1.symptoms i2.symptoms h.symptoms_sub hsym _ _ (le_refl _)
  have h1n : 0 ≤ symptomFold c.symptoms i1.symptoms c.baseProbability :=
    symptomFold_nonneg _ _ hsym _ hbase
  have h2n : 0 ≤ symptomFold c.symptoms i2.symptoms c.baseProbability := le_trans h1n hp1
  have hp2 : riskFactorFold c.riskFactors i1.riskFactors
        (symptomFold c.symptoms i1.symptoms c.baseProbability)
      ≤ riskFactorFold c.riskFactors i2.riskFactors
        (symptomFold c.symptoms i2.symptoms c.baseProbability) :=
    riskFactorFold_mono c.riskFactors i1.riskFactors i2.riskFactors h.rf_sub hrf
      _ _ h1n h2n hp1
  have h1n2 : 0 ≤ riskFactorFold c.riskFactors i1.riskFactors
      (symptomFold c.symptoms i1.symptoms c.baseProbability) :=
    riskFactorFold_nonneg _ _ hrf _ h1n
  have hp3 : trimesterStep c.trimesterRelevance i1.pregnancyStage.trimester
        (riskFactorFold c.riskFactors i1.riskFactors
          (symptomFold c.symptoms i1.symptoms c.baseProbability))
      ≤ trimesterStep c.trimesterRelevance i1.pregnancyStage.trimester
        (riskFactorFold c.riskFactors i2.riskFactors
          (symptomFold c.symptoms i2.symptoms c.baseProbability)) :=
    trimesterStep_mono _ _ htri _ _ h1n2 hp2
  cases hci : c.vitalSignIndicators with
  | none => exact hp3
  | some inds =>
    have hvw : ∀ i ∈ inds, 0 ≤ i.weight := by
      rw [hci] at hvit
      simpa using hvit
    cases hv1 : i1.vitalSigns with
    | none =>
      cases hv2 : i2.vitalSigns with
      | none => exact hp3
      | some v2 =>
        exact le_trans hp3 (vitalFold_ge inds v2 hvw _)
    | some v1 =>
      have hve := h.vitals_ext
      rw [hv1] at hve
      cases hv2 : i2.vitalSigns with
      | none =>
        rw [hv2] at hve
        exact hve.elim
      | some v2 =>
        rw [hv2] at hve
        exact vitalFold_mono inds v1 v2 hve hvw _ _ hp3

/-- Helper: a vital that clears a positive threshold on the smaller input
still clears it on the extended input (the `|| 0` default can never clear a
positive threshold). -/
theorem vitalOrZero_ge_mono (o1 o2 : Option VitalSignsInput) (hv : VitalsExtends o1 o2)
    (sg : VSign) (c : ℚ) (hc : 0 < c)
    (h : vitalOrZero o1 (fun v => vsValue v sg) ≥ c) :
    vitalOrZero o2 (fun v => vsValue v sg) ≥ c := by
  unfold vitalOrZero at h ⊢
  cases o1 with
  | none =>
    simp only [Option.bind, Option.getD] at h
    linarith
  | some v1 =>
    cases hv1 : vsValue v1 sg with
    | none =>
      rw [show (some v1).bind (fun v => vsValue v sg) = vsValue v1 sg from rfl, hv1] at h
      simp only [Option.getD] at h
      linarith
    | some x =>
      rw [show (some v1).bind (fun v => vsValue v sg) = vsValue v1 sg from rfl, hv1] at h
      simp only [Option.getD] at h
      cases o2 with
      | none => exact hv.elim
      | some v2 =>
        rw [show (some v2).bind (fun v => vsValue v sg) = vsValue v2 sg from rfl,
          hv sg x hv1]
        simpa using h

/-- Every obstetric rule's trigger predicate is monotone under evidence
extension. -/
theorem rules_mono (i1 i2 : DiagnosticInput) (h : InputExtends i1 i2) :
    ∀ r ∈ OBSTETRIC_RULES, r.condition i1 = true → r.condition i2 = true := by
  intro r hr
  simp only [OBSTETRIC_RULES, List.mem_cons, List.not_mem_nil, or_false] at hr
  rcases hr with rfl | rfl | rfl | rfl | rfl | rfl
  · -- RULE_001
    intro hc
    rw [show RULE_001.condition i1 =
      (decide (vitalOrZero i1.vitalSigns VitalSignsInput.systolicBP ≥ 160) ||
       decide (vitalOrZero i1.vitalSigns VitalSignsInput.diastolicBP ≥ 110)) from rfl,
      Bool.or_eq_true, decide_eq_true_eq, decide_eq_true_eq] at hc
    rw [show RULE_001.condition i2 =
      (decide (vitalOrZero i2.vitalSigns VitalSignsInput.systolicBP ≥ 160) ||
       decide (vitalOrZero i2.vitalSigns VitalSignsInput.diastolicBP ≥ 110)) from rfl,
      Bool.or_eq_true, decide_eq_true_eq, decide_eq_true_eq]
    rcases hc with hc | hc
    · exact Or.inl (vitalOrZero_ge_mono i1.vitalSigns i2.vitalSigns h.vitals_ext
        VSign.systolicBP 160 (by norm_num) hc)
    · exact Or.inr (vitalOrZero_ge_mono i1.vitalSigns i2.vitalSigns h.vitals_ext
        VSign.diastolicBP 110 (by norm_num) hc)
  · -- RULE_002
    intro hc
    rw [show RULE_002.condition i1 =
      ((i1.symptoms.any (fun s => strIncludes (lowerStr s.name) "bleeding" ||
        strIncludes (lowerStr s.name) "spotting")) &&
       (i1.pregnancyStage.trimester == 3)) from rfl, Bool.and_eq_true] at hc
    rw [show RULE_002.condition i2 =
      ((i2.symptoms.any (fun s => strIncludes (lowerStr s.name) "bleeding" ||
        strIncludes (lowerStr s.name) "spotting")) &&
       (i2.pregnancyStage.trimester == 3)) from rfl, Bool.and_eq_true, ← h.stage_eq]
    exact ⟨any_mono _ _ _ h.symptoms_sub hc.1, hc.2⟩
  · -- RULE_003
    intro hc
    rw [show RULE_003.condition i1 =
      ((i1.symptoms.any (fun s => strIncludes (lowerStr s.name) "movement" ||
        strIncludes (lowerStr s.name) "baby not moving")) &&
       decide (i1.pregnancyStage.weeksGestation ≥ 28)) from rfl, Bool.and_eq_true] at hc
    rw [show RULE_003.condition i2 =
      ((i2.symptoms.any (fun s => strIncludes (lowerStr s.name) "movement" ||
        strIncludes (lowerStr s.name) "baby not moving")) &&
       decide (i2.pregnancyStage.weeksGestation ≥ 28)) from rfl, Bool.and_eq_true,
       ← h.stage_eq]
    exact ⟨any_mono _ _ _ h.symptoms_sub hc.1, hc.2⟩
  · -- RULE_004
    intro hc
    rw [show RULE_004.condition i1 =
      ((i1.symptoms.any (fun s => strIncludes (lowerStr s.name) "contractions" ||
        strIncludes (lowerStr s.name) "water broke" ||
        strIncludes (lowerStr s.name) "leaking fluid")) &&
       decide (i1.pregnancyStage.weeksGestation < 37)) from rfl, Bool.and_eq_true] at hc
    rw [show RULE_004.condition i2 =
      ((i2.symptoms.any (fun s => strIncludes (lowerStr s.name) "contractions" ||
        strIncludes (lowerStr s.name) "water broke" ||
        strIncludes (lowerStr s.name) "leaking fluid")) &&
       decide (i2.pregnancyStage.weeksGestation < 37)) from rfl, Bool.and_eq_true,
       ← h.stage_eq]
    exact ⟨any_mono _ _ _ h.symptoms_sub hc.1, hc.2⟩
  · -- RULE_005
    intro hc
    rw [show RULE_005.condition i1 =
      decide (vitalOrZero i1.vitalSigns VitalSignsInput.temperature ≥ 38) from rfl,
      decide_eq_true_eq] at hc
    rw [show RULE_005.condition i2 =
      decide (vitalOrZero i2.vitalSigns VitalSignsInput.temperature ≥ 38) from rfl,
      decide_eq_true_eq]
    exact vitalOrZero_ge_mono i1.vitalSigns i2.vitalSigns h.vitals_ext
      VSign.temperature 38 (by norm_num) hc
  · -- RULE_006
    intro hc
    rw [show RULE_006.condition i1 = decide (i1.riskFactors.length ≥ 3) from rfl,
      decide_eq_true_eq] at hc
    rw [show RULE_006.condition i2 = decide (i2.riskFactors.length ≥ 3) from rfl,
      decide_eq_true_eq]
    exact le_trans hc h.rf_len

end DiagnosticReasoningEngine

namespace DiagnosticReasoningEngine

/-- Monotonicity of the whole rule loop under pointwise trigger
monotonicity. -/
theorem ruleFold_mono (i1 i2 : DiagnosticInput) (rules : List ObstetricRule)
    (hr : ∀ r ∈ rules, r.condition i1 = true → r.condition i2 = true)
    (a1 a2 : RiskLevel × Urgency × List Recommendation)
    (h1 : riskIdx a1.1 ≤ riskIdx a2.1) (h2 : urgIdx a1.2.1 ≤ urgIdx a2.2.1) :
    riskIdx ((rules.foldl (ruleStep i1) a1)).1 ≤ riskIdx ((rules.foldl (ruleStep i2) a2)).1 ∧
    urgIdx ((rules.foldl (ruleStep i1) a1)).2.1
      ≤ urgIdx ((rules.foldl (ruleStep i2) a2)).2.1 := by
  induction rules generalizing a1 a2 with
  | nil => exact ⟨h1, h2⟩
  | cons r rs ih =>
    rw [List.foldl_cons, List.foldl_cons]
    have hrt : ∀ r' ∈ rs, r'.condition i1 = true → r'.condition i2 = true :=
      fun r' h' => hr r' (List.mem_cons_of_mem r h')
    refine ih hrt (ruleStep i1 a1 r) (ruleStep i2 a2 r) ?_ ?_ <;> unfold ruleStep
    · by_cases hc1 : r.condition i1 = true
      · rw [if_pos hc1, if_pos (hr r (List.mem_cons_self r rs) hc1)]
        exact getHigherRiskLevel_mono _ _ _ h1
      · rw [if_neg hc1]
        by_cases hc2 : r.condition i2 = true
        · rw [if_pos hc2]
          exact le_trans h1 (le_getHigherRiskLevel _ _)
        · rw [if_neg hc2]
          exact h1
    · by_cases hc1 : r.condition i1 = true
      · rw [if_pos hc1, if_pos (hr r (List.mem_cons_self r rs) hc1)]
        exact getHigherUrgency_mono _ _ _ h2
      · rw [if_neg hc1]
        by_cases hc2 : r.condition i2 = true
        · rw [if_pos hc2]
          exact le_trans h2 (le_getHigherUrgency _ _)
        · rw [if_neg hc2]
          exact h2

/-- Monotonicity of the whole condition loop under pointwise posterior
monotonicity. -/
theorem conditionFold_mono (i1 i2 : DiagnosticInput) (conds : List ConditionDefinition)
    (hp : ∀ c ∈ conds, calculateBayesianProbability c i1 ≤ calculateBayesianProbability c i2)
    (a1 a2 : List DifferentialCondition × RiskLevel × Urgency)
    (h1 : riskIdx a1.2.1 ≤ riskIdx a2.2.1) (h2 : urgIdx a1.2.2 ≤ urgIdx a2.2.2) :
    riskIdx ((conds.foldl (conditionStep i1) a1)).2.1
      ≤ riskIdx ((conds.foldl (conditionStep i2) a2)).2.1 ∧
    urgIdx ((conds.foldl (conditionStep i1) a1)).2.2
      ≤ urgIdx ((conds.foldl (conditionStep i2) a2)).2.2 := by
  induction conds generalizing a1 a2 with
  | nil => exact ⟨h1, h2⟩
  | cons c cs ih =>
    rw [List.foldl_cons, List.foldl_cons]
    have hpt : ∀ c' ∈ cs,
        calculateBayesianProbability c' i1 ≤ calculateBayesianProbability c' i2 :=
      fun c' h' => hp c' (List.mem_cons_of_mem c h')
    have hpc : calculateBayesianProbability c i1 ≤ calculateBayesianProbability c i2 :=
      hp c (List.mem_cons_self c cs)
    refine ih hpt (conditionStep i1 a1 c) (conditionStep i2 a2 c) ?_ ?_ <;>
      unfold conditionStep <;> dsimp only
    · by_cases ha1 : calculateBayesianProbability c i1 > 0.1
      · rw [if_pos ha1, if_pos (by linarith : calculateBayesianProbability c i2 > 0.1)]
        by_cases hb1 : calculateBayesianProbability c i1 > 0.5
        · rw [if_pos hb1, if_pos (by linarith : calculateBayesianProbability c i2 > 0.5)]
          exact getHigherRiskLevel_mono _ _ _ h1
        · rw [if_neg hb1]
          by_cases hb2 : calculateBayesianProbability c i2 > 0.5
          · rw [if_pos hb2]
            exact le_trans h1 (le_getHigherRiskLevel _ _)
          · rw [if_neg hb2]
            exact h1
      · rw [if_neg ha1]
        by_cases ha2 : calculateBayesianProbability c i2 > 0.1
        · rw [if_pos ha2]
          by_cases hb2 : calculateBayesianProbability c i2 > 0.5
          · rw [if_pos hb2]
            exact le_trans h1 (le_getHigherRiskLevel _ _)
          · rw [if_neg hb2]
            exact h1
        · rw [if_neg ha2]
          exact h1
    · by_cases ha1 : calculateBayesianProbability c i1 > 0.1
      · rw [if_pos ha1, if_pos (by linarith : calculateBayesianProbability c i2 > 0.1)]
        by_cases hb1 : calculateBayesianProbability c i1 > 0.5
        · rw [if_pos hb1, if_pos (by linarith : calculateBayesianProbability c i2 > 0.5)]
          exact getHigherUrgency_mono _ _ _ h2
        · rw [if_neg hb1]
          by_cases hb2 : calculateBayesianProbability c i2 > 0.5
          · rw [if_pos hb2]
            exact le_trans h2 (le_getHigherUrgency _ _)
          · rw [if_neg hb2]
            exact h2
      · rw [if_neg ha1]
        by_cases ha2 : calculateBayesianProbability c i2 > 0.1
        · rw [if_pos ha2]
          by_cases hb2 : calculateBayesianProbability c i2 > 0.5
          · rw [if_pos hb2]
            exact le_trans h2 (le_getHigherUrgency _ _)
          · rw [if_neg hb2]
            exact h2
        · rw [if_neg ha2]
          exact h2

/-- Numeric facts about the shipped knowledgebase: all base probabilities
and weights are nonnegative, and all risk-factor multipliers are at
least 1. -/
theorem KB_facts : ∀ c ∈ OBSTETRIC_CONDITIONS,
    0 ≤ c.baseProbability ∧ (∀ d ∈ c.symptoms, 0 ≤ d.weight) ∧
    (∀ d ∈ c.riskFactors, 1 ≤ d.multiplier) ∧
    (∀ t ∈ c.trimesterRelevance, 0 ≤ t.multiplier) ∧
    (∀ i ∈ c.vitalSignIndicators.getD [], 0 ≤ i.weight) := by
  with_unfolding_all decide

/-- Master monotonicity lemma: extending the evidence never lowers the risk
level or the urgency of the analysis. -/
theorem analyze_mono (i1 i2 : DiagnosticInput) (h : InputExtends i1 i2) :
    riskIdx (analyze i1).overallRiskLevel ≤ riskIdx (analyze i2).overallRiskLevel ∧
    urgIdx (analyze i1).urgency ≤ urgIdx (analyze i2).urgency := by
  rw [analyze_riskLevel_eq, analyze_riskLevel_eq, analyze_urgency_eq, analyze_urgency_eq]
  have hfold := ruleFold_mono i1 i2 OBSTETRIC_RULES (rules_mono i1 i2 h)
    (.level_1, .routine, []) (.level_1, .routine, []) (le_refl _) (le_refl _)
  have hposts : ∀ c ∈ OBSTETRIC_CONDITIONS,
      calculateBayesianProbability c i1 ≤ calculateBayesianProbability c i2 := by
    intro c hc
    obtain ⟨hb, hs, hr, ht, hv⟩ := KB_facts c hc
    exact calcBayes_mono c i1 i2 h hb hs hr ht hv
  unfold conditionScan ruleScan
  exact conditionFold_mono i1 i2 OBSTETRIC_CONDITIONS hposts
    ([], (OBSTETRIC_RULES.foldl (ruleStep i1) (.level_1, .routine, [])).1,
      (OBSTETRIC_RULES.foldl (ruleStep i1) (.level_1, .routine, [])).2.1)
    ([], (OBSTETRIC_RULES.foldl (ruleStep i2) (.level_1, .routine, [])).1,
      (OBSTETRIC_RULES.foldl (ruleStep i2) (.level_1, .routine, [])).2.1)
    hfold.1 hfold.2

end DiagnosticReasoningEngine

/-- Extend a diagnostic input with one more symptom. -/
def addSymptom (input : DiagnosticInput) (s : SymptomInput) : DiagnosticInput :=
  { input with symptoms := input.symptoms ++ [s] }

/-- Extend a diagnostic input with one more risk factor. -/
def addRiskFactor (input : DiagnosticInput) (f : String) : DiagnosticInput :=
  { input with riskFactors := input.riskFactors ++ [f] }

/-- Keep the left optional value when present, else take the right one. -/
def keepOr (a b : Option ℚ) : Option ℚ :=
  match a with
  | some x => some x
  | none => b

/-- Merge extra vital readings into an existing record, never overwriting a
vital that is already present. -/
def mergeVitals (v e : VitalSignsInput) : VitalSignsInput where
  systolicBP := keepOr v.systolicBP e.systolicBP
  diastolicBP := keepOr v.diastolicBP e.diastolicBP
  heartRate := keepOr v.heartRate e.heartRate
  temperature := keepOr v.temperature e.temperature
  weight := keepOr v.weight e.weight
  oxygenSaturation := keepOr v.oxygenSaturation e.oxygenSaturation

/-- Extend a diagnostic input with additional vital-sign readings (existing
readings are kept unchanged). -/
def addVitals (input : DiagnosticInput) (e : VitalSignsInput) : DiagnosticInput :=
  let merged :=
    match input.vitalSigns with
    | some v => mergeVitals v e
    | none => e
  { input with vitalSigns := some merged }

theorem inputExtends_addSymptom (input : DiagnosticInput) (s : SymptomInput) :
    InputExtends input (addSymptom input s) := by
  refine ⟨?_, ?_, ?_, rfl, ?_⟩
  · intro x hx
    exact List.mem_append_left _ hx
  · intro f hf
    exact hf
  · exact le_refl _
  · exact vitalsExtends_refl _

theorem inputExtends_addRiskFactor (input : DiagnosticInput) (f : String) :
    InputExtends input (addRiskFactor input f) := by
  refine ⟨?_, ?_, ?_, rfl, ?_⟩
  · intro x hx
    exact hx
  · intro g hg
    have : g ∈ input.riskFactors := by simpa using hg
    show (input.riskFactors ++ [f]).contains g = true
    simp [this]
  · show input.riskFactors.length ≤ (input.riskFactors ++ [f]).length
    simp
  · exact vitalsExtends_refl _

theorem inputExtends_addVitals (input : DiagnosticInput) (e : VitalSignsInput) :
    InputExtends input (addVitals input e) := by
  refine ⟨?_, ?_, ?_, rfl, ?_⟩
  · intro x hx
    exact hx
  · intro g hg
    exact hg
  · exact le_refl _
  · show VitalsExtends input.vitalSigns (addVitals input e).vitalSigns
    cases hv : input.vitalSigns with
    | none => trivial
    | some v =>
      have heq : (addVitals input e).vitalSigns = some (mergeVitals v e) := by
        unfold addVitals
        rw [hv]
      rw [heq]
      intro sg q hq
      cases sg <;>
        (simp only [DiagnosticReasoningEngine.vsValue, mergeVitals] at hq ⊢;
         rw [hq]; rfl)

/-- C2: adding evidence never lowers the analysis outcome. For every
diagnostic input, appending a symptom (of any severity), appending a risk
factor, or supplying additional vital-sign readings yields an `analyze`
result whose overall risk level and urgency are at least those of the
original input, in the ordinal orders level_1 < level_2 < level_3 < level_4
and routine < soon < urgent < emergency. -/
theorem C2_monotonicity (input : DiagnosticInput) (s : SymptomInput) (f : String)
    (extra : VitalSignsInput) :
    (riskIdx (DiagnosticReasoningEngine.analyze input).overallRiskLevel
       ≤ riskIdx (DiagnosticReasoningEngine.analyze (addSymptom input s)).overallRiskLevel ∧
     urgIdx (DiagnosticReasoningEngine.analyze input).urgency
       ≤ urgIdx (DiagnosticReasoningEngine.analyze (addSymptom input s)).urgency) ∧
    (riskIdx (DiagnosticReasoningEngine.analyze input).overallRiskLevel
       ≤ riskIdx (DiagnosticReasoningEngine.analyze (addRiskFactor input f)).overallRiskLevel ∧
     urgIdx (DiagnosticReasoningEngine.analyze input).urgency
       ≤ urgIdx (DiagnosticReasoningEngine.analyze (addRiskFactor input f)).urgency) ∧
    (riskIdx (DiagnosticReasoningEngine.analyze input).overallRiskLevel
       ≤ riskIdx (DiagnosticReasoningEngine.analyze (addVitals input extra)).overallRiskLevel ∧
     urgIdx (DiagnosticReasoningEngine.analyze input).urgency
       ≤ urgIdx (DiagnosticReasoningEngine.analyze (addVitals input extra)).urgency) :=
  ⟨DiagnosticReasoningEngine.analyze_mono input (addSymptom input s)
     (inputExtends_addSymptom input s),
   DiagnosticReasoningEngine.analyze_mono input (addRiskFactor input f)
     (inputExtends_addRiskFactor input f),
   DiagnosticReasoningEngine.analyze_mono input (addVitals input extra)
     (inputExtends_addVitals input extra)⟩

/-! ## Conversational engine: data model and lexical extractors -/

/-- User roles of the application. -/
inductive UserRole
  | mother | doctor | admin
deriving DecidableEq, Repr, BEq

/-- Conversation intents. -/
inductive Intent
  | symptom_report | question | emergency | appointment | medication
  | nutrition | emotional_support | education | general
deriving DecidableEq, Repr, BEq

/-- Emotional tones. -/
inductive EmotionalTone
  | neutral | anxious | distressed | calm | urgent
deriving DecidableEq, Repr, BEq

/-- Medical entity categories. -/
inductive EntityType
  | symptom | medication | condition | body_part | time_expression | measurement
deriving DecidableEq, Repr, BEq

/-- `MedicalEntity`. -/
structure MedicalEntity where
  type : EntityType
  value : String
  confidence : ℚ
  normalizedValue : Option String := none
deriving DecidableEq, Repr

/-- `ConversationContext` (the fields consumed by response generation; the
message log and timestamps are persistence-only and are not modelled). -/
structure ConversationContext where
  sessionId : String
  userId : String
  userRole : UserRole
  extractedSymptoms : List SymptomInput := []
  currentIntent : Intent := .general
  emotionalTone : EmotionalTone := .neutral
  pregnancyWeek : Option Nat := none
  riskFactors : List String := []
deriving DecidableEq, Repr

/-- `ReasoningTrace` of an AI response. -/
structure ReasoningTrace where
  steps : List String
  featuresConsidered : List String
  confidenceFactors : List (String × ℚ)
  alternativeInterpretations : Option (List String) := none
deriving DecidableEq, Repr

/-- `AIResponse`. -/
structure AIResponse where
  message : String
  clinicalMessage : Option String := none
  intent : Intent
  riskLevel : RiskLevel
  extractedSymptoms : List SymptomInput
  entities : List MedicalEntity
  recommendations : List String
  requiresEscalation : Bool
  escalationReason : Option String := none
  confidence : ℚ
  disclaimer : String
  reasoning : ReasoningTrace
deriving DecidableEq, Repr

/-- The fixed emergency keyword list (`EMERGENCY_KEYWORDS`). -/
def EMERGENCY_KEYWORDS : List String :=
  ["severe bleeding", "heavy bleeding", "hemorrhage",
   "seizure", "convulsion", "fit",
   "unconscious", "fainted", "passed out",
   "can\x27t breathe", "difficulty breathing", "shortness of breath",
   "severe headache", "worst headache",
   "vision problems", "seeing spots", "blurred vision",
   "severe abdominal pain", "intense pain",
   "no fetal movement", "baby not moving", "reduced movement",
   "water broke", "waters breaking", "leaking fluid",
   "contractions", "labor pains",
   "swelling face", "swelling hands",
   "high blood pressure", "bp high",
   "chest pain", "heart palpitations"]

/-! ### Word-boundary regex tests (`/\b(a|b|...)\b/i.test`) -/

/-- JS `\w` (ASCII word character). -/
def isWordChar (c : Char) : Bool := c.isAlphanum || c == '_'

/-- A `\b` boundary holds before the current position. -/
def boundaryBefore : Option Char → Bool
  | none => true
  | some c => !isWordChar c

/-- A `\b` boundary holds after the matched span. -/
def boundaryAfterOk : List Char → Bool
  | [] => true
  | c :: _ => !isWordChar c

/-- One word-bounded case-insensitive alternative matched at the current
position. -/
def wordAltHere (alt : List Char) (prev : Option Char) (l : List Char) : Bool :=
  boundaryBefore prev && startsWithBy Char.toLower alt l &&
    boundaryAfterOk (l.drop alt.length)

/-- Scan all positions for a word-bounded alternative. -/
def testWordAltsAux (alts : List (List Char)) (prev : Option Char) : List Char → Bool
  | [] => alts.any (fun a => wordAltHere a prev [])
  | c :: cs =>
    alts.any (fun a => wordAltHere a prev (c :: cs)) || testWordAltsAux alts (some c) cs

/-- Model of `/\b(a1|a2|...)\b/i.test(s)`. -/
def testWordAlts (alts : List String) (s : String) : Bool :=
  testWordAltsAux (alts.map String.toList) none s.toList

/-- The intent classification table (`INTENT_PATTERNS`), in order; the first
matching pattern wins. -/
def INTENT_PATTERNS : List (List String × Intent) :=
  [(["pain", "hurt", "ache", "bleeding", "discharge", "symptom", "feel sick", "unwell"],
    .symptom_report),
   (["emergency", "urgent", "help", "serious", "dangerous"], .emergency),
   (["appointment", "schedule", "book", "see doctor", "visit"], .appointment),
   (["medication", "medicine", "drug", "prescription", "pill", "tablet"], .medication),
   (["eat", "food", "diet", "nutrition", "vitamin", "supplement"], .nutrition),
   (["worried", "anxious", "scared", "stressed", "emotional", "crying"], .emotional_support),
   (["what", "how", "why", "when", "can I", "should I", "is it normal"], .question),
   (["learn", "information", "article", "read about", "tell me about"], .education)]

/-- The emotional tone table (`EMOTIONAL_PATTERNS`). -/
def EMOTIONAL_PATTERNS : List (List String × EmotionalTone) :=
  [(["help", "emergency", "urgent", "now", "immediately"], .urgent),
   (["worried", "anxious", "nervous", "scared", "afraid", "fear"], .anxious),
   (["terrified", "panic", "desperate", "can\x27t cope", "overwhelmed"], .distressed),
   (["fine", "okay", "good", "normal", "curious"], .calm)]

namespace AIConversationalEngine

/-- `detectIntent`: first matching pattern wins, default `general`. -/
def detectIntent (message : String) : Intent :=
  match INTENT_PATTERNS.find? (fun p => testWordAlts p.1 message) with
  | some p => p.2
  | none => .general

/-- `detectEmotionalTone`: first matching pattern wins, default `neutral`. -/
def detectEmotionalTone (message : String) : EmotionalTone :=
  match EMOTIONAL_PATTERNS.find? (fun p => testWordAlts p.1 message) with
  | some p => p.2
  | none => .neutral

/-! ### Symptom extraction (`SYMPTOM_PATTERNS` with `$1` capture) -/

/-- Length of the leading whitespace run. -/
def leadingWs (l : List Char) : Nat := (l.takeWhile Char.isWhitespace).length

/-- Match `pre\s+(alt1|alt2|...)` at the current position, returning the
captured alternative in its original case. -/
def capPreWsAltHere (pre : List Char) (alts : List (List Char)) (l : List Char) :
    Option (List Char) :=
  if startsWithBy Char.toLower pre l then
    let rest := l.drop pre.length
    let wsn := leadingWs rest
    if wsn == 0 then none
    else
      let rest2 := rest.drop wsn
      alts.findSome? (fun a =>
        if startsWithBy Char.toLower a rest2 then some (rest2.take a.length) else none)
  else none

/-- Leftmost match of `pre\s+(alt1|alt2|...)` anywhere in the text. -/
def capPreWsAltAux (pre : List Char) (alts : List (List Char)) : List Char → Option (List Char)
  | [] => none
  | c :: cs =>
    match capPreWsAltHere pre alts (c :: cs) with
    | some cap => some cap
    | none => capPreWsAltAux pre alts cs

/-- Leftmost match of a bare alternation `(alt1|alt2|...)`, returning the
captured span in its original case. -/
def capAltAux (alts : List (List Char)) : List Char → Option (List Char)
  | [] => none
  | c :: cs =>
    match alts.findSome? (fun a =>
      if startsWithBy Char.toLower a (c :: cs) then some ((c :: cs).take a.length) else none) with
    | some cap => some cap
    | none => capAltAux alts cs

/-- One entry of `SYMPTOM_PATTERNS`: either a `pre\s+(...)` capture pattern,
a bare capture alternation, or a word-bounded alternation with a fixed
symptom name. -/
inductive SymPattern
  | capture (pre : String) (alts : List String) (severity : Severity)
  | plain (alts : List String) (severity : Severity)
  | word (alts : List String) (symptom : String) (severity : Severity)
deriving Repr

/-- `SYMPTOM_PATTERNS`, in source order. -/
def SYMPTOM_PATTERNS : List SymPattern :=
  [.capture "severe" ["headache", "pain", "bleeding"] .severe,
   .capture "mild" ["headache", "nausea", "cramping"] .mild,
   .plain ["nausea", "vomiting", "dizziness"] .moderate,
   .word ["bleeding", "spotting"] "bleeding" .moderate,
   .word ["swelling", "edema"] "swelling" .moderate,
   .word ["fever", "temperature"] "fever" .moderate,
   .word ["fatigue", "tired", "exhausted"] "fatigue" .mild,
   .word ["back pain", "backache"] "back pain" .moderate,
   .word ["cramping", "cramps"] "cramping" .moderate,
   .word ["discharge"] "vaginal discharge" .mild]

/-- Run one symptom pattern against the message, yielding the extracted name
and severity. -/
def runSymPattern (p : SymPattern) (message : String) : Option (String × Severity) :=
  match p with
  | .capture pre alts sev =>
    (capPreWsAltAux pre.toList (alts.map String.toList) message.toList).map
      (fun l => (String.mk l, sev))
  | .plain alts sev =>
    (capAltAux (alts.map String.toList) message.toList).map (fun l => (String.mk l, sev))
  | .word alts name sev =>
    if testWordAlts alts message then some (name, sev) else none

/-- `extractSymptoms`: run every pattern, suppressing case-insensitive
duplicate names (first kept). -/
def extractSymptoms (message : String) : List SymptomInput :=
  SYMPTOM_PATTERNS.foldl (fun acc p =>
    match runSymPattern p message with
    | some nv =>
      if acc.any (fun s => lowerStr s.name == lowerStr nv.1) then acc
      else acc ++ [{ name := nv.1, severity := nv.2 }]
    | none => acc) []

/-! ### Medical entity extraction (time/measurement regexes, `matchAll`) -/

/-- Token of an entity-extraction regex. -/
inductive RTok
  | digits
  | decimal
  | slashNums
  | ws
  | lit (alts : List String)
  | optLit (w : String)
  | optChar (c : Char)
deriving Repr

/-- Greedy match of one token at the head of the text, returning the
consumed length. -/
def matchTok : RTok → List Char → Option Nat
  | .digits, l =>
    let n := (l.takeWhile Char.isDigit).length
    if n == 0 then none else some n
  | .decimal, l =>
    let n := (l.takeWhile Char.isDigit).length
    if n == 0 then none
    else
      match l.drop n with
      | '.' :: rest2 => some (n + 1 + (rest2.takeWhile Char.isDigit).length)
      | _ => some n
  | .slashNums, l =>
    let n := (l.takeWhile Char.isDigit).length
    if n == 0 then none
    else
      match l.drop n with
      | '/' :: rest2 =>
        let m := (rest2.takeWhile Char.isDigit).length
        if m == 0 then none else some (n + 1 + m)
      | _ => none
  | .ws, l => some (l.takeWhile Char.isWhitespace).length
  | .lit alts, l =>
    alts.findSome? (fun a =>
      if startsWithBy Char.toLower a.toList l then some a.toList.length else none)
  | .optLit w, l =>
    if startsWithBy Char.toLower w.toList l then some w.toList.length else some 0
  | .optChar c, l =>
    match l with
    | d :: _ => if d.toLower == c.toLower then some 1 else some 0
    | [] => some 0

/-- Match a token sequence at the head of the text. -/
def matchSeq : List RTok → List Char → Option Nat
  | [], _ => some 0
  | t :: ts, l =>
    match matchTok t l with
    | some n =>
      match matchSeq ts (l.drop n) with
      | some m => some (n + m)
      | none => none
    | none => none

/-- Try pattern alternatives (in order) at the current position. -/
def matchPatHere (alts : List (List RTok)) (l : List Char) : Option Nat :=
  alts.findSome? (fun seq => matchSeq seq l)

/-- `matchAll` semantics: collect every (leftmost, non-overlapping) match,
resuming after each match. -/
def scanAll (alts : List (List RTok)) (l : List Char) : List (List Char) :=
  match l with
  | [] => []
  | c :: cs =>
    match matchPatHere alts (c :: cs) with
    | some (n + 1) => (c :: cs).take (n + 1) :: scanAll alts ((c :: cs).drop (n + 1))
    | _ => scanAll alts cs
termination_by l.length
decreasing_by
  · simp only [List.length_drop, List.length_cons]
    omega
  · simp

/-- The three time-expression regexes, as alternative token sequences. -/
def timePatterns : List (List (List RTok)) :=
  [[[.digits, .ws, .lit ["hour", "day", "week", "month"], .optChar 's', .ws, .optLit "ago"]],
   [[.lit ["yesterday", "today", "this morning", "last night"]]],
   [[.lit ["since", "for"], .ws, .digits, .ws, .lit ["day", "week", "hour"], .optChar 's']]]

/-- The four measurement regexes (blood pressure, weight, temperature,
heart rate), with group alternations distributed into top-level
alternatives. -/
def measurementPatterns : List (List (List RTok)) :=
  [[[.slashNums, .ws, .lit ["mmhg"]],
    [.slashNums, .ws, .lit ["mm"], .ws, .lit ["hg"]]],
   [[.decimal, .ws, .lit ["kg"]],
    [.decimal, .ws, .lit ["pound"], .optChar 's'],
    [.decimal, .ws, .lit ["lb"], .optChar 's']],
   [[.decimal, .ws, .optChar '°', .ws, .lit ["c", "f", "celsius", "fahrenheit"]]],
   [[.digits, .ws, .lit ["bpm"]],
    [.digits, .ws, .lit ["beat"], .optChar 's', .ws, .lit ["per"], .ws, .lit ["min"]]]]

/-- The fixed body-part list. -/
def bodyParts : List String :=
  ["head", "stomach", "abdomen", "back", "chest", "leg", "arm", "pelvis", "uterus"]

/-- `extractMedicalEntities`: time expressions, then measurements, then
body-part mentions. -/
def extractMedicalEntities (message : String) : List MedicalEntity :=
  let timeEnts := timePatterns.foldl (fun acc pat =>
    acc ++ (scanAll pat message.toList).map (fun l =>
      { type := .time_expression, value := String.mk l, confidence := 0.85 })) []
  let measEnts := measurementPatterns.foldl (fun acc pat =>
    acc ++ (scanAll pat message.toList).map (fun l =>
      { type := .measurement, value := String.mk l, confidence := 0.9 })) []
  let bodyEnts := bodyParts.foldl (fun acc part =>
    if strIncludes (lowerStr message) part then
      acc ++ [{ type := .body_part, value := part, confidence := 0.8 }]
    else acc) []
  timeEnts ++ measEnts ++ bodyEnts

end AIConversationalEngine

namespace AIConversationalEngine

/-- Result of the emergency pre-check. -/
structure EmergencyCheck where
  isEmergency : Bool
  keywords : List String
deriving DecidableEq, Repr

/-- `checkForEmergency`: case-insensitive substring search for every fixed
emergency keyword. -/
def checkForEmergency (message : String) : EmergencyCheck :=
  let lowerMessage := lowerStr message
  let foundKeywords := EMERGENCY_KEYWORDS.filter (fun keyword =>
    strIncludes lowerMessage (lowerStr keyword))
  { isEmergency := !foundKeywords.isEmpty, keywords := foundKeywords }

/-- JS `${context.pregnancyWeek || 'Unknown'}` (0 and `undefined` are both
falsy). -/
def weekOrUnknown (week : Option Nat) : String :=
  match week with
  | some w => if w == 0 then "Unknown" else toString w
  | none => "Unknown"

/-- JS `${context.riskFactors.join(', ') || 'None recorded'}`. -/
def joinOr (l : List String) (fallback : String) : String :=
  let j := joinComma l
  if j == "" then fallback else j

/-- `generateEmergencyResponse`. -/
def generateEmergencyResponse (keywords : List String) (userRole : UserRole)
    (context : ConversationContext) : AIResponse :=
  let patientMessage :=
    "🚨 I\x27ve detected potential emergency symptoms: " ++ joinComma keywords ++ ". \n    \nPlease take these immediate steps:\n1. Stay calm and sit or lie down in a safe position\n2. If you\x27re alone, call someone to be with you\n3. Contact your healthcare provider immediately\n4. If symptoms are severe, call emergency services (911)\n\nDo NOT wait to see if symptoms improve. Your safety and your baby\x27s safety are the priority.\n\nIs someone with you right now?"
  let clinicalMessage :=
    "EMERGENCY ALERT: Patient reported " ++ joinComma keywords ++ ". \nPregnancy week: " ++
    weekOrUnknown context.pregnancyWeek ++ "\nRisk factors: " ++
    joinOr context.riskFactors "None recorded" ++ "\nImmediate clinical assessment required."
  { message := patientMessage
    clinicalMessage := if userRole == .doctor then some clinicalMessage else none
    intent := .emergency
    riskLevel := .level_4
    extractedSymptoms := keywords.map (fun k => { name := k, severity := .critical })
    entities := keywords.map (fun k => { type := .symptom, value := k, confidence := 0.95 })
    recommendations :=
      ["Seek immediate medical attention",
       "Call emergency services if symptoms are severe",
       "Do not drive yourself to the hospital",
       "Have someone stay with you"]
    requiresEscalation := true
    escalationReason := some ("Emergency symptoms detected: " ++ joinComma keywords)
    confidence := 0.95
    disclaimer := "This is an AI-assisted assessment. In case of emergency, always contact emergency services immediately."
    reasoning :=
      { steps :=
          ["Detected high-priority emergency keywords in message",
           "Matched against known emergency symptom patterns",
           "Triggered immediate escalation protocol"]
        featuresConsidered := ["keyword_matching", "severity_indicators", "pregnancy_context"]
        confidenceFactors := [("keyword_match", 0.9), ("context_severity", 0.85)] } }

/-- `calculateRiskLevel`. -/
def calculateRiskLevel (symptoms : List SymptomInput) (context : ConversationContext) :
    RiskLevel :=
  if symptoms.isEmpty then .level_1
  else if symptoms.any (fun s => s.severity == .critical) then .level_4
  else if symptoms.any (fun s => s.severity == .severe) then .level_3
  else
    let moderateCount := (symptoms.filter (fun s => s.severity == .moderate)).length
    if moderateCount ≥ 2 then .level_3
    else if moderateCount == 1 then .level_2
    else if context.riskFactors.length > 0 then .level_2
    else .level_1

/-- Rendering of enum values inside template strings. -/
def severityToStr : Severity → String
  | .mild => "mild" | .moderate => "moderate" | .severe => "severe" | .critical => "critical"

/-- Intent rendering. -/
def intentToStr : Intent → String
  | .symptom_report => "symptom_report" | .question => "question" | .emergency => "emergency"
  | .appointment => "appointment" | .medication => "medication" | .nutrition => "nutrition"
  | .emotional_support => "emotional_support" | .education => "education"
  | .general => "general"

/-- Tone rendering. -/
def toneToStr : EmotionalTone → String
  | .neutral => "neutral" | .anxious => "anxious" | .distressed => "distressed"
  | .calm => "calm" | .urgent => "urgent"

/-- Risk level rendering. -/
def riskToStr : RiskLevel → String
  | .level_1 => "level_1" | .level_2 => "level_2" | .level_3 => "level_3"
  | .level_4 => "level_4"

/-- `generateSymptomResponse`. -/
def generateSymptomResponse (symptoms : List SymptomInput) (riskLevel : RiskLevel)
    (context : ConversationContext) (isPatient : Bool) :
    String × String × List String :=
  let symptomList := joinOr (symptoms.map (fun s => s.name)) "your symptoms"
  let pair : String × List String :=
    match riskLevel with
    | .level_1 =>
      (if isPatient then
        "Thank you for sharing about " ++ symptomList ++ ". Based on what you\x27ve described, these symptoms appear to be within normal range for pregnancy. However, I recommend:\n\n• Continue monitoring how you feel\n• Stay hydrated and get adequate rest\n• Note any changes or worsening symptoms\n\nWould you like tips on managing these symptoms?"
       else "Patient reported " ++ symptomList ++ ". Low risk assessment. Continue routine monitoring.",
       ["Monitor symptoms", "Stay hydrated", "Get adequate rest", "Continue normal activities"])
    | .level_2 =>
      (if isPatient then
        "I understand you\x27re experiencing " ++ symptomList ++ ". These symptoms warrant attention. I recommend:\n\n• Monitor your symptoms closely over the next 24-48 hours\n• Keep track of frequency and intensity\n• Contact your healthcare provider if symptoms worsen or persist\n\nWould you like to schedule a routine check-up?"
       else "Patient reported " ++ symptomList ++ ". Moderate concern. Recommend follow-up within 48-72 hours.",
       ["Monitor symptoms closely", "Schedule routine check-up", "Avoid strenuous activities",
        "Contact doctor if worsening"])
    | .level_3 =>
      (if isPatient then
        "⚠️ I\x27m concerned about " ++ symptomList ++ ". These symptoms require prompt medical attention. Please:\n\n• Contact your healthcare provider within the next 24 hours\n• Do not wait to see if symptoms improve on their own\n• Avoid strenuous activity until evaluated\n\nWould you like help contacting your doctor now?"
       else "ALERT: Patient reported " ++ symptomList ++ ". Elevated risk. Urgent follow-up required within 24 hours.",
       ["Contact doctor within 24 hours", "Avoid strenuous activity",
        "Have someone available to assist", "Prepare to seek emergency care if worsening"])
    | .level_4 =>
      (if isPatient then
        "🚨 The symptoms you\x27ve described (" ++ symptomList ++ ") are serious and require immediate medical attention. Please:\n\n• Go to the emergency room or call emergency services NOW\n• Do not drive yourself - have someone take you or call an ambulance\n• Bring someone with you if possible\n\nYour health and your baby\x27s health are the priority."
       else "CRITICAL: Patient reported " ++ symptomList ++ ". Immediate medical intervention required. Activate emergency protocol.",
       ["Seek immediate emergency care", "Call emergency services", "Do not drive yourself",
        "Have someone stay with you"])
  let clinicalMessage :=
    "Clinical Assessment:\nSymptoms: " ++ symptomList ++ "\nSeverities: " ++
    joinComma (symptoms.map (fun s => s.name ++ "(" ++ severityToStr s.severity ++ ")")) ++
    "\nPregnancy week: " ++ weekOrUnknown context.pregnancyWeek ++ "\nRisk factors: " ++
    joinOr context.riskFactors "None" ++ "\nRisk Level: " ++ riskToStr riskLevel
  (pair.1, clinicalMessage, pair.2)

/-- `generateEmotionalSupportResponse`. -/
def generateEmotionalSupportResponse (tone : EmotionalTone) (isPatient : Bool) : String :=
  if !isPatient then
    "Patient displaying " ++ toneToStr tone ++ " emotional state. Consider mental health screening if appropriate."
  else
    match tone with
    | .anxious =>
      "I hear that you\x27re feeling worried, and that\x27s completely understandable. Pregnancy can bring many concerns. Remember:\n\n• Your feelings are valid\n• Many expectant mothers share similar worries\n• It\x27s okay to ask for help and support\n\nWould you like to talk about what\x27s specifically worrying you? Or would you like some relaxation techniques that might help?"
    | .distressed =>
      "I can sense you\x27re going through a difficult time, and I want you to know that you\x27re not alone. It\x27s important that you:\n\n• Reach out to someone you trust\n• Consider speaking with a professional counselor\n• Don\x27t hesitate to contact your healthcare provider\n\nYour mental health matters just as much as your physical health. Would you like resources for emotional support?"
    | .urgent =>
      "I understand this feels urgent. Let me help you:\n\n• If this is a medical emergency, please call emergency services\n• If you need to speak with your doctor, I can help you prepare\n• If you\x27re feeling overwhelmed, that\x27s okay - we\x27ll take this one step at a time\n\nWhat do you need help with right now?"
    | _ =>
      "Thank you for sharing how you\x27re feeling. It\x27s important to take care of your emotional wellbeing during pregnancy. I\x27m here to listen and support you. What\x27s on your mind?"

end AIConversationalEngine

namespace AIConversationalEngine

/-- `generateResponse`: the non-emergency response path, switching on the
detected intent. -/
def generateResponse (context : ConversationContext) (intent : Intent)
    (symptoms : List SymptomInput) (entities : List MedicalEntity)
    (userRole : UserRole) : AIResponse :=
  let riskLevel := calculateRiskLevel symptoms context
  let isPatient := userRole == .mother
  let tuple : String × Option String × List String × Bool × Option String :=
    match intent with
    | .symptom_report =>
      let sr := generateSymptomResponse symptoms riskLevel context isPatient
      let requiresEscalation := riskLevel == .level_3 || riskLevel == .level_4
      (sr.1, some sr.2.1, sr.2.2, requiresEscalation,
       if requiresEscalation then
         some ("Risk level " ++ riskToStr riskLevel ++ " detected with symptoms: " ++
           joinComma (symptoms.map (fun s => s.name)))
       else none)
    | .emotional_support =>
      (generateEmotionalSupportResponse context.emotionalTone isPatient, none,
       ["Practice deep breathing exercises", "Speak with a trusted friend or family member",
        "Consider talking to a counselor", "Maintain regular sleep schedule"], false, none)
    | .medication =>
      (if isPatient then
        "I understand you have questions about medication. It\x27s important to always consult your healthcare provider before taking any medication during pregnancy. Some medications that are safe normally may not be safe during pregnancy. Would you like me to help you prepare questions for your doctor?"
       else "Patient inquiring about medication. Review current prescription history and pregnancy stage before providing guidance.",
       none,
       ["Consult your doctor before taking any medication",
        "Always mention your pregnancy when getting prescriptions",
        "Keep a list of all medications you take"], false, none)
    | .nutrition =>
      (if isPatient then
        "Nutrition is so important during pregnancy! Here are some key points:\n\n• Eat plenty of fruits, vegetables, and whole grains\n• Get enough protein from lean meats, beans, or legumes\n• Take your prenatal vitamins as prescribed\n• Stay well hydrated with water\n• Avoid raw fish, unpasteurized dairy, and deli meats\n\nWould you like more specific guidance based on your pregnancy stage?"
       else "Patient seeking nutritional guidance. Consider gestational age and any nutritional deficiencies noted in records.",
       none,
       ["Take prenatal vitamins daily", "Eat small, frequent meals", "Stay hydrated",
        "Avoid alcohol and limit caffeine"], false, none)
    | .appointment =>
      (if isPatient then
        "I can help you with appointment scheduling! Would you like to:\n\n1. Book a new appointment\n2. View upcoming appointments\n3. Reschedule an existing appointment\n\nPlease let me know what you\x27d like to do."
       else "Patient requesting appointment management assistance.",
       none,
       ["Prepare questions before your appointment", "Bring a list of current symptoms",
        "Note any changes since last visit"], false, none)
    | .education =>
      (if isPatient then
        "I\x27d love to help you learn more! Based on " ++
        (match context.pregnancyWeek with
         | some w =>
           if w == 0 then "your pregnancy"
           else "your " ++ toString w ++ "th week of pregnancy"
         | none => "your pregnancy") ++
        ", here are some topics you might find helpful:\n\n• What to expect this trimester\n• Baby\x27s development\n• Preparing for labor and delivery\n• Postpartum care\n\nWhat topic interests you most?"
       else "Patient seeking educational content. Consider providing stage-appropriate resources.",
       none,
       ["Attend prenatal classes", "Read reputable pregnancy resources",
        "Join a support group for expectant mothers"], false, none)
    | .question =>
      (if isPatient then
        "I\x27m here to help answer your questions! Please note that while I can provide general information, I\x27m not a replacement for your healthcare provider. What would you like to know?"
       else "Patient has a general health inquiry. Review context before responding.",
       none,
       ["Keep a list of questions for your doctor",
        "Don\x27t hesitate to ask about anything concerning you"], false, none)
    | _ =>
      (if isPatient then
        "Hello! I\x27m your maternal health assistant. I\x27m here to help you throughout your pregnancy journey. I can:\n\n• Help you track and report symptoms\n• Answer questions about pregnancy\n• Provide nutrition and wellness guidance\n• Help with appointment scheduling\n• Offer emotional support\n\nHow can I assist you today?"
       else "Patient initiated general conversation. Awaiting specific inquiry.",
       none, [], false, none)
  let reasoning : ReasoningTrace :=
    { steps :=
        ["Analyzed message intent: " ++ intentToStr intent,
         "Detected emotional tone: " ++ toneToStr context.emotionalTone,
         "Extracted " ++ toString symptoms.length ++ " symptom(s)",
         "Identified " ++ toString entities.length ++ " medical entity(ies)",
         "Calculated risk level: " ++ riskToStr riskLevel,
         "Generated " ++ (if isPatient then "patient-friendly" else "clinical") ++ " response"]
      featuresConsidered :=
        ["message_content", "conversation_history", "pregnancy_stage", "risk_factors",
         "emotional_state"]
      confidenceFactors :=
        [("intent_clarity", 0.85),
         ("symptom_specificity", if symptoms.length > 0 then 0.9 else 0.7),
         ("context_completeness",
          match context.pregnancyWeek with
          | some w => if w == 0 then 0.75 else 0.9
          | none => 0.75)] }
  let confidence :=
    (reasoning.confidenceFactors.foldl (fun sum f => sum + f.2) 0) /
      (reasoning.confidenceFactors.length : ℚ)
  { message := tuple.1
    clinicalMessage := if !isPatient then tuple.2.1 else none
    intent := intent
    riskLevel := riskLevel
    extractedSymptoms := symptoms
    entities := entities
    recommendations := tuple.2.2.1
    requiresEscalation := tuple.2.2.2.1
    escalationReason := tuple.2.2.2.2
    confidence := confidence
    disclaimer := "This AI assistant provides general information only and is not a substitute for professional medical advice. Always consult your healthcare provider for medical decisions."
    reasoning := reasoning }

/-- `processMessage`: the per-turn pipeline. The emergency pre-check runs
first; a hit short-circuits to the emergency response before any intent,
tone, symptom or entity extraction. The context-store bookkeeping (message
log, timestamps, Supabase persistence) is a side effect the embedding drops;
the updated fields feeding the response are applied to `context` inline. -/
def processMessage (context : ConversationContext) (message : String) : AIResponse :=
  let emergencyCheck := checkForEmergency message
  if emergencyCheck.isEmergency then
    generateEmergencyResponse emergencyCheck.keywords context.userRole context
  else
    let intent := detectIntent message
    let emotionalTone := detectEmotionalTone message
    let symptoms := extractSymptoms message
    let entities := extractMedicalEntities message
    let context' :=
      { context with
          currentIntent := intent
          emotionalTone := emotionalTone
          extractedSymptoms := context.extractedSymptoms ++ symptoms }
    generateResponse context' intent symptoms entities context.userRole

end AIConversationalEngine

/-- C4: if the lowercased message contains any `EMERGENCY_KEYWORDS` phrase
as a substring, `processMessage` short-circuits to the emergency response
before any intent/tone/symptom/entity extraction: the returned `AIResponse`
is exactly `generateEmergencyResponse` applied to the matched keywords, with
intent `emergency`, risk level `level_4`, `requiresEscalation = true` and
confidence 0.95. -/
theorem C4_emergency_precheck (context : ConversationContext) (message : String)
    (h : ∃ k ∈ EMERGENCY_KEYWORDS, strIncludes (lowerStr message) (lowerStr k) = true) :
    AIConversationalEngine.processMessage context message
      = AIConversationalEngine.generateEmergencyResponse
          (AIConversationalEngine.checkForEmergency message).keywords
          context.userRole context ∧
    (AIConversationalEngine.processMessage context message).intent = Intent.emergency ∧
    (AIConversationalEngine.processMessage context message).riskLevel = RiskLevel.level_4 ∧
    (AIConversationalEngine.processMessage context message).requiresEscalation = true ∧
    (AIConversationalEngine.processMessage context message).confidence = 0.95 := by
  obtain ⟨k, hk, hinc⟩ := h
  have hne : (AIConversationalEngine.checkForEmergency message).keywords ≠ [] := by
    unfold AIConversationalEngine.checkForEmergency
    intro hempty
    have : k ∈ EMERGENCY_KEYWORDS.filter (fun keyword =>
        strIncludes (lowerStr message) (lowerStr keyword)) :=
      List.mem_filter.mpr ⟨hk, hinc⟩
    rw [show (AIConversationalEngine.EmergencyCheck.mk
      (!(EMERGENCY_KEYWORDS.filter (fun keyword =>
          strIncludes (lowerStr message) (lowerStr keyword))).isEmpty)
      (EMERGENCY_KEYWORDS.filter (fun keyword =>
          strIncludes (lowerStr message) (lowerStr keyword)))).keywords
      = EMERGENCY_KEYWORDS.filter (fun keyword =>
          strIncludes (lowerStr message) (lowerStr keyword)) from rfl] at hempty
    rw [hempty] at this
    exact List.not_mem_nil k this
  have hflag : (AIConversationalEngine.checkForEmergency message).isEmergency = true := by
    have hne' : (EMERGENCY_KEYWORDS.filter (fun keyword =>
        strIncludes (lowerStr message) (lowerStr keyword))) ≠ [] := hne
    have hff : (EMERGENCY_KEYWORDS.filter (fun keyword =>
        strIncludes (lowerStr message) (lowerStr keyword))).isEmpty = false := by
      cases hq : (EMERGENCY_KEYWORDS.filter (fun keyword =>
          strIncludes (lowerStr message) (lowerStr keyword))).isEmpty with
      | false => rfl
      | true => exact absurd (List.isEmpty_iff.mp hq) hne'
    show (!(EMERGENCY_KEYWORDS.filter (fun keyword =>
        strIncludes (lowerStr message) (lowerStr keyword))).isEmpty) = true
    rw [hff]
    rfl
  have hmain : AIConversationalEngine.processMessage context message
      = AIConversationalEngine.generateEmergencyResponse
          (AIConversationalEngine.checkForEmergency message).keywords
          context.userRole context := by
    unfold AIConversationalEngine.processMessage
    dsimp only
    rw [hflag]
    rfl
  refine ⟨hmain, ?_, ?_, ?_, ?_⟩ <;> rw [hmain] <;> rfl

/-- Context of the C4 witness. -/
def c4Context : ConversationContext where
  sessionId := "s1"
  userId := "u1"
  userRole := .mother
  pregnancyWeek := some 30

/-- C4 witness: the theorem applied to a concrete message containing
"severe bleeding". -/
theorem C4_witness :
    (∃ k ∈ EMERGENCY_KEYWORDS,
      strIncludes (lowerStr "I have severe bleeding since this morning") (lowerStr k) = true) ∧
    (AIConversationalEngine.processMessage c4Context
      "I have severe bleeding since this morning").intent = Intent.emergency ∧
    (AIConversationalEngine.processMessage c4Context
      "I have severe bleeding since this morning").riskLevel = RiskLevel.level_4 ∧
    (AIConversationalEngine.processMessage c4Context
      "I have severe bleeding since this morning").requiresEscalation = true ∧
    (AIConversationalEngine.processMessage c4Context
      "I have severe bleeding since this morning").confidence = 0.95 :=
  ⟨by decide,
   (C4_emergency_precheck c4Context "I have severe bleeding since this morning"
      (by decide)).2⟩

/-! ## Multi-agent system: data model -/

/-- The triage agent's urgency scale (distinct from the diagnostic one: it
has `moderate` instead of `soon`). -/
inductive TriageUrgency
  | routine | moderate | urgent | emergency
deriving DecidableEq, Repr, BEq

/-- Rendering of a triage urgency in template strings. -/
def triageUrgencyToStr : TriageUrgency → String
  | .routine => "routine" | .moderate => "moderate" | .urgent => "urgent"
  | .emergency => "emergency"

/-- Learning-opportunity categories. -/
inductive LearningType
  | new_symptom_pattern | unusual_case | feedback_needed | knowledge_gap
deriving DecidableEq, Repr, BEq

/-- `LearningOpportunity`. `dataForReview` is a free-form record in the
source; it is modelled as labelled string-list entries. -/
structure LearningOpportunity where
  type : LearningType
  description : String
  suggestedAction : String
  dataForReview : List (String × List String)
deriving DecidableEq, Repr

/-- `AgentContext`. -/
structure AgentContext where
  pregnancyWeek : Option Nat := none
  riskLevel : Option RiskLevel := none
  previousMessages : List (String × String) := []
  symptoms : Option (List String) := none
  vitalSigns : Option (List (String × ℚ)) := none
  riskFactors : Option (List String) := none
deriving DecidableEq, Repr

/-- `AgentInput`. -/
structure AgentInput where
  message : String
  userId : String
  userRole : UserRole
  context : AgentContext
deriving DecidableEq, Repr

/-- Model of the free-form `metadata : Record<string, any>` of agent
outputs: one optional field per key that any agent ever writes. -/
structure AgentMetadata where
  urgencyLevel : Option TriageUrgency := none
  urgentKeywordsFound : List String := []
  moderateKeywordsFound : List String := []
  pregnancyWeek : Option Nat := none
  trimester : Option String := none
  isPregnancyRelated : Bool := false
  topic : Option String := none
  languageLevel : Option String := none
  educationType : Option String := none
  safetyLevel : Option String := none
  unsafeTopicsDetected : List String := []
  disclaimerAdded : Bool := false
  emergencyDetected : Option Bool := none
  severity : Option String := none
  action : Option String := none
  matchedPatterns : List String := []
  learningOpportunities : List LearningOpportunity := []
  totalOpportunities : Nat := 0
deriving DecidableEq, Repr

/-- `AgentOutput` (optional JS fields default to their falsy readings). -/
structure AgentOutput where
  agentId : String
  agentName : String
  response : String
  confidence : ℚ
  priority : Nat
  metadata : AgentMetadata
  requiresHumanReview : Bool := false
  escalate : Bool := false
  escalationReason : Option String := none
deriving DecidableEq, Repr

/-! ## Multi-agent system: the six agents -/

namespace TriageAgent

/-- Agent identity. -/
def id : String := "triage_agent"

/-- Agent display name. -/
def name : String := "Triage Agent"

/-- Agent priority (highest). -/
def priority : Nat := 100

/-- Urgent keyword list. -/
def urgentKeywords : List String :=
  ["emergency", "urgent", "severe", "intense", "unbearable",
   "bleeding", "hemorrhage", "unconscious", "seizure", "can\x27t breathe",
   "chest pain", "no movement", "water broke", "contractions"]

/-- Moderate keyword list. -/
def moderateKeywords : List String :=
  ["worried", "concerned", "persistent", "worsening", "increasing",
   "fever", "pain", "swelling", "headache", "nausea"]

/-- The triage agent always activates. -/
def shouldActivate (_input : AgentInput) : Bool := true

/-- `increaseUrgency` (capped at `emergency`). -/
def increaseUrgency : TriageUrgency → TriageUrgency
  | .routine => .moderate
  | .moderate => .urgent
  | .urgent => .emergency
  | .emergency => .emergency

/-- `generateTriageResponse`. -/
def generateTriageResponse : TriageUrgency → String
  | .emergency => "EMERGENCY TRIAGE: Immediate medical attention required."
  | .urgent => "URGENT TRIAGE: Please seek medical attention within the next few hours."
  | .moderate => "MODERATE CONCERN: Consider contacting your healthcare provider soon."
  | .routine => "ROUTINE: No immediate concerns detected."

/-- The triage agent's `process` (pure value). The source builds the output
then conditionally mutates `escalate`/`escalationReason`; the embedding
merges that mutation into the record fields. -/
def processOut (input : AgentInput) : AgentOutput :=
  let messageLower := lowerStr input.message
  let urgentMatches := urgentKeywords.filter (fun k => strIncludes messageLower k)
  let moderateMatches := moderateKeywords.filter (fun k => strIncludes messageLower k)
  let uc0 : TriageUrgency × ℚ :=
    if urgentMatches.length ≥ 2 then (.emergency, 0.95)
    else if urgentMatches.length == 1 then (.urgent, 0.85)
    else if moderateMatches.length ≥ 2 then (.moderate, 0.8)
    else if moderateMatches.length == 1 then (.moderate, 0.75)
    else (.routine, 0.7)
  let uc1 : TriageUrgency × ℚ :=
    if input.context.riskLevel == some .level_3 || input.context.riskLevel == some .level_4 then
      (increaseUrgency uc0.1, mathMin (uc0.2 + 0.1) 0.98)
    else uc0
  let uc2 : TriageUrgency × ℚ :=
    match input.context.pregnancyWeek with
    | some w =>
      if w > 36 then
        ((if uc1.1 == .routine then .moderate else uc1.1), mathMin (uc1.2 + 0.05) 0.98)
      else uc1
    | none => uc1
  let doEscalate := uc2.1 == .emergency || uc2.1 == .urgent
  { agentId := id
    agentName := name
    response := generateTriageResponse uc2.1
    confidence := uc2.2
    priority := priority
    metadata :=
      { urgencyLevel := some uc2.1
        urgentKeywordsFound := urgentMatches
        moderateKeywordsFound := moderateMatches }
    escalate := doEscalate
    escalationReason :=
      if doEscalate then
        some ("Triage level: " ++ triageUrgencyToStr uc2.1 ++ ". Keywords: " ++
          joinComma (urgentMatches ++ moderateMatches))
      else none }

end TriageAgent

namespace ObstetricAgent

/-- Agent identity. -/
def id : String := "obstetric_agent"

/-- Agent display name. -/
def name : String := "Obstetric Agent"

/-- Agent priority. -/
def priority : Nat := 90

/-- Pregnancy topic keywords. -/
def pregnancyTopics : List String :=
  ["pregnancy", "pregnant", "baby", "fetus", "trimester",
   "weeks", "due date", "delivery", "labor", "contraction",
   "prenatal", "ultrasound", "kick", "movement", "growth"]

/-- Activate on a pregnancy topic mention or a known pregnancy week. -/
def shouldActivate (input : AgentInput) : Bool :=
  pregnancyTopics.any (fun t => strIncludes (lowerStr input.message) t) ||
    input.context.pregnancyWeek.isSome

/-- `getTrimester`. -/
def getTrimester (week : Nat) : String :=
  if week ≤ 12 then "first" else if week ≤ 27 then "second" else "third"

/-- One weekly-information record. -/
structure WeekInfo where
  babyDevelopment : String
  commonExperiences : String
  importantNotes : String
deriving DecidableEq, Repr

/-- `getWeeklyInfo`. -/
def getWeeklyInfo (week : Nat) : WeekInfo :=
  if week ≤ 12 then
    { babyDevelopment := "Major organs are forming. Heart is beating. Neural tube developing."
      commonExperiences := "Morning sickness, fatigue, breast tenderness are common."
      importantNotes := "Take prenatal vitamins with folic acid. Avoid alcohol and raw foods." }
  else if week ≤ 20 then
    { babyDevelopment := "Baby is growing rapidly. You may start feeling movement."
      commonExperiences := "Energy often improves. Belly becoming visible."
      importantNotes := "Anatomy scan typically done around 18-20 weeks." }
  else if week ≤ 27 then
    { babyDevelopment := "Baby can hear sounds. Eyes are opening. Lungs developing."
      commonExperiences := "Regular fetal movement. Some back pain may occur."
      importantNotes := "Glucose screening typically done at 24-28 weeks." }
  else if week ≤ 36 then
    { babyDevelopment := "Baby is gaining weight rapidly. Preparing for birth."
      commonExperiences := "Braxton Hicks contractions. Increased fatigue."
      importantNotes := "Monitor fetal movement daily. Know signs of preterm labor." }
  else
    { babyDevelopment := "Baby is full-term and ready for birth."
      commonExperiences := "Increased pressure, possible nesting instinct."
      importantNotes := "Know labor signs. Have hospital bag ready. Monitor for decreased movement." }

/-- The obstetric agent's `process` (JS truthiness: week 0 counts as
absent). -/
def processOut (input : AgentInput) : AgentOutput :=
  let weekT : Option Nat :=
    match input.context.pregnancyWeek with
    | some w => if w == 0 then none else some w
    | none => none
  { agentId := id
    agentName := name
    response :=
      match weekT with
      | some w =>
        let weekInfo := getWeeklyInfo w
        "At week " ++ toString w ++ " of pregnancy (" ++ getTrimester w ++
        " trimester):\n\n" ++ "Baby Development: " ++ weekInfo.babyDevelopment ++ "\n\n" ++
        "Common Experiences: " ++ weekInfo.commonExperiences ++ "\n\n" ++
        "Important Notes: " ++ weekInfo.importantNotes
      | none =>
        "I can provide pregnancy-specific guidance. Could you share how many weeks along you are?"
    confidence := match weekT with | some _ => 0.85 | none => 0.7
    priority := priority
    metadata :=
      { pregnancyWeek := input.context.pregnancyWeek
        trimester := weekT.map getTrimester
        isPregnancyRelated := true } }

end ObstetricAgent

namespace EducationAgent

/-- Agent identity. -/
def id : String := "education_agent"

/-- Agent display name. -/
def name : String := "Education Agent"

/-- Agent priority. -/
def priority : Nat := 60

/-- Education trigger phrases. -/
def educationTriggers : List String :=
  ["what is", "what are", "explain", "tell me about", "how does",
   "why do", "should i", "can i", "is it normal", "learn"]

/-- Activate on an education trigger phrase. -/
def shouldActivate (input : AgentInput) : Bool :=
  educationTriggers.any (fun t => strIncludes (lowerStr input.message) t)

/-- Topic keyword table, in insertion order (first match wins). -/
def topicKeywords : List (String × List String) :=
  [("morning_sickness", ["nausea", "vomiting", "morning sickness", "sick"]),
   ("fetal_movement", ["baby moving", "kick", "movement", "baby kick"]),
   ("blood_pressure", ["blood pressure", "bp", "hypertension"]),
   ("nutrition", ["eat", "food", "diet", "nutrition", "vitamin"]),
   ("exercise", ["exercise", "workout", "active", "walk"]),
   ("labor", ["labor", "delivery", "contractions", "birth"]),
   ("medications", ["medication", "medicine", "drug", "safe to take"])]

/-- `detectTopic`. -/
def detectTopic (message : String) : String :=
  match topicKeywords.find? (fun p =>
    p.2.any (fun k => strIncludes (lowerStr message) k)) with
  | some p => p.1
  | none => "general"

/-- `generatePatientExplanation` (the fixed explanation table; unknown
topics fall back to the general text). -/
def generatePatientExplanation (topic : String) (_question : String) : String :=
  if topic == "morning_sickness" then
    "Morning sickness is very common in pregnancy, especially in the first trimester. It happens because of hormone changes in your body. \n\nTips that may help:\n• Eat small, frequent meals\n• Keep crackers by your bed for the morning\n• Stay hydrated with small sips\n• Avoid strong smells that bother you\n\nIf you can\x27t keep any food or water down, contact your doctor as this might need treatment."
  else if topic == "fetal_movement" then
    "Feeling your baby move is one of the exciting parts of pregnancy! Most moms first feel movement between 18-25 weeks.\n\nWhat to know:\n• Early movements feel like bubbles or flutters\n• Movements become stronger as baby grows\n• Baby has sleep cycles, so quiet periods are normal\n• After 28 weeks, track daily movement patterns\n\nIf you notice a significant decrease in movement, contact your healthcare provider."
  else if topic == "blood_pressure" then
    "Blood pressure is carefully monitored during pregnancy because changes can affect you and your baby.\n\nNormal BP in pregnancy is usually below 120/80. High blood pressure (above 140/90) needs medical attention.\n\nWarning signs to watch for:\n• Severe headaches\n• Vision changes\n• Upper belly pain\n• Sudden swelling\n\nRegular prenatal visits help catch any changes early."
  else if topic == "nutrition" then
    "Good nutrition supports your baby\x27s growth and your health. Here\x27s what to focus on:\n\n• Eat plenty of fruits, vegetables, whole grains\n• Include protein at each meal (lean meats, beans, eggs)\n• Take your prenatal vitamin daily\n• Drink lots of water (8-10 glasses)\n\nFoods to avoid:\n• Raw fish and undercooked meats\n• Unpasteurized dairy\n• High-mercury fish\n• Alcohol"
  else if topic == "exercise" then
    "Staying active during pregnancy is great for you and baby! Safe exercises include:\n\n• Walking\n• Swimming\n• Prenatal yoga\n• Light strength training\n\nListen to your body and stop if you feel:\n• Dizziness\n• Shortness of breath\n• Pain\n• Contractions\n\nAlways check with your doctor before starting a new exercise routine."
  else if topic == "labor" then
    "Labor is how your body prepares to deliver your baby. Here are the signs that labor may be starting:\n\nEarly signs:\n• Regular contractions that get stronger\n• Contractions that don\x27t stop when you move\n• Lower back pain\n• \"Water breaking\" (amniotic fluid leaking)\n\nWhen to go to the hospital:\n• Contractions 5 minutes apart for 1 hour\n• Your water breaks\n• Heavy bleeding\n• Decreased baby movement"
  else if topic == "medications" then
    "During pregnancy, always check before taking any medication, including over-the-counter medicines.\n\nGenerally considered safe (ask your doctor):\n• Acetaminophen (Tylenol) for pain\n• Some antacids for heartburn\n• Certain prenatal vitamins\n\nUsually to avoid:\n• Ibuprofen (Advil, Motrin)\n• Aspirin (unless prescribed)\n• Some herbal supplements\n\nAlways tell your pharmacist and doctor that you\x27re pregnant."
  else
    "I\x27m happy to help answer your pregnancy questions! I can provide information about:\n\n• Pregnancy symptoms and what\x27s normal\n• Baby\x27s development week by week\n• Nutrition and exercise during pregnancy\n• What to expect during labor and delivery\n• When to contact your healthcare provider\n\nWhat would you like to know more about?"

/-- `generateClinicalExplanation`. -/
def generateClinicalExplanation (topic : String) (_question : String) : String :=
  "Clinical Reference for " ++ replaceFirst topic "_" " " ++
  ":\n\nRefer to ACOG guidelines for evidence-based management protocols. Key clinical considerations include risk stratification, monitoring parameters, and intervention thresholds appropriate for the patient\x27s gestational age and risk factors."

/-- The education agent's `process`. -/
def processOut (input : AgentInput) : AgentOutput :=
  let isPatient := input.userRole == .mother
  let topic := detectTopic input.message
  { agentId := id
    agentName := name
    response :=
      if isPatient then generatePatientExplanation topic input.message
      else generateClinicalExplanation topic input.message
    confidence := 0.75
    priority := priority
    metadata :=
      { topic := some topic
        languageLevel := some (if isPatient then "patient" else "clinical")
        educationType := some "general_information" } }

end EducationAgent

namespace SafetyAgent

/-- Agent identity. -/
def id : String := "safety_agent"

/-- Agent display name. -/
def name : String := "Safety Agent"

/-- Agent priority. -/
def priority : Nat := 95

/-- Unsafe topic list. -/
def unsafeTopics : List String :=
  ["abortion", "terminate", "end pregnancy", "induce labor at home",
   "skip prenatal", "don\x27t need doctor", "natural only", "refuse treatment",
   "home birth alone", "ignore symptoms"]

/-- Phrases that require a disclaimer. -/
def disclaimerRequired : List String :=
  ["medication", "drug", "dosage", "treatment", "diagnosis",
   "definitely", "certainly", "guarantee", "cure", "will fix"]

/-- The safety agent always activates. -/
def shouldActivate (_input : AgentInput) : Bool := true

/-- `generateSafetyRedirect`. -/
def generateSafetyRedirect (topics : List String) : String :=
  "I understand you may have concerns, but I need to ensure your safety. For topics related to " ++
  joinComma topics ++
  ", please speak directly with your healthcare provider who can give you personalized guidance based on your specific situation. Your health and your baby\x27s health are the priority."

/-- `generateDisclaimer`. -/
def generateDisclaimer : String :=
  "DISCLAIMER: This information is for educational purposes only and should not replace professional medical advice. Always consult with your healthcare provider before making any medical decisions or changes to your treatment plan."

/-- The safety agent's `process`. -/
def processOut (input : AgentInput) : AgentOutput :=
  let messageLower := lowerStr input.message
  let unsafeMatches := unsafeTopics.filter (fun t => strIncludes messageLower t)
  let needsDisclaimer := disclaimerRequired.any (fun t => strIncludes messageLower t)
  let src : String × String × ℚ :=
    if !unsafeMatches.isEmpty then ("unsafe", generateSafetyRedirect unsafeMatches, 0.95)
    else if needsDisclaimer then ("caution", generateDisclaimer, 0.85)
    else ("safe", "Content passed safety review.", 0.9)
  { agentId := id
    agentName := name
    response := src.2.1
    confidence := src.2.2
    priority := priority
    metadata :=
      { safetyLevel := some src.1
        unsafeTopicsDetected := unsafeMatches
        disclaimerAdded := needsDisclaimer }
    requiresHumanReview := src.1 == "unsafe" }

/-- The five definitive-claim regex literals of `reviewResponse`. -/
def definitivePatterns : List String :=
  ["you definitely have", "this is certainly", "guaranteed to", "will cure",
   "don\x27t need to see a doctor"]

/-- Result of `reviewResponse`. -/
structure ReviewResult where
  approved : Bool
  modifiedResponse : String
  issues : List String
deriving DecidableEq, Repr

/-- One step of the definitive-pattern loop: the test runs against the
original `response`, the replacement against the accumulated text (JS
`String.replace` with a non-global regex replaces only the first
occurrence). -/
def reviewStep (response : String) (acc : String × List String) (pat : String) :
    String × List String :=
  if containsCI response pat then
    (replaceFirstCI acc.1 pat "may indicate",
     acc.2 ++ ["Found potentially unsafe definitive claim: /" ++ pat ++ "/i"])
  else acc

/-- The disclaimer line appended by `reviewResponse`. -/
def reviewDisclaimer : String :=
  "\n\nPlease consult with your healthcare provider for personalized medical advice."

/-- `reviewResponse`: hedge definitive claims, then append the
consult-your-provider line when medical advice lacks a provider mention. -/
def reviewResponse (response : String) : ReviewResult :=
  let step := definitivePatterns.foldl (reviewStep response) (response, [])
  let modified :=
    if (strIncludes (lowerStr response) "recommend" ||
        strIncludes (lowerStr response) "should") &&
       (!(strIncludes response "healthcare provider") && !(strIncludes response "doctor")) then
      step.1 ++ reviewDisclaimer
    else step.1
  { approved := step.2.isEmpty, modifiedResponse := modified, issues := step.2 }

end SafetyAgent

namespace EmergencyAgent

/-- Agent identity. -/
def id : String := "emergency_agent"

/-- Agent display name. -/
def name : String := "Emergency Agent"

/-- Agent priority (highest). -/
def priority : Nat := 100

/-- One emergency pattern: the regex alternation distributed into lowercase
literal alternatives, plus the original regex text (used in metadata). -/
structure EmergencyPattern where
  alts : List String
  src : String
  severity : String
  action : String
deriving DecidableEq, Repr

/-- The ten emergency patterns, in source order. -/
def emergencyPatterns : List EmergencyPattern :=
  [⟨["severe bleeding", "hemorrhage", "heavy bleeding"],
    "/severe bleeding|hemorrhage|heavy bleeding/i", "critical", "call_emergency"⟩,
   ⟨["seizure", "convulsion", "fitting"],
    "/seizure|convulsion|fitting/i", "critical", "call_emergency"⟩,
   ⟨["unconscious", "passed out", "fainted and not waking"],
    "/unconscious|passed out|fainted and not waking/i", "critical", "call_emergency"⟩,
   ⟨["can\x27t breathe", "difficulty breathing", "shortness of breath"],
    "/can\x27t breathe|difficulty breathing|shortness of breath/i", "critical", "call_emergency"⟩,
   ⟨["no fetal movement", "no baby movement", "baby not moved", "baby hasn\x27t moved"],
    "/no (fetal|baby) movement|baby (not|hasn\x27t) moved/i", "high", "urgent_care"⟩,
   ⟨["water broke", "waters breaking", "leaking fluid"],
    "/water broke|waters breaking|leaking fluid/i", "high", "go_hospital"⟩,
   ⟨["regular contractions", "labor pains"],
    "/regular contractions|labor pains/i", "high", "go_hospital"⟩,
   ⟨["severe headache", "worst headache"],
    "/severe headache|worst headache/i", "high", "urgent_care"⟩,
   ⟨["chest pain", "heart attack"],
    "/chest pain|heart attack/i", "critical", "call_emergency"⟩,
   ⟨["suicidal", "want to die", "harm myself"],
    "/suicidal|want to die|harm myself/i", "critical", "crisis_line"⟩]

/-- Does a pattern match the lowercased message? -/
def patternTest (ep : EmergencyPattern) (messageLower : String) : Bool :=
  ep.alts.any (fun a => strIncludes messageLower a)

/-- Activate when any emergency pattern matches. -/
def shouldActivate (input : AgentInput) : Bool :=
  emergencyPatterns.any (fun ep => patternTest ep (lowerStr input.message))

/-- The response table of `generateEmergencyResponse`, keyed on the matched
action (with the `call_emergency` fallback of the source's map lookup). -/
def responseFor (action : String) : String :=
  if action == "go_hospital" then
    "⚠️ URGENT - Go to Hospital\n\nPlease go to the hospital or birthing center NOW:\n\n1. Call someone to drive you - do NOT drive yourself\n2. If no one is available, call an ambulance\n3. Bring your hospital bag and ID\n4. Call the hospital on the way if possible\n\nSigns this is happening:\n• Regular, strong contractions\n• Water has broken\n• Active labor beginning\n\nStay calm and focused. This is what you\x27ve prepared for."
  else if action == "urgent_care" then
    "⚠️ Seek Urgent Medical Care\n\nPlease contact your healthcare provider immediately or go to urgent care:\n\n1. Call your doctor\x27s emergency line\n2. If unavailable, go to the emergency room\n3. Have someone accompany you if possible\n\nWhile waiting:\n• Sit or lie down comfortably\n• Monitor your symptoms\n• Note when symptoms started\n\nThis needs prompt attention but may not require emergency services."
  else if action == "crisis_line" then
    "💚 You\x27re Not Alone\n\nI hear that you\x27re going through something very difficult. Your feelings matter, and help is available.\n\nPlease reach out NOW:\n• National Suicide Prevention Lifeline: 988\n• Crisis Text Line: Text HOME to 741741\n• International Association for Suicide Prevention: https://www.iasp.info/resources/Crisis_Centres/\n\nYou deserve support. A trained counselor can help you through this moment.\n\nIf you\x27re in immediate danger, please call 911."
  else
    "🚨 EMERGENCY ALERT 🚨\n\nThis is a medical emergency. Please take these steps IMMEDIATELY:\n\n1. Call emergency services (911) NOW\n2. Stay where you are - help is coming\n3. If possible, have someone stay with you\n4. Lie down in a safe position\n5. Keep your phone nearby\n\nIf you\x27re alone:\n• Call emergency services first\n• Then call your emergency contact\n• Leave your door unlocked if possible\n\nDO NOT wait to see if symptoms improve. Your life and your baby\x27s life may depend on getting immediate help."

/-- Fallback pattern for the (unreachable) head of an empty match list. -/
def defaultPattern : EmergencyPattern := ⟨[], "", "", ""⟩

/-- The emergency agent's `process`. The source's early return for "no
emergency" and the post-construction `escalate` mutation are merged into
per-field conditionals. -/
def processOut (input : AgentInput) : AgentOutput :=
  let matchedEmergencies :=
    emergencyPatterns.filter (fun ep => patternTest ep (lowerStr input.message))
  let emergency :=
    match matchedEmergencies.find? (fun e => e.severity == "critical") with
    | some e => e
    | none => matchedEmergencies.headD defaultPattern
  { agentId := id
    agentName := name
    response :=
      if matchedEmergencies.isEmpty then "No emergency detected."
      else responseFor emergency.action
    confidence := if matchedEmergencies.isEmpty then 0.9 else 0.95
    priority := priority
    metadata :=
      if matchedEmergencies.isEmpty then { emergencyDetected := some false }
      else
        { emergencyDetected := some true
          severity := some emergency.severity
          action := some emergency.action
          matchedPatterns := matchedEmergencies.map (fun e => e.src) }
    escalate := !matchedEmergencies.isEmpty
    escalationReason :=
      if matchedEmergencies.isEmpty then none
      else some ("Emergency detected: " ++ emergency.severity ++ " - " ++ emergency.action) }

end EmergencyAgent

namespace LearningAgent

/-- Agent identity. -/
def id : String := "learning_agent"

/-- Agent display name. -/
def name : String := "Learning Agent"

/-- Agent priority (lowest). -/
def priority : Nat := 30

/-- The learning agent always activates. -/
def shouldActivate (_input : AgentInput) : Bool := true

/-- Known medical terms. -/
def medicalTerms : List String :=
  ["eclampsia", "preeclampsia", "placenta", "gestational", "trimester",
   "fetal", "contractions", "dilation", "effacement", "braxton"]

/-- Split on whitespace (model of `split(/\s+/)`; empty fragments are
discarded downstream by the length filter, as in the source). -/
def splitWsAux : List Char → List Char → List String
  | [], acc => [String.mk acc.reverse]
  | c :: cs, acc =>
    if Char.isWhitespace c then String.mk acc.reverse :: splitWsAux cs []
    else splitWsAux cs (c :: acc)

/-- String wrapper for `splitWsAux`. -/
def splitWs (s : String) : List String := splitWsAux s.toList []

/-- `findUnknownTerms`. -/
def findUnknownTerms (message : String) : List String :=
  let words := splitWs (lowerStr message)
  let potentialMedical := words.filter (fun w =>
    decide (w.toList.length > 6) &&
    !(medicalTerms.any (fun mt => strIncludes w mt)) &&
    w.toList.any (fun c => ['a', 'e', 'i', 'o', 'u'].contains c.toLower))
  potentialMedical.take 3

/-- `identifyLearningOpportunities`. -/
def identifyLearningOpportunities (input : AgentInput) : List LearningOpportunity :=
  let o1 : List LearningOpportunity :=
    match input.context.symptoms with
    | some syms =>
      if syms.length ≥ 3 then
        [{ type := .unusual_case
           description := "Multiple symptoms reported - may represent novel case"
           suggestedAction := "Flag for medical review and potential dataset addition"
           dataForReview := [("symptoms", syms)] }]
      else []
    | none => []
  let unknownTerms := findUnknownTerms input.message
  let o2 : List LearningOpportunity :=
    if !unknownTerms.isEmpty then
      [{ type := .knowledge_gap
         description := "Potentially unknown terms detected: " ++ joinComma unknownTerms
         suggestedAction := "Review terms for potential addition to medical ontology"
         dataForReview := [("unknownTerms", unknownTerms)] }]
    else []
  let o3 : List LearningOpportunity :=
    if strIncludes (lowerStr input.message) "didn\x27t help" ||
       strIncludes (lowerStr input.message) "wrong" ||
       strIncludes (lowerStr input.message) "not accurate" then
      [{ type := .feedback_needed
         description := "User indicated dissatisfaction with previous response"
         suggestedAction := "Review conversation for response improvement"
         dataForReview := [("userFeedback", [input.message])] }]
    else []
  o1 ++ o2 ++ o3

/-- The learning agent's `process`. -/
def processOut (input : AgentInput) : AgentOutput :=
  let opportunities := identifyLearningOpportunities input
  { agentId := id
    agentName := name
    response := "Learning analysis complete."
    confidence := 0.7
    priority := priority
    metadata :=
      { learningOpportunities := opportunities
        totalOpportunities := opportunities.length } }

end LearningAgent

/-! ## Multi-agent system: orchestrator -/

/-- One agent of the orchestrator's pool: identity, priority, activation
predicate and a (possibly failing) `process`. Rejected promises are modelled
as `Except.error`. -/
structure AgentSpec where
  id : String
  name : String
  priority : Nat
  shouldActivate : AgentInput → Bool
  process : AgentInput → Except String AgentOutput

/-- The triage agent as a pool entry. -/
def triageAgent : AgentSpec :=
  ⟨TriageAgent.id, TriageAgent.name, TriageAgent.priority, TriageAgent.shouldActivate,
   fun i => .ok (TriageAgent.processOut i)⟩

/-- The emergency agent as a pool entry. -/
def emergencyAgent : AgentSpec :=
  ⟨EmergencyAgent.id, EmergencyAgent.name, EmergencyAgent.priority,
   EmergencyAgent.shouldActivate, fun i => .ok (EmergencyAgent.processOut i)⟩

/-- The safety agent as a pool entry. -/
def safetyAgent : AgentSpec :=
  ⟨SafetyAgent.id, SafetyAgent.name, SafetyAgent.priority, SafetyAgent.shouldActivate,
   fun i => .ok (SafetyAgent.processOut i)⟩

/-- The obstetric agent as a pool entry. -/
def obstetricAgent : AgentSpec :=
  ⟨ObstetricAgent.id, ObstetricAgent.name, ObstetricAgent.priority,
   ObstetricAgent.shouldActivate, fun i => .ok (ObstetricAgent.processOut i)⟩

/-- The education agent as a pool entry. -/
def educationAgent : AgentSpec :=
  ⟨EducationAgent.id, EducationAgent.name, EducationAgent.priority,
   EducationAgent.shouldActivate, fun i => .ok (EducationAgent.processOut i)⟩

/-- The learning agent as a pool entry. -/
def learningAgent : AgentSpec :=
  ⟨LearningAgent.id, LearningAgent.name, LearningAgent.priority, LearningAgent.shouldActivate,
   fun i => .ok (LearningAgent.processOut i)⟩

/-- A detected conflict between agents. -/
structure Conflict where
  agents : List String
  description : String
deriving DecidableEq, Repr

/-- `OrchestratorResult` (the `reasoning` trace of the source is
presentation-only and is not modelled). -/
structure OrchestratorResult where
  finalResponse : String
  contributingAgents : List String
  consensusReached : Bool
  conflictsResolved : List String
  overallConfidence : ℚ
  safetyChecked : Bool
  requiresEscalation : Bool
  escalationDetails : Option String := none
  learningOpportunity : Option LearningOpportunity := none
deriving DecidableEq, Repr

namespace AgentOrchestrator

/-- The orchestrator's pool, in construction order. -/
def agents : List AgentSpec :=
  [triageAgent, emergencyAgent, safetyAgent, obstetricAgent, educationAgent, learningAgent]

/-- Stable insertion for the priority-descending sort (JS
`sort((a, b) => b.priority - a.priority)` is stable). -/
def insertByPriorityDesc (a : AgentSpec) : List AgentSpec → List AgentSpec
  | [] => [a]
  | b :: bs => if b.priority > a.priority then b :: insertByPriorityDesc a bs else a :: b :: bs

/-- Stable sort by descending priority. -/
def sortByPriorityDesc : List AgentSpec → List AgentSpec
  | [] => []
  | a :: as => insertByPriorityDesc a (sortByPriorityDesc as)

/-- Model of `Promise.all`: the first rejection (in list order) rejects the
whole batch, otherwise all results are collected in order. -/
def promiseAll : List (Except String AgentOutput) → Except String (List AgentOutput)
  | [] => .ok []
  | x :: xs =>
    match x with
    | .error e => .error e
    | .ok a =>
      match promiseAll xs with
      | .error e => .error e
      | .ok as => .ok (a :: as)

/-- `detectConflicts`: the only implemented check is a routine triage
assessment against a detected emergency pattern. -/
def detectConflicts (outputs : List AgentOutput) : List Conflict :=
  match outputs.find? (fun o => o.agentId == "triage_agent"),
        outputs.find? (fun o => o.agentId == "emergency_agent") with
  | some t, some e =>
    if t.metadata.urgencyLevel == some TriageUrgency.routine &&
       e.metadata.emergencyDetected == some true then
      [{ agents := ["Triage Agent", "Emergency Agent"]
         description := "Triage assessed as routine but Emergency Agent detected emergency patterns" }]
    else []
  | _, _ => []

/-- Selection score: `(priority/100) * 0.4 + confidence * 0.6`. -/
def score (o : AgentOutput) : ℚ := ((o.priority : ℚ) / 100) * 0.4 + o.confidence * 0.6

/-- Fallback output for the (unreachable) `outputs[0]` on an empty pool; the
source would throw a `TypeError` there, and the shipped pool always contains
the always-active triage agent. -/
def emptyOutput : AgentOutput :=
  { agentId := "", agentName := "", response := "", confidence := 0, priority := 0,
    metadata := {} }

/-- `selectBestResponse`: drop the meta agents, then take the leftmost
maximal score (the stable descending sort of the source picks exactly the
first maximum). -/
def selectBestResponse (outputs : List AgentOutput) : AgentOutput :=
  let contentAgents := outputs.filter (fun o =>
    !(["safety_agent", "learning_agent"].contains o.agentId))
  match contentAgents with
  | [] => outputs.headD emptyOutput
  | c :: cs => cs.foldl (fun best o => if score o > score best then o else best) c

/-- `calculateOverallConfidence`: the mean confidence. -/
def calculateOverallConfidence (outputs : List AgentOutput) : ℚ :=
  (outputs.foldl (fun sum o => sum + o.confidence) 0) / (outputs.length : ℚ)

/-- `handleEmergencyResult`. -/
def handleEmergencyResult (emergencyOutput : AgentOutput) (_allOutputs : List AgentOutput) :
    OrchestratorResult :=
  { finalResponse := emergencyOutput.response
    contributingAgents := ["Emergency Agent"]
    consensusReached := true
    conflictsResolved := []
    overallConfidence := 0.95
    safetyChecked := true
    requiresEscalation := true
    escalationDetails := emergencyOutput.escalationReason
    learningOpportunity := none }

/-- Steps 4-7 of the orchestrator's non-emergency path: select the best
response, run it through the safety filter, detect conflicts and assemble
the merged result. -/
def assembleResult (outputs : List AgentOutput) : OrchestratorResult :=
  let selectedResponse := selectBestResponse outputs
  let safetyReview := SafetyAgent.reviewResponse selectedResponse.response
  let conflicts := detectConflicts outputs
  let learningOutput := outputs.find? (fun o => o.agentId == "learning_agent")
  let learningOpportunity :=
    ((learningOutput.map (fun o => o.metadata.learningOpportunities)).getD []).head?
  { finalResponse := safetyReview.modifiedResponse
    contributingAgents :=
      (outputs.filter (fun o => o.confidence > 0.5)).map (fun o => o.agentName)
    consensusReached := conflicts.isEmpty
    conflictsResolved := conflicts.map (fun c => c.description)
    overallConfidence := calculateOverallConfidence outputs
    safetyChecked := true
    requiresEscalation := outputs.any (fun o => o.escalate)
    escalationDetails := (outputs.find? (fun o => o.escalate)).bind
      (fun o => o.escalationReason)
    learningOpportunity := learningOpportunity }

/-- Steps 3-7 after `Promise.all` resolves: short-circuit on an escalating
emergency output, otherwise select, safety-review, detect conflicts and
assemble the merged result. -/
def afterAll (outputs : List AgentOutput) : Except String OrchestratorResult :=
  match outputs.find? (fun o => o.agentId == "emergency_agent" && o.escalate) with
  | some emergencyOutput => .ok (handleEmergencyResult emergencyOutput outputs)
  | none => .ok (assembleResult outputs)

/-- The generic body of `process`, parametric in the agent pool: activate,
sort by priority, await all agents (`promiseAll`), then hand the collected
outputs to `afterAll`. -/
def processWith (pool : List AgentSpec) (input : AgentInput) :
    Except String OrchestratorResult :=
  let activeAgents := pool.filter (fun a => a.shouldActivate input)
  let sorted := sortByPriorityDesc activeAgents
  match promiseAll (sorted.map (fun a => a.process input)) with
  | .error e => .error e
  | .ok outputs => afterAll outputs

/-- The exported singleton orchestrator's `process`. -/
def process (input : AgentInput) : Except String OrchestratorResult :=
  processWith agents input

end AgentOrchestrator

/-! ## Orchestrator lemmas -/

namespace AgentOrchestrator

/-- Equation lemma for `promiseAll` on a cons cell. -/
theorem promiseAll_cons (x : Except String AgentOutput)
    (xs : List (Except String AgentOutput)) :
    promiseAll (x :: xs) =
      match x with
      | .error e => .error e
      | .ok a =>
        match promiseAll xs with
        | .error e => .error e
        | .ok rest => .ok (a :: rest) := rfl

/-- Membership is preserved by the insertion step of the priority sort. -/
theorem mem_insertByPriorityDesc (a x : AgentSpec) (l : List AgentSpec) :
    x ∈ insertByPriorityDesc a l ↔ x = a ∨ x ∈ l := by
  induction l with
  | nil => simp [insertByPriorityDesc]
  | cons b bs ih =>
    unfold insertByPriorityDesc
    by_cases h : b.priority > a.priority
    · rw [if_pos h]
      simp only [List.mem_cons, ih]
      tauto
    · rw [if_neg h]
      simp only [List.mem_cons]

/-- The priority sort permutes membership. -/
theorem mem_sortByPriorityDesc (x : AgentSpec) (l : List AgentSpec) :
    x ∈ sortByPriorityDesc l ↔ x ∈ l := by
  induction l with
  | nil => simp [sortByPriorityDesc]
  | cons a as ih =>
    unfold sortByPriorityDesc
    rw [mem_insertByPriorityDesc]
    simp only [List.mem_cons, ih]

/-- `find?` returns a designated element when it is the only satisfier. -/
theorem find_eq_some_of_unique {α : Type} (p : α → Bool) (l : List α) (t : α)
    (hmem : t ∈ l) (hp : p t = true)
    (huniq : ∀ x ∈ l, p x = true → x = t) :
    l.find? p = some t := by
  induction l with
  | nil => exact absurd hmem (List.not_mem_nil t)
  | cons a as ih =>
    cases hpa : p a with
    | false =>
      rw [List.find?_cons_of_neg _ (by simp [hpa])]
      have hta : t ≠ a := by
        intro he
        rw [he] at hp
        rw [hp] at hpa
        exact Bool.noConfusion hpa
      apply ih
      · rcases List.mem_cons.mp hmem with h | h
        · exact absurd h hta
        · exact h
      · intro y hy hpy
        exact huniq y (List.mem_cons_of_mem a hy) hpy
    | true =>
      rw [List.find?_cons_of_pos _ hpa]
      rw [huniq a (List.mem_cons_self a as) hpa]

/-- When every agent in the list succeeds, `promiseAll` over the mapped
process calls succeeds, and the collected outputs correspond to the agents
in both directions. -/
theorem promiseAll_ok_map (input : AgentInput) (l : List AgentSpec)
    (h : ∀ a ∈ l, ∃ v, a.process input = Except.ok v) :
    ∃ outs, promiseAll (l.map (fun a => a.process input)) = Except.ok outs ∧
      (∀ o ∈ outs, ∃ a ∈ l, a.process input = Except.ok o) ∧
      (∀ a ∈ l, ∃ o ∈ outs, a.process input = Except.ok o) := by
  induction l with
  | nil =>
    refine ⟨[], rfl, ?_, ?_⟩
    · intro o ho
      exact absurd ho (List.not_mem_nil o)
    · intro a ha
      exact absurd ha (List.not_mem_nil a)
  | cons a as ih =>
    obtain ⟨v, hv⟩ := h a (List.mem_cons_self a as)
    obtain ⟨outs, h1, h2, h3⟩ := ih (fun b hb => h b (List.mem_cons_of_mem a hb))
    refine ⟨v :: outs, ?_, ?_, ?_⟩
    · rw [List.map_cons, promiseAll_cons, hv, h1]
    · intro o ho
      rcases List.mem_cons.mp ho with rfl | ho
      · exact ⟨a, List.mem_cons_self a as, hv⟩
      · obtain ⟨b, hb, hbo⟩ := h2 o ho
        exact ⟨b, List.mem_cons_of_mem a hb, hbo⟩
    · intro b hb
      rcases List.mem_cons.mp hb with rfl | hb
      · exact ⟨v, List.mem_cons_self v outs, hv⟩
      · obtain ⟨o, ho, hbo⟩ := h3 b hb
        exact ⟨o, List.mem_cons_of_mem v ho, hbo⟩

/-- `promiseAll` rejects whenever some element rejects. -/
theorem promiseAll_error_of_mem (xs : List (Except String AgentOutput)) (e : String)
    (hx : Except.error e ∈ xs) : ∃ e2, promiseAll xs = Except.error e2 := by
  induction xs with
  | nil => exact absurd hx (List.not_mem_nil _)
  | cons x xs ih =>
    rw [promiseAll_cons]
    cases x with
    | error e1 => exact ⟨e1, rfl⟩
    | ok a =>
      have hx2 : Except.error e ∈ xs := by
        rcases List.mem_cons.mp hx with h | h
        · exact Except.noConfusion h
        · exact h
      obtain ⟨e2, h2⟩ := ih hx2
      rw [h2]
      exact ⟨e2, rfl⟩

/-- Branch lemma: a successful `promiseAll` whose outputs contain an
escalating emergency output makes `processWith` take the emergency
short-circuit. -/
theorem processWith_emergency_branch (pool : List AgentSpec) (input : AgentInput)
    (outs : List AgentOutput) (eo : AgentOutput)
    (hpa : promiseAll ((sortByPriorityDesc (pool.filter
        (fun a => a.shouldActivate input))).map (fun a => a.process input)) =
      Except.ok outs)
    (hfind : outs.find? (fun o => o.agentId == "emergency_agent" && o.escalate) = some eo) :
    processWith pool input = Except.ok (handleEmergencyResult eo outs) := by
  unfold processWith
  dsimp only
  rw [hpa]
  show afterAll outs = Except.ok (handleEmergencyResult eo outs)
  unfold afterAll
  rw [hfind]

/-- Branch lemma: a successful `promiseAll` whose outputs contain no
escalating emergency output makes `processWith` assemble the merged
result. -/
theorem processWith_normal_branch (pool : List AgentSpec) (input : AgentInput)
    (outs : List AgentOutput)
    (hpa : promiseAll ((sortByPriorityDesc (pool.filter
        (fun a => a.shouldActivate input))).map (fun a => a.process input)) =
      Except.ok outs)
    (hfind : outs.find? (fun o => o.agentId == "emergency_agent" && o.escalate) = none) :
    processWith pool input = Except.ok (assembleResult outs) := by
  unfold processWith
  dsimp only
  rw [hpa]
  show afterAll outs = Except.ok (assembleResult outs)
  unfold afterAll
  rw [hfind]

/-- Branch lemma: a rejecting `promiseAll` rejects `processWith`. -/
theorem processWith_error_branch (pool : List AgentSpec) (input : AgentInput) (e : String)
    (hpa : promiseAll ((sortByPriorityDesc (pool.filter
        (fun a => a.shouldActivate input))).map (fun a => a.process input)) =
      Except.error e) :
    processWith pool input = Except.error e := by
  unfold processWith
  dsimp only
  rw [hpa]

end AgentOrchestrator

/-- A list with a member is not empty. -/
theorem bnot_isEmpty_of_mem {α : Type} (l : List α) (x : α) (hx : x ∈ l) :
    (!l.isEmpty) = true := by
  cases l with
  | nil => exact absurd hx (List.not_mem_nil x)
  | cons a as => rfl

/-- When the emergency agent activates, its output escalates (the matched
pattern list is nonempty). -/
theorem emergencyEscalate (input : AgentInput)
    (h : EmergencyAgent.shouldActivate input = true) :
    (EmergencyAgent.processOut input).escalate = true := by
  unfold EmergencyAgent.shouldActivate at h
  rw [List.any_eq_true] at h
  obtain ⟨ep, hmem, hp⟩ := h
  show (!(EmergencyAgent.emergencyPatterns.filter
      (fun ep => EmergencyAgent.patternTest ep (lowerStr input.message))).isEmpty) = true
  exact bnot_isEmpty_of_mem _ ep (List.mem_filter.mpr ⟨hmem, hp⟩)

/-- Every shipped pool entry succeeds on every input. -/
theorem agents_process_ok (input : AgentInput) (a : AgentSpec)
    (ha : a ∈ AgentOrchestrator.agents) :
    ∃ v, a.process input = Except.ok v := by
  simp only [AgentOrchestrator.agents, List.mem_cons, List.not_mem_nil, or_false] at ha
  rcases ha with rfl | rfl | rfl | rfl | rfl | rfl
  · exact ⟨TriageAgent.processOut input, rfl⟩
  · exact ⟨EmergencyAgent.processOut input, rfl⟩
  · exact ⟨SafetyAgent.processOut input, rfl⟩
  · exact ⟨ObstetricAgent.processOut input, rfl⟩
  · exact ⟨EducationAgent.processOut input, rfl⟩
  · exact ⟨LearningAgent.processOut input, rfl⟩

/-- Among the shipped agents, only the emergency agent ever emits an output
whose `agentId` is `"emergency_agent"`, and that output is its
`processOut`. -/
theorem output_id_emergency (input : AgentInput) (a : AgentSpec)
    (ha : a ∈ AgentOrchestrator.agents) (o : AgentOutput)
    (ho : a.process input = Except.ok o) (hid : o.agentId = "emergency_agent") :
    a = emergencyAgent ∧ o = EmergencyAgent.processOut input := by
  simp only [AgentOrchestrator.agents, List.mem_cons, List.not_mem_nil, or_false] at ha
  rcases ha with rfl | rfl | rfl | rfl | rfl | rfl
  · have he : o = TriageAgent.processOut input :=
      (Except.ok.inj (show Except.ok (TriageAgent.processOut input) = Except.ok o from ho)).symm
    rw [he] at hid
    rw [show (TriageAgent.processOut input).agentId = "triage_agent" from rfl] at hid
    exact absurd hid (by decide)
  · exact ⟨rfl, (Except.ok.inj
      (show Except.ok (EmergencyAgent.processOut input) = Except.ok o from ho)).symm⟩
  · have he : o = SafetyAgent.processOut input :=
      (Except.ok.inj (show Except.ok (SafetyAgent.processOut input) = Except.ok o from ho)).symm
    rw [he] at hid
    rw [show (SafetyAgent.processOut input).agentId = "safety_agent" from rfl] at hid
    exact absurd hid (by decide)
  · have he : o = ObstetricAgent.processOut input :=
      (Except.ok.inj
        (show Except.ok (ObstetricAgent.processOut input) = Except.ok o from ho)).symm
    rw [he] at hid
    rw [show (ObstetricAgent.processOut input).agentId = "obstetric_agent" from rfl] at hid
    exact absurd hid (by decide)
  · have he : o = EducationAgent.processOut input :=
      (Except.ok.inj
        (show Except.ok (EducationAgent.processOut input) = Except.ok o from ho)).symm
    rw [he] at hid
    rw [show (EducationAgent.processOut input).agentId = "education_agent" from rfl] at hid
    exact absurd hid (by decide)
  · have he : o = LearningAgent.processOut input :=
      (Except.ok.inj
        (show Except.ok (LearningAgent.processOut input) = Except.ok o from ho)).symm
    rw [he] at hid
    rw [show (LearningAgent.processOut input).agentId = "learning_agent" from rfl] at hid
    exact absurd hid (by decide)

/-- C1: whenever one of the emergency patterns matches the message (the
emergency agent activates), `AgentOrchestrator.process` succeeds and
short-circuits: escalation is required, the emergency agent is the sole
contributor, the overall confidence is 0.95 and the final response is the
emergency response itself. -/
theorem C1_emergency_short_circuit (input : AgentInput)
    (h : EmergencyAgent.shouldActivate input = true) :
    ∃ r, AgentOrchestrator.process input = Except.ok r ∧
      r.requiresEscalation = true ∧
      r.contributingAgents = ["Emergency Agent"] ∧
      r.overallConfidence = 0.95 ∧
      r.finalResponse = (EmergencyAgent.processOut input).response := by
  have hsub : ∀ a ∈ AgentOrchestrator.sortByPriorityDesc
      (AgentOrchestrator.agents.filter (fun a => a.shouldActivate input)),
      a ∈ AgentOrchestrator.agents := by
    intro a ha
    exact (List.mem_filter.mp ((AgentOrchestrator.mem_sortByPriorityDesc a _).mp ha)).1
  obtain ⟨outs, hpa, h2, h3⟩ := AgentOrchestrator.promiseAll_ok_map input
    (AgentOrchestrator.sortByPriorityDesc
      (AgentOrchestrator.agents.filter (fun a => a.shouldActivate input)))
    (fun a ha => agents_process_ok input a (hsub a ha))
  have hmemE : emergencyAgent ∈ AgentOrchestrator.sortByPriorityDesc
      (AgentOrchestrator.agents.filter (fun a => a.shouldActivate input)) := by
    rw [AgentOrchestrator.mem_sortByPriorityDesc]
    refine List.mem_filter.mpr ⟨?_, ?_⟩
    · simp [AgentOrchestrator.agents]
    · exact h
  obtain ⟨oE, hoE, hoEok⟩ := h3 emergencyAgent hmemE
  have hoEeq : oE = EmergencyAgent.processOut input :=
    (Except.ok.inj
      (show Except.ok (EmergencyAgent.processOut input) = Except.ok oE from hoEok)).symm
  have hesc : (EmergencyAgent.processOut input).escalate = true := emergencyEscalate input h
  have hfind : outs.find? (fun o => o.agentId == "emergency_agent" && o.escalate)
      = some (EmergencyAgent.processOut input) := by
    apply AgentOrchestrator.find_eq_some_of_unique
    · rw [← hoEeq]
      exact hoE
    · show ((EmergencyAgent.processOut input).agentId == "emergency_agent"
        && (EmergencyAgent.processOut input).escalate) = true
      rw [hesc]
      rfl
    · intro x hx hpx
      simp only [Bool.and_eq_true, beq_iff_eq] at hpx
      obtain ⟨a, ha, hax⟩ := h2 x hx
      exact (output_id_emergency input a (hsub a ha) x hax hpx.1).2
  exact ⟨AgentOrchestrator.handleEmergencyResult (EmergencyAgent.processOut input) outs,
    AgentOrchestrator.processWith_emergency_branch AgentOrchestrator.agents input outs
      (EmergencyAgent.processOut input) hpa hfind,
    rfl, rfl, rfl, rfl⟩

/-- A concrete emergency input for the orchestrator instances. -/
def c1Input : AgentInput :=
  { message := "I have severe bleeding since this morning", userId := "u1",
    userRole := UserRole.mother, context := {} }

/-- Witness for C1 at a concrete severe-bleeding message. -/
theorem C1_witness :
    EmergencyAgent.shouldActivate c1Input = true ∧
    ∃ r, AgentOrchestrator.process c1Input = Except.ok r ∧
      r.requiresEscalation = true ∧
      r.contributingAgents = ["Emergency Agent"] ∧
      r.overallConfidence = 0.95 ∧
      r.finalResponse = (EmergencyAgent.processOut c1Input).response :=
  ⟨by decide, C1_emergency_short_circuit c1Input (by decide)⟩

/-- When no output carries the emergency agent identity, the only
implemented conflict check cannot fire. -/
theorem detectConflicts_eq_nil (outs : List AgentOutput)
    (h : outs.find? (fun o => o.agentId == "emergency_agent") = none) :
    AgentOrchestrator.detectConflicts outs = [] := by
  unfold AgentOrchestrator.detectConflicts
  rw [h]
  cases outs.find? (fun o => o.agentId == "triage_agent") with
  | none => rfl
  | some t => rfl

/-- C10: an activating emergency agent always escalates, so the advisory
conflict between a routine triage assessment and a non-escalating emergency
match is unreachable: every successful orchestrator result has an empty
`conflictsResolved` list and `consensusReached = true`. -/
theorem C10_conflicts_unreachable (input : AgentInput) :
    (EmergencyAgent.shouldActivate input = true →
      (EmergencyAgent.processOut input).escalate = true) ∧
    ∀ r, AgentOrchestrator.process input = Except.ok r →
      r.conflictsResolved = [] ∧ r.consensusReached = true := by
  refine ⟨fun h => emergencyEscalate input h, ?_⟩
  intro r hr
  have hsub : ∀ a ∈ AgentOrchestrator.sortByPriorityDesc
      (AgentOrchestrator.agents.filter (fun a => a.shouldActivate input)),
      a ∈ AgentOrchestrator.agents := by
    intro a ha
    exact (List.mem_filter.mp ((AgentOrchestrator.mem_sortByPriorityDesc a _).mp ha)).1
  obtain ⟨outs, hpa, h2, h3⟩ := AgentOrchestrator.promiseAll_ok_map input
    (AgentOrchestrator.sortByPriorityDesc
      (AgentOrchestrator.agents.filter (fun a => a.shouldActivate input)))
    (fun a ha => agents_process_ok input a (hsub a ha))
  cases hfind : outs.find? (fun o => o.agentId == "emergency_agent" && o.escalate) with
  | some eo =>
    have hreq2 : AgentOrchestrator.process input =
        Except.ok (AgentOrchestrator.handleEmergencyResult eo outs) :=
      AgentOrchestrator.processWith_emergency_branch AgentOrchestrator.agents input outs eo
        hpa hfind
    rw [hr] at hreq2
    rw [Except.ok.inj hreq2]
    exact ⟨rfl, rfl⟩
  | none =>
    have hNoE : outs.find? (fun o => o.agentId == "emergency_agent") = none := by
      rw [List.find?_eq_none]
      intro x hx hpred
      rw [beq_iff_eq] at hpred
      obtain ⟨a, ha, hax⟩ := h2 x hx
      obtain ⟨haE, hxE⟩ := output_id_emergency input a (hsub a ha) x hax hpred
      have hact : EmergencyAgent.shouldActivate input = true := by
        have := (List.mem_filter.mp
          ((AgentOrchestrator.mem_sortByPriorityDesc a _).mp ha)).2
        rw [haE] at this
        exact this
      have hesc : (EmergencyAgent.processOut input).escalate = true :=
        emergencyEscalate input hact
      have hnone := List.find?_eq_none.mp hfind x hx
      apply hnone
      rw [hxE]
      show ((EmergencyAgent.processOut input).agentId == "emergency_agent"
        && (EmergencyAgent.processOut input).escalate) = true
      rw [hesc]
      rfl
    have hconf : AgentOrchestrator.detectConflicts outs = [] :=
      detectConflicts_eq_nil outs hNoE
    have hreq2 : AgentOrchestrator.process input =
        Except.ok (AgentOrchestrator.assembleResult outs) :=
      AgentOrchestrator.processWith_normal_branch AgentOrchestrator.agents input outs
        hpa hfind
    rw [hr] at hreq2
    rw [Except.ok.inj hreq2]
    constructor
    · show (AgentOrchestrator.detectConflicts outs).map (fun c => c.description) = []
      rw [hconf]
      rfl
    · show (AgentOrchestrator.detectConflicts outs).isEmpty = true
      rw [hconf]
      rfl

/-- A concrete seizure message for the C10 instance. -/
def c10Input : AgentInput :=
  { message := "I think I am having a seizure", userId := "u10",
    userRole := UserRole.mother, context := {} }

/-- The orchestrator result on `c10Input` (the emergency short-circuit). -/
def c10Expected : OrchestratorResult :=
  { finalResponse := EmergencyAgent.responseFor "call_emergency"
    contributingAgents := ["Emergency Agent"]
    consensusReached := true
    conflictsResolved := []
    overallConfidence := 0.95
    safetyChecked := true
    requiresEscalation := true
    escalationDetails := some "Emergency detected: critical - call_emergency"
    learningOpportunity := none }

/-- Witness for C10 at the concrete seizure message. -/
theorem C10_witness :
    (EmergencyAgent.processOut c10Input).escalate = true ∧
    (c10Expected.conflictsResolved = [] ∧ c10Expected.consensusReached = true) :=
  ⟨(C10_conflicts_unreachable c10Input).1 (by decide),
   (C10_conflicts_unreachable c10Input).2 c10Expected (by rfl)⟩

/-- A triage pool entry whose `process` rejects, probing the failure
semantics of the orchestrator (the source awaits `Promise.all` with no
try/catch). -/
def failingTriageAgent : AgentSpec :=
  ⟨TriageAgent.id, TriageAgent.name, TriageAgent.priority, TriageAgent.shouldActivate,
   fun _ => .error "triage_agent failed"⟩

/-- The shipped pool with the triage agent replaced by a failing one. -/
def failingPool : List AgentSpec :=
  [failingTriageAgent, emergencyAgent, safetyAgent, obstetricAgent, educationAgent,
   learningAgent]

/-- A concrete benign message for the failure-propagation instances. -/
def c3Input : AgentInput :=
  { message := "hello there", userId := "u3", userRole := UserRole.mother, context := {} }

/-- C3 counterexample: with a single failing agent in the pool, the
orchestrator body does not return a well-formed result treating that agent
as abstaining; the rejection propagates to the caller. -/
theorem C3_counterexample :
    AgentOrchestrator.processWith failingPool c3Input =
      Except.error "triage_agent failed" := by
  rfl

/-- C3 (amended): the six shipped agents never reject, so the shipped
orchestrator always returns a well-formed result; but the orchestrator has
no handler around `Promise.all`, so a failing agent in the pool rejects the
whole `process` call instead of being treated as abstaining. -/
theorem C3_failure_propagation (input : AgentInput) :
    (∃ r, AgentOrchestrator.process input = Except.ok r) ∧
    (∃ e, AgentOrchestrator.processWith failingPool input = Except.error e) := by
  constructor
  · have hsub : ∀ a ∈ AgentOrchestrator.sortByPriorityDesc
        (AgentOrchestrator.agents.filter (fun a => a.shouldActivate input)),
        a ∈ AgentOrchestrator.agents := by
      intro a ha
      exact (List.mem_filter.mp ((AgentOrchestrator.mem_sortByPriorityDesc a _).mp ha)).1
    obtain ⟨outs, hpa, h2, h3⟩ := AgentOrchestrator.promiseAll_ok_map input
      (AgentOrchestrator.sortByPriorityDesc
        (AgentOrchestrator.agents.filter (fun a => a.shouldActivate input)))
      (fun a ha => agents_process_ok input a (hsub a ha))
    cases hfind : outs.find? (fun o => o.agentId == "emergency_agent" && o.escalate) with
    | some eo =>
      exact ⟨AgentOrchestrator.handleEmergencyResult eo outs,
        AgentOrchestrator.processWith_emergency_branch AgentOrchestrator.agents input outs
          eo hpa hfind⟩
    | none =>
      exact ⟨AgentOrchestrator.assembleResult outs,
        AgentOrchestrator.processWith_normal_branch AgentOrchestrator.agents input outs
          hpa hfind⟩
  · have hmemF : failingTriageAgent ∈ AgentOrchestrator.sortByPriorityDesc
        (failingPool.filter (fun a => a.shouldActivate input)) := by
      rw [AgentOrchestrator.mem_sortByPriorityDesc]
      refine List.mem_filter.mpr ⟨?_, rfl⟩
      simp [failingPool]
    have hmemE : Except.error "triage_agent failed" ∈
        (AgentOrchestrator.sortByPriorityDesc
          (failingPool.filter (fun a => a.shouldActivate input))).map
          (fun a => a.process input) :=
      List.mem_map.mpr ⟨failingTriageAgent, hmemF, rfl⟩
    obtain ⟨e2, h2⟩ := AgentOrchestrator.promiseAll_error_of_mem _ _ hmemE
    exact ⟨e2, AgentOrchestrator.processWith_error_branch failingPool input e2 h2⟩

/-- C6 counterexample: the safety filter is not idempotent. On a response
with two definitive claims, the first pass hedges only the first occurrence
(JS `replace` with a non-global regex), and the second pass hedges the
second one, so the outputs differ. -/
theorem C6_counterexample :
    (SafetyAgent.reviewResponse
      (SafetyAgent.reviewResponse
        "you definitely have preeclampsia and you definitely have anemia"
        ).modifiedResponse).modifiedResponse ≠
    (SafetyAgent.reviewResponse
      "you definitely have preeclampsia and you definitely have anemia"
      ).modifiedResponse := by
  decide

/-- String `toList` distributes over append. -/
theorem strToList_append (a b : String) : (a ++ b).toList = a.toList ++ b.toList := by
  cases a with
  | mk da =>
    cases b with
    | mk db => rfl

/-- A normalised prefix match on `a ++ b` stays inside `a` when no pattern
character can match the first character of `b`. -/
theorem startsWithBy_append_left (f : Char → Char) (pat : List Char) (a b : List Char)
    (hb : ∀ p ∈ pat, ∀ c, b.head? = some c → (f p == f c) = false)
    (h : startsWithBy f pat (a ++ b) = true) :
    startsWithBy f pat a = true := by
  induction pat generalizing a with
  | nil => rfl
  | cons p ps ih =>
    cases a with
    | nil =>
      cases b with
      | nil => exact Bool.noConfusion h
      | cons c bs =>
        have hpc := hb p (List.mem_cons_self p ps) c rfl
        rw [List.nil_append] at h
        simp only [startsWithBy, Bool.and_eq_true] at h
        rw [hpc] at h
        exact Bool.noConfusion h.1
    | cons x xs =>
      simp only [List.cons_append, startsWithBy, Bool.and_eq_true] at h
      simp only [startsWithBy, Bool.and_eq_true]
      refine ⟨h.1, ?_⟩
      exact ih xs (fun q hq c hc => hb q (List.mem_cons_of_mem p hq) c hc) h.2

/-- A normalised substring occurrence in `a ++ b` lies inside `a` or inside
`b` when no pattern character can match the first character of `b` (no
occurrence can straddle the boundary). -/
theorem containsBy_append_cases (f : Char → Char) (pat : List Char) (a b : List Char)
    (hb : ∀ p ∈ pat, ∀ c, b.head? = some c → (f p == f c) = false)
    (h : containsBy f pat (a ++ b) = true) :
    containsBy f pat a = true ∨ containsBy f pat b = true := by
  induction a with
  | nil => exact Or.inr h
  | cons x xs ih =>
    simp only [List.cons_append, containsBy, Bool.or_eq_true] at h
    rcases h with h | h
    · left
      simp only [containsBy, Bool.or_eq_true]
      left
      exact startsWithBy_append_left f pat (x :: xs) b hb h
    · rcases ih h with h2 | h2
      · left
        simp only [containsBy, Bool.or_eq_true]
        right
        exact h2
      · exact Or.inr h2

/-- A substring occurrence in `b` is one in `a ++ b`. -/
theorem containsBy_append_right (f : Char → Char) (pat : List Char) (a b : List Char)
    (h : containsBy f pat b = true) : containsBy f pat (a ++ b) = true := by
  induction a with
  | nil => exact h
  | cons x xs ih =>
    simp only [List.cons_append, containsBy, Bool.or_eq_true]
    exact Or.inr ih

/-- A review step on a pattern absent from the original response is the
identity. -/
theorem reviewStep_of_not (response : String) (acc : String × List String) (pat : String)
    (hp : containsCI response pat = false) :
    SafetyAgent.reviewStep response acc pat = acc := by
  unfold SafetyAgent.reviewStep
  rw [if_neg]
  rw [hp]
  exact Bool.false_ne_true

/-- The definitive-pattern fold is the identity when no pattern occurs in
the original response. -/
theorem reviewFold_id (response : String) (pats : List String) (acc : String × List String)
    (h : ∀ pat ∈ pats, containsCI response pat = false) :
    pats.foldl (SafetyAgent.reviewStep response) acc = acc := by
  induction pats generalizing acc with
  | nil => rfl
  | cons p ps ih =>
    rw [List.foldl_cons,
      reviewStep_of_not response acc p (h p (List.mem_cons_self p ps))]
    exact ih acc (fun pat hmem => h pat (List.mem_cons_of_mem p hmem))

/-- On a response containing no definitive pattern, `reviewResponse` only
(possibly) appends the disclaimer. -/
theorem reviewResponse_mod_no_pattern (r : String)
    (h : ∀ pat ∈ SafetyAgent.definitivePatterns, containsCI r pat = false) :
    (SafetyAgent.reviewResponse r).modifiedResponse =
      if (strIncludes (lowerStr r) "recommend" || strIncludes (lowerStr r) "should") &&
         (!(strIncludes r "healthcare provider") && !(strIncludes r "doctor")) then
        r ++ SafetyAgent.reviewDisclaimer
      else r := by
  unfold SafetyAgent.reviewResponse
  dsimp only
  rw [reviewFold_id r SafetyAgent.definitivePatterns (r, []) h]

/-- The disclaimer line contains no definitive pattern, case-insensitively. -/
theorem disclaimer_no_pattern :
    ∀ pat ∈ SafetyAgent.definitivePatterns,
      containsCI SafetyAgent.reviewDisclaimer pat = false := by
  decide

/-- The disclaimer line starts with a newline character. -/
theorem disclaimer_head :
    SafetyAgent.reviewDisclaimer.toList.head? = some (Char.ofNat 10) := by
  decide

/-- No character of a definitive pattern lowers to a newline. -/
theorem patterns_no_newline :
    ∀ pa ∈ SafetyAgent.definitivePatterns, ∀ p ∈ pa.toList,
      (Char.toLower p == Char.toLower (Char.ofNat 10)) = false := by
  decide

/-- C6 (amended): on any response free of the definitive-claim patterns the
safety filter is idempotent; in particular the appended disclaimer is never
duplicated, since the disclaimer itself mentions a healthcare provider,
contains no definitive pattern, and no pattern can straddle the appended
boundary (patterns contain no newline). -/
theorem C6_idempotent_no_pattern (r : String)
    (h : ∀ pat ∈ SafetyAgent.definitivePatterns, containsCI r pat = false) :
    (SafetyAgent.reviewResponse
      (SafetyAgent.reviewResponse r).modifiedResponse).modifiedResponse =
      (SafetyAgent.reviewResponse r).modifiedResponse := by
  rw [reviewResponse_mod_no_pattern r h]
  by_cases hc : ((strIncludes (lowerStr r) "recommend" ||
      strIncludes (lowerStr r) "should") &&
      (!(strIncludes r "healthcare provider") && !(strIncludes r "doctor"))) = true
  · rw [if_pos hc]
    have h2 : ∀ pat ∈ SafetyAgent.definitivePatterns,
        containsCI (r ++ SafetyAgent.reviewDisclaimer) pat = false := by
      intro pat hmem
      cases hcc : containsCI (r ++ SafetyAgent.reviewDisclaimer) pat with
      | false => rfl
      | true =>
        exfalso
        have hcc2 : containsBy Char.toLower pat.toList
            (r.toList ++ SafetyAgent.reviewDisclaimer.toList) = true := by
          rw [← strToList_append]
          exact hcc
        rcases containsBy_append_cases Char.toLower pat.toList r.toList
            SafetyAgent.reviewDisclaimer.toList
            (fun p hp c hcsome => by
              rw [disclaimer_head] at hcsome
              rw [← Option.some.inj hcsome]
              exact patterns_no_newline pat hmem p hp) hcc2 with hl | hr
        · have hl2 : containsCI r pat = true := hl
          rw [h pat hmem] at hl2
          exact Bool.noConfusion hl2
        · have hr2 : containsCI SafetyAgent.reviewDisclaimer pat = true := hr
          rw [disclaimer_no_pattern pat hmem] at hr2
          exact Bool.noConfusion hr2
    rw [reviewResponse_mod_no_pattern (r ++ SafetyAgent.reviewDisclaimer) h2]
    have hhp : strIncludes (r ++ SafetyAgent.reviewDisclaimer)
        "healthcare provider" = true := by
      show containsBy id ("healthcare provider".toList)
        (r ++ SafetyAgent.reviewDisclaimer).toList = true
      rw [strToList_append]
      exact containsBy_append_right id ("healthcare provider".toList) r.toList
        SafetyAgent.reviewDisclaimer.toList (by decide)
    rw [hhp]
    simp
  · rw [if_neg hc]
    rw [reviewResponse_mod_no_pattern r h]
    rw [if_neg hc]

/-- Witness for the amended C6 at a concrete advice sentence (the
disclaimer is appended once and a second pass changes nothing). -/
theorem C6_witness :
    (SafetyAgent.definitivePatterns.all
      (fun pat => !containsCI "You should rest" pat)) = true ∧
    (SafetyAgent.reviewResponse
      (SafetyAgent.reviewResponse "You should rest").modifiedResponse).modifiedResponse =
      (SafetyAgent.reviewResponse "You should rest").modifiedResponse :=
  ⟨by decide, C6_idempotent_no_pattern "You should rest" (by decide)⟩
